import Mathlib

/-!
# Fleet geofencing: detector, distance calculator and event pipeline

A shallow embedding of `pkg/geofence/calculator.go`, `pkg/geofence/detector.go`,
`internal/services`, `internal/rabbitmq` and `internal/mqtt`.

* `float64` code is written once, over any type `F` carrying the operations the Go code uses
  (`Float64 F`).  It runs on hardware doubles (`Float`).  Theorems about control flow are
  generic in `F`; where a comparison or a rounded sum decides the outcome they assume only
  facts that hold for IEEE doubles and for the reals.  Theorems about the value of a
  distance read the code over exact real arithmetic (`ℝ`): rounding, NaN and infinities
  are outside that reading.
* Collaborators (clock, Geofence Lookup, Event Store, Event Publisher, map iteration order)
  are arbitrary state machines over a world `W`; every call the code makes to a
  collaborator is recorded in a trace.
* Logging has no influence on control flow or results and is left out.
-/

namespace Fleet

/-! ## float64 arithmetic -/

/-- The `float64` operations used by the geofence package: arithmetic, comparison, conversion
from integers, and the `math` functions `Sin`, `Cos`, `Sqrt`, `Atan2` with the constant `Pi`. -/
class Float64 (F : Type) extends Zero F, One F, NatCast F, IntCast F, Add F, Sub F, Mul F, Div F,
    LT F, LE F where
  Pi : F
  Sin : F → F
  Cos : F → F
  Sqrt : F → F
  Atan2 : F → F → F
  decLt : DecidableRel (fun a b : F => a < b)
  decLe : DecidableRel (fun a b : F => a ≤ b)

instance instDecLtFloat64 {F : Type} [Float64 F] : DecidableRel (fun a b : F => a < b) :=
  Float64.decLt

instance instDecLeFloat64 {F : Type} [Float64 F] : DecidableRel (fun a b : F => a ≤ b) :=
  Float64.decLe

/-- Hardware doubles: the reading under which the definitions below run. -/
instance instFloat64Float : Float64 Float where
  zero := 0
  one := 1
  natCast := Float.ofNat
  intCast := Float.ofInt
  Pi := 3.141592653589793
  Sin := Float.sin
  Cos := Float.cos
  Sqrt := Float.sqrt
  Atan2 := Float.atan2
  decLt := fun a b => Float.decLt a b
  decLe := fun a b => Float.decLe a b

/-- Exact real arithmetic.  `Atan2 y x` is the angle of the point `(x, y)`, in `(-π, π]`,
and `0` at the origin, as `math.Atan2` documents. -/
noncomputable instance instFloat64Real : Float64 ℝ where
  Pi := Real.pi
  Sin := Real.sin
  Cos := Real.cos
  Sqrt := Real.sqrt
  Atan2 := fun y x => Complex.arg ⟨x, y⟩
  decLt := fun a b => Classical.propDecidable (a < b)
  decLe := fun a b => Classical.propDecidable (a ≤ b)

/-! ## pkg/geofence/calculator.go -/

section Calculator

variable {F : Type} [Float64 F]

/-- The haversine term `a` of `HaversineDistance`. -/
def haversineA (lat1 lng1 lat2 lng2 : F) : F :=
  let lat1Rad := lat1 * Float64.Pi / 180
  let lng1Rad := lng1 * Float64.Pi / 180
  let lat2Rad := lat2 * Float64.Pi / 180
  let lng2Rad := lng2 * Float64.Pi / 180
  let dlat := lat2Rad - lat1Rad
  let dlng := lng2Rad - lng1Rad
  Float64.Sin (dlat / 2) * Float64.Sin (dlat / 2) +
    Float64.Cos lat1Rad * Float64.Cos lat2Rad *
    Float64.Sin (dlng / 2) * Float64.Sin (dlng / 2)

/-- Go `HaversineDistance`: great-circle distance in meters. -/
def HaversineDistance (lat1 lng1 lat2 lng2 : F) : F :=
  let earthRadiusMeters : F := 6371000
  let a := haversineA lat1 lng1 lat2 lng2
  let c := 2 * Float64.Atan2 (Float64.Sqrt a) (Float64.Sqrt (1 - a))
  earthRadiusMeters * c

/-- Go `IsWithinRadius`. -/
def IsWithinRadius (centerLat centerLng pointLat pointLng radiusMeters : F) : Bool :=
  let distance := HaversineDistance centerLat centerLng pointLat pointLng
  decide (distance ≤ radiusMeters)

/-- The loop `for bearing < 0 { bearing += 360 }`; `fuel` bounds the number of tests of the
loop condition, `none` means the bound was reached. -/
def addLoop : Nat → F → Option F
  | 0, _ => none
  | fuel + 1, bearing => if bearing < 0 then addLoop fuel (bearing + 360) else some bearing

/-- The loop `for bearing >= 360 { bearing -= 360 }`, with the same fuel convention. -/
def subLoop : Nat → F → Option F
  | 0, _ => none
  | fuel + 1, bearing => if 360 ≤ bearing then subLoop fuel (bearing - 360) else some bearing

/-- The bearing of `CalculateBearing` before normalisation. -/
def rawBearing (lat1 lng1 lat2 lng2 : F) : F :=
  let lat1Rad := lat1 * Float64.Pi / 180
  let lng1Rad := lng1 * Float64.Pi / 180
  let lat2Rad := lat2 * Float64.Pi / 180
  let lng2Rad := lng2 * Float64.Pi / 180
  let dlng := lng2Rad - lng1Rad
  let y := Float64.Sin dlng * Float64.Cos lat2Rad
  let x := Float64.Cos lat1Rad * Float64.Sin lat2Rad -
    Float64.Sin lat1Rad * Float64.Cos lat2Rad * Float64.Cos dlng
  Float64.Atan2 y x * 180 / Float64.Pi

/-- Go `CalculateBearing`: each of the two normalisation loops gets `fuel` condition tests. -/
def CalculateBearing (fuel : Nat) (lat1 lng1 lat2 lng2 : F) : Option F :=
  (addLoop fuel (rawBearing lat1 lng1 lat2 lng2)).bind (subLoop fuel)

end Calculator

/-! ## Time (package `time`) -/

/-- A Go `error`, seen through its message; a nil error is `none` or `Except.ok`. -/
abbrev Error := String

/-- An instant, in nanoseconds relative to the Unix epoch. -/
structure Time where
  unixNano : Int
deriving DecidableEq, Repr

/-- Go `time.Duration`: an `int64` count of nanoseconds. -/
abbrev Duration := Int

def maxDuration : Duration := 2 ^ 63 - 1

def minDuration : Duration := -(2 ^ 63)

def Second : Duration := 1000000000

def Minute : Duration := 60 * Second

/-- The zero value of `time.Time`: January 1, year 1, 00:00:00 UTC, which lies
62135596800 seconds before the Unix epoch. -/
def zeroTime : Time := ⟨-62135596800 * 1000000000⟩

/-- Go `Time.Sub`: the duration `t - u`, saturated to the `int64` range of `Duration`. -/
def Time.Sub (t u : Time) : Duration :=
  if t.unixNano - u.unixNano > maxDuration then maxDuration
  else if t.unixNano - u.unixNano < minDuration then minDuration
  else t.unixNano - u.unixNano

/-! ## internal/models -/

structure VehicleLocation (F : Type) where
  ID : Int
  VehicleID : String
  Latitude : F
  Longitude : F
  Timestamp : Int
  CreatedAt : Time

structure Geofence (F : Type) where
  ID : Int
  Name : String
  Latitude : F
  Longitude : F
  Radius : Int
  CreatedAt : Time
  UpdatedAt : Time

structure GeofenceEvent (F : Type) where
  ID : Int
  VehicleID : String
  GeofenceID : Option Int
  EventType : String
  Latitude : F
  Longitude : F
  Timestamp : Int
  CreatedAt : Time

/-! ## internal/rabbitmq message types -/

structure Location (F : Type) where
  Latitude : F
  Longitude : F

structure GeofenceEventMessage (F : Type) where
  VehicleID : String
  Event : String
  Location : Location F
  Timestamp : Int
  GeofenceName : String
  Distance : F

/-- The `amqp091.Publishing` fields the publisher sets; `DeliveryMode` 2 is `Persistent`. -/
structure Publishing where
  ContentType : String
  DeliveryMode : Nat
  Timestamp : Time
  Body : String

/-! ## Collaborators -/

/-- An entry of the map `map[int64]*models.Geofence`. -/
abbrev CacheEntry (F : Type) := Sigma (fun _ : Int => Geofence F)

/-- Go `map[int64]*models.Geofence`: a finite map with one value per key. -/
abbrev GeofenceMap (F : Type) := AList (fun _ : Int => Geofence F)

/-- A call the code makes on a collaborator (or on the publisher), with its arguments. -/
inductive Call (F : Type) where
  | GetAll
  | Create (event : GeofenceEvent F)
  | PublishGeofenceEvent (message : GeofenceEventMessage F)
  | PublishWithContext (exchange routingKey : String) (mandatory immediate : Bool)
      (msg : Publishing)

/-- The environment of the geofence code, as state machines over a world `W`.

* `Now` is `time.Now()`, in nanoseconds since the Unix epoch (the system clock does not
  read before the epoch);
* `GetAll` is `GeofenceRepository.GetAll`, `Create` is `GeofenceEventRepository.Create`
  (`none` is a nil error);
* `IsConnected`, `Exchange`, `Marshal` and `PublishWithContext` are the RabbitMQ client
  state, its configured exchange, `json.Marshal` and the AMQP channel;
* `rangeOrder` is the order in which a `range` over the cache visits its entries, which the
  Go runtime chooses freely among the permutations of the entries. -/
structure Collaborators (F W : Type) where
  Now : W → Nat × W
  GetAll : W → Except Error (List (Geofence F)) × W
  Create : GeofenceEvent F → W → Option Error × W
  IsConnected : W → Bool
  Exchange : String
  Marshal : GeofenceEventMessage F → Except Error String
  PublishWithContext : String → String → Bool → Bool → Publishing → W → Option Error × W
  rangeOrder : W → List (CacheEntry F) → List (CacheEntry F)
  rangeOrder_perm : ∀ w l, (rangeOrder w l).Perm l

/-- The world together with the trace of calls made so far (oldest first). -/
structure Sys (F W : Type) where
  world : W
  trace : List (Call F)

/-- Go `time.Now()`. -/
def Now {F W : Type} (C : Collaborators F W) (s : Sys F W) : Time × Sys F W :=
  (⟨((C.Now s.world).1 : Int)⟩, { s with world := (C.Now s.world).2 })

/-- Go `time.Since(t)`, which is `time.Now().Sub(t)`. -/
def Since {F W : Type} (C : Collaborators F W) (t : Time) (s : Sys F W) : Duration × Sys F W :=
  (((Now C s).1).Sub t, (Now C s).2)

/-! ## pkg/geofence/detector.go -/

/-- The mutable fields of Go `Detector`; its repositories and logger are collaborators. -/
structure Detector (F : Type) where
  cache : GeofenceMap F
  lastUpdated : Time

structure GeofenceResult (F : Type) where
  Geofence : Geofence F
  Distance : F
  Entered : Bool

/-- Go `NewDetector`: an empty map, and `lastUpdated` left at its zero value. -/
def NewDetector (F : Type) : Detector F :=
  { cache := ∅, lastUpdated := zeroTime }

section Detector

variable {F W : Type} [Float64 F]

/-- The loop of `refreshGeofenceCache` that fills the new map:
`newCache[geofence.ID] = geofence` for each geofence in turn. -/
def newCacheOf (geofences : List (Geofence F)) : GeofenceMap F :=
  geofences.foldl (fun m geofence => m.insert geofence.ID geofence) ∅

/-- The system state right after the `GetAll` call of a refresh. -/
def afterGetAll (C : Collaborators F W) (s : Sys F W) : Sys F W :=
  { world := (C.GetAll s.world).2, trace := s.trace ++ [Call.GetAll] }

/-- Go `Detector.refreshGeofenceCache`. -/
def refreshGeofenceCache (C : Collaborators F W) (d : Detector F) (s : Sys F W) :
    Option Error × Detector F × Sys F W :=
  let s1 := afterGetAll C s
  match (C.GetAll s.world).1 with
  | .error err => (some err, d, s1)
  | .ok geofences =>
    let newCache := newCacheOf geofences
    let t := Now C s1
    (none, { cache := newCache, lastUpdated := t.1 }, t.2)

/-- One iteration of the loop of `CheckGeofences` over the cached geofences. -/
def checkGeofence (location : VehicleLocation F) (results : List (GeofenceResult F))
    (geofence : Geofence F) : List (GeofenceResult F) :=
  let distance := HaversineDistance location.Latitude location.Longitude
    geofence.Latitude geofence.Longitude
  let entered : Bool := decide (distance ≤ ((geofence.Radius : Int) : F))
  if entered then
    results ++ [{ Geofence := geofence, Distance := distance, Entered := true }]
  else results

/-- The loop `for _, geofence := range d.cache` of `CheckGeofences`, started from the nil
slice. -/
def checkLoop (C : Collaborators F W) (cache : GeofenceMap F) (location : VehicleLocation F)
    (w : W) : List (GeofenceResult F) :=
  ((C.rangeOrder w cache.entries).map (fun e => e.2)).foldl (checkGeofence location) []

/-- Go `Detector.CheckGeofences`. -/
def CheckGeofences (C : Collaborators F W) (d : Detector F) (location : VehicleLocation F)
    (s : Sys F W) : Except Error (List (GeofenceResult F)) × Detector F × Sys F W :=
  let elapsed := Since C d.lastUpdated s
  if elapsed.1 > 5 * Minute then
    match refreshGeofenceCache C d elapsed.2 with
    | (some err, d1, s1) => (.error err, d1, s1)
    | (none, d1, s1) => (.ok (checkLoop C d1.cache location s1.world), d1, s1)
  else
    (.ok (checkLoop C d.cache location elapsed.2.world), d, elapsed.2)

/-- The event `ProcessGeofenceEntry` builds; `ID` and `CreatedAt` keep their zero values. -/
def newGeofenceEvent (location : VehicleLocation F) (geofence : Geofence F) : GeofenceEvent F :=
  { ID := 0
    VehicleID := location.VehicleID
    GeofenceID := some geofence.ID
    EventType := "geofence_entry"
    Latitude := location.Latitude
    Longitude := location.Longitude
    Timestamp := location.Timestamp
    CreatedAt := zeroTime }

/-- Go `Detector.ProcessGeofenceEntry`. -/
def ProcessGeofenceEntry (C : Collaborators F W) (location : VehicleLocation F)
    (geofence : Geofence F) (s : Sys F W) : Option Error × Sys F W :=
  let event := newGeofenceEvent location geofence
  let s1 : Sys F W :=
    { world := (C.Create event s.world).2, trace := s.trace ++ [Call.Create event] }
  match (C.Create event s.world).1 with
  | some err => (some err, s1)
  | none => (none, s1)

end Detector

/-! ## internal/rabbitmq/publisher.go -/

section Service

variable {F W : Type} [Float64 F]

/-- Go `Publisher.PublishGeofenceEvent`. -/
def PublishGeofenceEvent (C : Collaborators F W) (message : GeofenceEventMessage F)
    (s : Sys F W) : Option Error × Sys F W :=
  let s0 : Sys F W := { s with trace := s.trace ++ [Call.PublishGeofenceEvent message] }
  if !C.IsConnected s0.world then
    (some "RabbitMQ client not connected", s0)
  else
    match C.Marshal message with
    | .error err => (some ("failed to marshal geofence event: " ++ err), s0)
    | .ok body =>
      let routingKey := "geofence." ++ message.Event
      let t := Now C s0
      let msg : Publishing :=
        { ContentType := "application/json", DeliveryMode := 2, Timestamp := t.1, Body := body }
      let r := C.PublishWithContext C.Exchange routingKey false false msg t.2.world
      let s1 : Sys F W :=
        { world := r.2
          trace := t.2.trace ++ [Call.PublishWithContext C.Exchange routingKey false false msg] }
      match r.1 with
      | some err => (some ("failed to publish geofence event: " ++ err), s1)
      | none => (none, s1)

/-! ## internal/services/geofence_service.go -/

/-- The message `ProcessLocationForGeofencing` builds for a contained geofence. -/
def newEventMessage (location : VehicleLocation F) (result : GeofenceResult F) :
    GeofenceEventMessage F :=
  { VehicleID := location.VehicleID
    Event := "geofence_entry"
    Location := { Latitude := location.Latitude, Longitude := location.Longitude }
    Timestamp := location.Timestamp
    GeofenceName := result.Geofence.Name
    Distance := result.Distance }

/-- One iteration of the loop of `ProcessLocationForGeofencing` over the results. -/
def processResult (C : Collaborators F W) (location : VehicleLocation F) (s : Sys F W)
    (result : GeofenceResult F) : Sys F W :=
  if result.Entered then
    match ProcessGeofenceEntry C location result.Geofence s with
    | (some _, s1) => s1
    | (none, s1) => (PublishGeofenceEvent C (newEventMessage location result) s1).2
  else s

/-- Go `geofenceService.ProcessLocationForGeofencing`. -/
def ProcessLocationForGeofencing (C : Collaborators F W) (d : Detector F)
    (location : VehicleLocation F) (s : Sys F W) : Option Error × Detector F × Sys F W :=
  match CheckGeofences C d location s with
  | (.error err, d1, s1) => (some ("failed to check geofences: " ++ err), d1, s1)
  | (.ok results, d1, s1) => (none, d1, results.foldl (processResult C location) s1)

end Service

/-! ## Observations on traces -/

/-- The number of `GetAll` calls in a trace. -/
def getAllCalls {F : Type} (trace : List (Call F)) : Nat :=
  (trace.filter (fun c => match c with
    | .GetAll => true
    | _ => false)).length

/-- The events passed to `Create`, in call order. -/
def createCalls {F : Type} (trace : List (Call F)) : List (GeofenceEvent F) :=
  trace.filterMap (fun c => match c with
    | .Create event => some event
    | _ => none)

/-- The last geofence of a `GetAll` result that carries the given id. -/
def lastWithID {F : Type} (geofences : List (Geofence F)) (id : Int) : Option (Geofence F) :=
  geofences.reverse.find? (fun g => decide (g.ID = id))

/-- The geofences of a snapshot that contain the location: those whose haversine distance
is at most their radius. -/
def Contains {F : Type} [Float64 F] (location : VehicleLocation F) (geofence : Geofence F) :
    Prop :=
  HaversineDistance location.Latitude location.Longitude geofence.Latitude geofence.Longitude
    ≤ ((geofence.Radius : Int) : F)

instance instDecidableContains {F : Type} [Float64 F] (location : VehicleLocation F)
    (geofence : Geofence F) : Decidable (Contains location geofence) :=
  Float64.decLe _ _

/-- The result `CheckGeofences` appends for a geofence that contains the location. -/
def resultOf {F : Type} [Float64 F] (location : VehicleLocation F) (geofence : Geofence F) :
    GeofenceResult F :=
  { Geofence := geofence
    Distance := HaversineDistance location.Latitude location.Longitude
      geofence.Latitude geofence.Longitude
    Entered := true }

/-- The geofences held in a snapshot, one per entry. -/
def cached {F : Type} (cache : GeofenceMap F) : List (Geofence F) :=
  cache.entries.map (fun e => e.2)

/-! ## Example inputs -/

section Examples

variable (F : Type) [Float64 F]

/-- A geofence of radius 50 m centred at latitude -6, longitude 107. -/
def monas : Geofence F :=
  { ID := 1, Name := "Monas", Latitude := ((-6 : Int) : F), Longitude := ((107 : Int) : F),
    Radius := 50, CreatedAt := ⟨0⟩, UpdatedAt := ⟨0⟩ }

/-- A second geofence with the same centre and radius 100 m. -/
def merdeka : Geofence F :=
  { ID := 2, Name := "Merdeka", Latitude := ((-6 : Int) : F), Longitude := ((107 : Int) : F),
    Radius := 100, CreatedAt := ⟨0⟩, UpdatedAt := ⟨0⟩ }

/-- A report from the common centre of `monas` and `merdeka`. -/
def atMonas : VehicleLocation F :=
  { ID := 0, VehicleID := "B1234XYZ", Latitude := ((-6 : Int) : F),
    Longitude := ((107 : Int) : F), Timestamp := 1700000000, CreatedAt := ⟨0⟩ }

/-- Collaborators over a world that counts the `Create` calls: the clock always reads `now`,
`GetAll` always answers `lookup`, the first `Create` fails and the later ones succeed, the
publisher is connected and publishes without error, and `range` visits the entries in
their stored order. -/
def exampleCollaborators (now : Nat) (lookup : Except Error (List (Geofence F))) :
    Collaborators F Nat where
  Now := fun w => (now, w)
  GetAll := fun w => (lookup, w)
  Create := fun _ w => (if w = 0 then some "insert failed" else none, w + 1)
  IsConnected := fun _ => true
  Exchange := "fleet.events"
  Marshal := fun message => .ok message.VehicleID
  PublishWithContext := fun _ _ _ _ _ w => (none, w)
  rangeOrder := fun _ l => l
  rangeOrder_perm := fun _ l => List.Perm.refl l

/-- A detector whose snapshot holds `monas` and `merdeka`, last refreshed at the epoch. -/
def exampleDetector : Detector F :=
  { cache := newCacheOf [monas F, merdeka F], lastUpdated := ⟨0⟩ }

/-- The initial system: no `Create` call counted, empty trace. -/
def startSys : Sys F Nat :=
  { world := 0, trace := [] }

/-- The clock reads 2000 ns, inside the window of `exampleDetector`; lookups return
nothing. -/
def freshWorld : Collaborators F Nat :=
  exampleCollaborators F 2000 (.ok [])

/-- The clock reads 301 s, past the window of `exampleDetector`; lookups return only
`merdeka`. -/
def refreshWorld : Collaborators F Nat :=
  exampleCollaborators F 301000000000 (.ok [merdeka F])

/-- The clock reads 301 s, past the window of `exampleDetector`; lookups fail. -/
def failingWorld : Collaborators F Nat :=
  exampleCollaborators F 301000000000 (.error "lookup failed")

/-- A later system state: three `Create` calls counted, one `GetAll` traced. -/
def laterSys : Sys F Nat :=
  { world := 3, trace := [Call.GetAll] }

/-- The example detector evaluated at `atMonas` inside its window. -/
def freshCheck : Except Error (List (GeofenceResult F)) × Detector F × Sys F Nat :=
  CheckGeofences (freshWorld F) (exampleDetector F) (atMonas F) (startSys F)

/-- The example detector evaluated at `atMonas` past its window, with a successful
lookup. -/
def refreshCheck : Except Error (List (GeofenceResult F)) × Detector F × Sys F Nat :=
  CheckGeofences (refreshWorld F) (exampleDetector F) (atMonas F) (startSys F)

/-- The example detector evaluated at `atMonas` past its window, with a failing lookup. -/
def failedCheck : Except Error (List (GeofenceResult F)) × Detector F × Sys F Nat :=
  CheckGeofences (failingWorld F) (exampleDetector F) (atMonas F) (startSys F)

end Examples

/-! ## Observations on the publisher -/

/-- The messages passed to `PublishGeofenceEvent`, in call order. -/
def publishCalls {F : Type} (trace : List (Call F)) : List (GeofenceEventMessage F) :=
  trace.filterMap (fun c => match c with
    | .PublishGeofenceEvent message => some message
    | _ => none)

/-- The routing keys handed to the AMQP channel, in call order. -/
def routingKeys {F : Type} (trace : List (Call F)) : List String :=
  trace.filterMap (fun c => match c with
    | .PublishWithContext _ routingKey _ _ _ => some routingKey
    | _ => none)

/-- The state of the loop of `ProcessLocationForGeofencing` after its first `i`
iterations, started in state `s`. -/
def loopState {F W : Type} (C : Collaborators F W) (location : VehicleLocation F)
    (s : Sys F W) (results : List (GeofenceResult F)) (i : Nat) : Sys F W :=
  (results.take i).foldl (processResult C location) s

/-- The Event Store accepts every event. -/
def StoreSucceeds {F W : Type} (C : Collaborators F W) : Prop :=
  ∀ event w, (C.Create event w).1 = none

/-- The publisher is connected, every message serialises, and the channel accepts every
publishing. -/
def PublisherSucceeds {F W : Type} (C : Collaborators F W) : Prop :=
  (∀ w, C.IsConnected w = true) ∧
  (∀ message, ∃ body, C.Marshal message = .ok body) ∧
  ∀ exchange routingKey mandatory immediate msg w,
    (C.PublishWithContext exchange routingKey mandatory immediate msg w).1 = none

/-! ## internal/services/enhanced_location_service.go -/

/-- A call the location service makes: `Create` on the Location Store, or the `go`
statement that starts `ProcessLocationForGeofencing` for a location. -/
inductive IngestCall (F : Type) where
  | Create (location : VehicleLocation F)
  | Go (location : VehicleLocation F)

/-- The environment of the location service: `Create` is
`VehicleLocationRepository.Create`, which on success assigns the `ID` and `CreatedAt` of
the location, and `formatFloat` is the `%f` verb of `fmt`. -/
structure LocationStore (F W : Type) where
  Create : VehicleLocation F → W → Except Error (Int × Time) × W
  formatFloat : F → String

/-- The world of the location service with the trace of its calls (oldest first). -/
structure IngestSys (F W : Type) where
  world : W
  trace : List (IngestCall F)

section Ingest

variable {F W : Type} [Float64 F]

/-- Go `enhancedLocationService.SaveLocation`.  The location is passed by pointer, so its
final value is returned next to the error. -/
def enhancedLocationService.SaveLocation (LS : LocationStore F W)
    (location : VehicleLocation F) (s : IngestSys F W) :
    Option Error × VehicleLocation F × IngestSys F W :=
  if location.VehicleID = "" then
    (some "vehicle_id is required", location, s)
  else if location.Latitude < ((-90 : Int) : F) ∨ location.Latitude > 90 then
    (some ("invalid latitude: " ++ LS.formatFloat location.Latitude), location, s)
  else if location.Longitude < ((-180 : Int) : F) ∨ location.Longitude > 180 then
    (some ("invalid longitude: " ++ LS.formatFloat location.Longitude), location, s)
  else if location.Timestamp ≤ 0 then
    (some ("invalid timestamp: " ++ toString location.Timestamp), location, s)
  else
    let r := LS.Create location s.world
    let s1 : IngestSys F W := { world := r.2, trace := s.trace ++ [IngestCall.Create location] }
    match r.1 with
    | .error err => (some ("failed to save location: " ++ err), location, s1)
    | .ok (id, createdAt) =>
      let saved : VehicleLocation F := { location with ID := id, CreatedAt := createdAt }
      (none, saved, { s1 with trace := s1.trace ++ [IngestCall.Go saved] })

/-- The locations for which a goroutine was started, in order. -/
def goCalls (trace : List (IngestCall F)) : List (VehicleLocation F) :=
  trace.filterMap (fun c => match c with
    | .Go location => some location
    | _ => none)

/-- The locations passed to the Location Store `Create`, in order. -/
def storeCalls (trace : List (IngestCall F)) : List (VehicleLocation F) :=
  trace.filterMap (fun c => match c with
    | .Create location => some location
    | _ => none)

/-- A run of `SaveLocation` from world `w` followed by the runs of the goroutines it
started: the value `SaveLocation` returned to its caller, and the detector and system the
goroutines leave behind. -/
def ingest (LS : LocationStore F W) (C : Collaborators F W) (d : Detector F)
    (location : VehicleLocation F) (w : W) : Option Error × Detector F × Sys F W :=
  let r := enhancedLocationService.SaveLocation LS location { world := w, trace := [] }
  (r.1, (goCalls r.2.2.trace).foldl
    (fun (acc : Detector F × Sys F W) loc => (ProcessLocationForGeofencing C acc.1 loc acc.2).2)
    (d, { world := r.2.2.world, trace := [] }))

/-- The report fails one of the four validation tests of `SaveLocation`. -/
def Invalid (location : VehicleLocation F) : Prop :=
  location.VehicleID = "" ∨
  (location.Latitude < ((-90 : Int) : F) ∨ location.Latitude > 90) ∨
  (location.Longitude < ((-180 : Int) : F) ∨ location.Longitude > 180) ∨
  location.Timestamp ≤ 0

/-- The four validation errors of `SaveLocation`. -/
def IsValidationError (LS : LocationStore F W) (location : VehicleLocation F)
    (err : Error) : Prop :=
  err = "vehicle_id is required" ∨
  err = "invalid latitude: " ++ LS.formatFloat location.Latitude ∨
  err = "invalid longitude: " ++ LS.formatFloat location.Longitude ∨
  err = "invalid timestamp: " ++ toString location.Timestamp

end Ingest

/-! ## internal/rabbitmq/consumer.go -/

/-- The fields of `amqp091.Delivery` the consumer touches. -/
structure Delivery where
  DeliveryTag : Nat
  Body : String

/-- A call the consumer makes: the handler on a decoded message, or an acknowledgement
action on a delivery. -/
inductive ConsumerCall (F : Type) where
  | Handler (message : GeofenceEventMessage F)
  | Ack (delivery : Delivery) (multiple : Bool)
  | Nack (delivery : Delivery) (multiple requeue : Bool)

/-- The environment of the consumer: `Unmarshal` is `json.Unmarshal` into a
`GeofenceEventMessage`, `Ack` and `Nack` are the methods of the delivery. -/
structure ConsumerCollaborators (F W : Type) where
  Unmarshal : String → Except Error (GeofenceEventMessage F)
  Ack : Delivery → Bool → W → Option Error × W
  Nack : Delivery → Bool → Bool → W → Option Error × W

/-- Go `MessageHandler`. -/
abbrev MessageHandler (F W : Type) := GeofenceEventMessage F → W → Option Error × W

/-- The world of the consumer with the trace of its calls (oldest first). -/
structure ConsumerSys (F W : Type) where
  world : W
  trace : List (ConsumerCall F)

section Consumer

variable {F W : Type}

/-- Go `Consumer.processMessage`. -/
def processMessage (C : ConsumerCollaborators F W) (delivery : Delivery)
    (handler : MessageHandler F W) (s : ConsumerSys F W) : ConsumerSys F W :=
  match C.Unmarshal delivery.Body with
  | .error _ =>
    { world := (C.Nack delivery false false s.world).2
      trace := s.trace ++ [ConsumerCall.Nack delivery false false] }
  | .ok message =>
    let h := handler message s.world
    let s1 : ConsumerSys F W :=
      { world := h.2, trace := s.trace ++ [ConsumerCall.Handler message] }
    match h.1 with
    | some _ =>
      { world := (C.Nack delivery false true s1.world).2
        trace := s1.trace ++ [ConsumerCall.Nack delivery false true] }
    | none =>
      { world := (C.Ack delivery false s1.world).2
        trace := s1.trace ++ [ConsumerCall.Ack delivery false] }

/-- The receive loop of `Consumer.StartConsuming`, over the deliveries that arrive before
the channel closes or the context is done: each is handed to `processMessage` in turn. -/
def consumeLoop (C : ConsumerCollaborators F W) (handler : MessageHandler F W)
    (deliveries : List Delivery) (s : ConsumerSys F W) : ConsumerSys F W :=
  deliveries.foldl (fun s delivery => processMessage C delivery handler s) s

/-- The messages the handler was invoked on, in order. -/
def handlerCalls (trace : List (ConsumerCall F)) : List (GeofenceEventMessage F) :=
  trace.filterMap (fun c => match c with
    | .Handler message => some message
    | _ => none)

end Consumer

/-! ## The Monas scenario -/

section Scenario

variable (F : Type) [Float64 F]

/-- The decimal -6.1754, as the quotient of two integers. -/
def monasLatitude : F := ((-61754 : Int) : F) / 10000

/-- The decimal 106.8272, as the quotient of two integers. -/
def monasLongitude : F := ((1068272 : Int) : F) / 10000

/-- The geofence `{name Monas, lat -6.1754, lng 106.8272, radius 50}`. -/
def monasGeofence : Geofence F :=
  { ID := 1, Name := "Monas", Latitude := monasLatitude F, Longitude := monasLongitude F,
    Radius := 50, CreatedAt := ⟨0⟩, UpdatedAt := ⟨0⟩ }

/-- The report `{vehicle_id B1234XYZ, lat -6.1754, lng 106.8272, timestamp 1700000000}`. -/
def monasReport : VehicleLocation F :=
  { ID := 0, VehicleID := "B1234XYZ", Latitude := monasLatitude F,
    Longitude := monasLongitude F, Timestamp := 1700000000, CreatedAt := ⟨0⟩ }

/-- A report from latitude -6.1844 on the meridian of Monas, 0.009 degrees (about 1000 m)
south of it. -/
def farReport : VehicleLocation F :=
  { ID := 0, VehicleID := "B1234XYZ", Latitude := ((-61844 : Int) : F) / 10000,
    Longitude := monasLongitude F, Timestamp := 1700000000, CreatedAt := ⟨0⟩ }

/-- A detector whose snapshot holds only `monasGeofence`, last refreshed at the epoch. -/
def monasDetector : Detector F :=
  { cache := newCacheOf [monasGeofence F], lastUpdated := ⟨0⟩ }

/-- Collaborators that never fail: the clock reads 2000 ns, the Event Store accepts every
event, the publisher is connected and the channel accepts every publishing. -/
def happyWorld : Collaborators F Nat where
  Now := fun w => (2000, w)
  GetAll := fun w => (.ok [monasGeofence F], w)
  Create := fun _ w => (none, w + 1)
  IsConnected := fun _ => true
  Exchange := "fleet.events"
  Marshal := fun message => .ok message.VehicleID
  PublishWithContext := fun _ _ _ _ _ w => (none, w)
  rangeOrder := fun _ l => l
  rangeOrder_perm := fun _ l => List.Perm.refl l

end Scenario

/-! ## Example location store and consumer -/

section ServiceExamples

variable (F : Type) [Float64 F]

/-- A Location Store over a world that counts its `Create` calls and answers each of them
with `answer`; floats are printed as a fixed placeholder. -/
def exampleStore (answer : Except Error (Int × Time)) : LocationStore F Nat where
  Create := fun _ w => (answer, w + 1)
  formatFloat := fun _ => "<float>"

/-- The initial state of the location service: nothing counted, empty trace. -/
def startIngest : IngestSys F Nat :=
  { world := 0, trace := [] }

/-- A report from latitude -90 and longitude 180, the bounds of the validation. -/
def boundsReport : VehicleLocation F :=
  { ID := 0, VehicleID := "B1234XYZ", Latitude := ((-90 : Int) : F), Longitude := 180,
    Timestamp := 1700000000, CreatedAt := ⟨0⟩ }

/-- The message the example decoder produces from a body: the body is the vehicle id. -/
def decoded (body : String) : GeofenceEventMessage F :=
  { VehicleID := body, Event := "geofence_entry", Location := { Latitude := 0, Longitude := 0 },
    Timestamp := 1700000000, GeofenceName := "Monas", Distance := 0 }

/-- A consumer environment over a world that counts acknowledgement actions: the empty
body does not decode, every other body decodes to `decoded`. -/
def exampleConsumer : ConsumerCollaborators F Nat where
  Unmarshal := fun body =>
    if body = "" then .error "unexpected end of JSON input" else .ok (decoded F body)
  Ack := fun _ _ w => (none, w + 1)
  Nack := fun _ _ _ w => (none, w + 1)

/-- A handler that fails while no acknowledgement action has been taken, and succeeds
afterwards. -/
def exampleHandler : MessageHandler F Nat :=
  fun _ w => (if w = 0 then some "handler failed" else none, w)

/-- The initial state of the consumer. -/
def startConsumer : ConsumerSys F Nat :=
  { world := 0, trace := [] }

end ServiceExamples

/-! ## A redelivering queue -/

section Queue

variable {F W : Type}

/-- The last call of a trace is a `Nack` that asks for a requeue. -/
def lastRequeued (trace : List (ConsumerCall F)) : Bool :=
  match trace.getLast? with
  | some (.Nack _ _ true) => true
  | _ => false

/-- One delivery from a queue that redelivers what is rejected with requeue: the head of
the queue is handed to `processMessage`; if the consumer answered `Nack` with requeue the
delivery goes back to the queue, after an `Ack` or a `Nack` without requeue it is
dropped. -/
def deliverNext (C : ConsumerCollaborators F W) (handler : MessageHandler F W) :
    List Delivery × ConsumerSys F W → List Delivery × ConsumerSys F W
  | ([], s) => ([], s)
  | (delivery :: queue, s) =>
    if lastRequeued (processMessage C delivery handler s).trace then
      (queue ++ [delivery], processMessage C delivery handler s)
    else
      (queue, processMessage C delivery handler s)

/-- The queue and consumer after `n` deliveries. -/
def deliveries (C : ConsumerCollaborators F W) (handler : MessageHandler F W) :
    Nat → List Delivery × ConsumerSys F W → List Delivery × ConsumerSys F W
  | 0, q => q
  | n + 1, q => deliveries C handler n (deliverNext C handler q)

/-- The deliveries acknowledged with `Ack`, in order. -/
def ackCalls (trace : List (ConsumerCall F)) : List Delivery :=
  trace.filterMap (fun c => match c with
    | .Ack delivery _ => some delivery
    | _ => none)

end Queue

/-! ## The wire shape of a geofence event (`encoding/json`) -/

section Wire

variable {F : Type}

/-- The `float64` test `x == 0`, written with the comparison of `Float64`. -/
def IsZero [Float64 F] (x : F) : Prop := x ≤ 0 ∧ 0 ≤ x

instance instDecidableIsZero [Float64 F] (x : F) : Decidable (IsZero x) :=
  instDecidableAnd

/-- The writers of `encoding/json` for the basic kinds.  `number` writes a `float64` and
fails on a value JSON cannot hold (NaN and the infinities, `json: unsupported value`);
`string` writes a string with its quotes and escapes. -/
structure JSONEncoder (F : Type) where
  number : F → Except Error String
  string : String → String

/-- A Go value of a basic kind. -/
inductive JSONValue (F : Type) where
  | str (s : String)
  | int (n : Int)
  | num (x : F)

/-- A struct field as `encoding/json` reads it: the member name of its `json` tag, whether
the tag says `omitempty`, and the value. -/
structure JSONField (V : Type) where
  name : String
  omitempty : Bool
  value : V

/-- Go `isEmptyValue` on the basic kinds: the empty string, the integer zero, a float equal
to zero. -/
def isEmptyValue [Float64 F] : JSONValue F → Bool
  | .str s => decide (s = "")
  | .int n => decide (n = 0)
  | .num x => decide (IsZero x)

/-- The text `encoding/json` writes for a basic value. -/
def encodeValue (enc : JSONEncoder F) : JSONValue F → Except Error String
  | .str s => .ok (enc.string s)
  | .int n => .ok (toString n)
  | .num x => enc.number x

/-- The struct encoder of `encoding/json`: the fields are visited in declaration order, a
field tagged `omitempty` whose value is empty is left out, and a value that cannot be
written fails the whole encoding.  The result lists each member written with the text of
its value. -/
def encodeFields {V : Type} (isEmpty : V → Bool) (encode : V → Except Error String) :
    List (JSONField V) → Except Error (List (String × String))
  | [] => .ok []
  | field :: fields =>
    if field.omitempty && isEmpty field.value then encodeFields isEmpty encode fields
    else
      match encode field.value with
      | .error err => .error err
      | .ok text =>
        match encodeFields isEmpty encode fields with
        | .error err => .error err
        | .ok members => .ok ((field.name, text) :: members)

/-- The text of the JSON object with the given members. -/
def renderObject (enc : JSONEncoder F) (members : List (String × String)) : String :=
  "\x7b" ++ ",".intercalate (members.map (fun m => enc.string m.1 ++ ":" ++ m.2)) ++ "\x7d"

/-- The value of a field of a message struct: a basic value, or a nested struct whose
fields hold basic values. -/
inductive JSONMember (F : Type) where
  | basic (v : JSONValue F)
  | object (fields : List (JSONField (JSONValue F)))

/-- Go `isEmptyValue` on a field of a message struct; a struct is never empty. -/
def isEmptyMember [Float64 F] : JSONMember F → Bool
  | .basic v => isEmptyValue v
  | .object _ => false

/-- The text `encoding/json` writes for a field of a message struct. -/
def encodeMember [Float64 F] (enc : JSONEncoder F) : JSONMember F → Except Error String
  | .basic v => encodeValue enc v
  | .object fields =>
    match encodeFields isEmptyValue (encodeValue enc) fields with
    | .error err => .error err
    | .ok members => .ok (renderObject enc members)

/-- The fields of Go `Location` with their `json` tags. -/
def Location.fields (location : Location F) : List (JSONField (JSONValue F)) :=
  [{ name := "latitude", omitempty := false, value := .num location.Latitude },
   { name := "longitude", omitempty := false, value := .num location.Longitude }]

/-- The fields of Go `GeofenceEventMessage` with their `json` tags: `geofence_name` and
`distance` are tagged `omitempty`. -/
def GeofenceEventMessage.fields (message : GeofenceEventMessage F) :
    List (JSONField (JSONMember F)) :=
  [{ name := "vehicle_id", omitempty := false, value := .basic (.str message.VehicleID) },
   { name := "event", omitempty := false, value := .basic (.str message.Event) },
   { name := "location", omitempty := false, value := .object message.Location.fields },
   { name := "timestamp", omitempty := false, value := .basic (.int message.Timestamp) },
   { name := "geofence_name", omitempty := true,
     value := .basic (.str message.GeofenceName) },
   { name := "distance", omitempty := true, value := .basic (.num message.Distance) }]

/-- The members `json.Marshal` writes for a `GeofenceEventMessage`, or its error. -/
def marshalMembers [Float64 F] (enc : JSONEncoder F) (message : GeofenceEventMessage F) :
    Except Error (List (String × String)) :=
  encodeFields isEmptyMember (encodeMember enc) message.fields

/-- Go `json.Marshal` on a `GeofenceEventMessage`. -/
def jsonMarshal [Float64 F] (enc : JSONEncoder F) (message : GeofenceEventMessage F) :
    Except Error String :=
  match marshalMembers enc message with
  | .error err => .error err
  | .ok members => .ok (renderObject enc members)

/-- The bodies handed to the AMQP channel, in call order. -/
def publishedBodies (trace : List (Call F)) : List String :=
  trace.filterMap (fun c => match c with
    | .PublishWithContext _ _ _ _ msg => some msg.Body
    | _ => none)

/-- An encoder for the examples: every number is written, as a fixed placeholder, and a
string is written between quotes. -/
def exampleEncoder (F : Type) : JSONEncoder F :=
  { number := fun _ => .ok "<float>", string := fun s => "\"" ++ s ++ "\"" }

/-- The collaborators of `happyWorld` with `json.Marshal` as the serialiser. -/
def wireWorld (F : Type) [Float64 F] : Collaborators F Nat :=
  { happyWorld F with Marshal := jsonMarshal (exampleEncoder F) }

/-- A geofence at the Monas coordinates whose name is empty. -/
def unnamedGeofence (F : Type) [Float64 F] : Geofence F :=
  { monasGeofence F with Name := "" }

/-- A detector whose snapshot holds only `unnamedGeofence`, last refreshed at the epoch. -/
def unnamedDetector (F : Type) [Float64 F] : Detector F :=
  { cache := newCacheOf [unnamedGeofence F], lastUpdated := ⟨0⟩ }

end Wire

/-! ## internal/mqtt -/

/-- Go `LocationMessage`. -/
structure LocationMessage (F : Type) where
  VehicleID : String
  Latitude : F
  Longitude : F
  Timestamp : Int

/-- Strips the literal `lit` from the front of `text`, if `text` starts with it. -/
def dropLiteral : List Char → List Char → Option (List Char)
  | [], text => some text
  | _ :: _, [] => none
  | c :: lit, d :: text => if c = d then dropLiteral lit text else none

/-- The result of `topicPattern.FindStringSubmatch(topic)` for the pattern
`^/fleet/vehicle/([^/]+)/location$`: after the literal `/fleet/vehicle/` the group takes
the longest run of characters other than `/`, which must not be empty, and the rest of the
topic must be exactly `/location`; a match yields the whole topic and the group, no match
yields nil. -/
def FindStringSubmatch (topic : String) : List String :=
  match dropLiteral "/fleet/vehicle/".toList topic.toList with
  | none => []
  | some rest =>
    if rest.takeWhile (fun c => c != '/') ≠ [] ∧
        rest.dropWhile (fun c => c != '/') = "/location".toList then
      [topic, String.mk (rest.takeWhile (fun c => c != '/'))]
    else []

/-- Go `LocationSubscriber.extractVehicleIDFromTopic`. -/
def extractVehicleIDFromTopic (topic : String) : Except Error String :=
  let found := FindStringSubmatch topic
  if found.length ≠ 2 then
    .error ("topic does not match expected pattern: " ++ topic)
  else
    let vehicleID := found.getD 1 ""
    if vehicleID = "" then
      .error ("empty vehicle_id in topic: " ++ topic)
    else .ok vehicleID

/-- The topic `PublishLocation` formats: `/fleet/vehicle/<vehicleID>/location`. -/
def locationTopic (vehicleID : String) : String :=
  "/fleet/vehicle/" ++ vehicleID ++ "/location"

/-- The environment of the MQTT code: the client state, `json.Marshal` and
`json.Unmarshal` for `LocationMessage`, and `Client.Publish(topic, qos, retained,
payload)`. -/
structure MqttCollaborators (F W : Type) where
  IsConnected : W → Bool
  Marshal : LocationMessage F → Except Error String
  Unmarshal : String → Except Error (LocationMessage F)
  Publish : String → Nat → Bool → String → W → Option Error × W

/-- The world of the MQTT code with the topics and payloads handed to `Client.Publish` and
the locations handed to `SaveLocation` (oldest first). -/
structure MqttSys (F W : Type) where
  world : W
  published : List (String × String)
  saved : List (VehicleLocation F)

section Mqtt

variable {F W : Type}

/-- Go `LocationPublisher.PublishLocation`. -/
def PublishLocation (M : MqttCollaborators F W) (vehicleID : String) (latitude longitude : F)
    (timestamp : Int) (s : MqttSys F W) : Option Error × MqttSys F W :=
  if !M.IsConnected s.world then
    (some "MQTT client not connected", s)
  else
    let message : LocationMessage F :=
      { VehicleID := vehicleID, Latitude := latitude, Longitude := longitude,
        Timestamp := timestamp }
    match M.Marshal message with
    | .error err => (some ("failed to marshal location message: " ++ err), s)
    | .ok payload =>
      let topic := locationTopic vehicleID
      let r := M.Publish topic 1 false payload s.world
      let s1 : MqttSys F W :=
        { s with world := r.2, published := s.published ++ [(topic, payload)] }
      match r.1 with
      | some err => (some err, s1)
      | none => (none, s1)

/-- Go `LocationSubscriber.handleLocationMessage`; `save` is the `SaveLocation` of the
location service the subscriber was built with. -/
def handleLocationMessage (M : MqttCollaborators F W)
    (save : VehicleLocation F → W → Option Error × W) (topic payload : String)
    (s : MqttSys F W) : Option Error × MqttSys F W :=
  match extractVehicleIDFromTopic topic with
  | .error err => (some err, s)
  | .ok vehicleID =>
    match M.Unmarshal payload with
    | .error err => (some ("invalid JSON payload: " ++ err), s)
    | .ok decodedMsg =>
      let locationMsg : LocationMessage F :=
        if decodedMsg.VehicleID ≠ vehicleID then { decodedMsg with VehicleID := vehicleID }
        else decodedMsg
      let location : VehicleLocation F :=
        { ID := 0, VehicleID := locationMsg.VehicleID, Latitude := locationMsg.Latitude,
          Longitude := locationMsg.Longitude, Timestamp := locationMsg.Timestamp,
          CreatedAt := zeroTime }
      let r := save location s.world
      let s1 : MqttSys F W := { s with world := r.2, saved := s.saved ++ [location] }
      match r.1 with
      | some err => (some ("failed to save location: " ++ err), s1)
      | none => (none, s1)

end Mqtt

/-! ## internal/services/location_service.go -/

section PlainService

variable {F W : Type} [Float64 F]

/-- Go `locationService.SaveLocation`. -/
def locationService.SaveLocation (LS : LocationStore F W) (location : VehicleLocation F)
    (s : IngestSys F W) : Option Error × VehicleLocation F × IngestSys F W :=
  if location.VehicleID = "" then
    (some "vehicle_id is required", location, s)
  else if location.Latitude < ((-90 : Int) : F) ∨ location.Latitude > 90 then
    (some ("invalid latitude: " ++ LS.formatFloat location.Latitude), location, s)
  else if location.Longitude < ((-180 : Int) : F) ∨ location.Longitude > 180 then
    (some ("invalid longitude: " ++ LS.formatFloat location.Longitude), location, s)
  else if location.Timestamp ≤ 0 then
    (some ("invalid timestamp: " ++ toString location.Timestamp), location, s)
  else
    let r := LS.Create location s.world
    let s1 : IngestSys F W := { world := r.2, trace := s.trace ++ [IngestCall.Create location] }
    match r.1 with
    | .error err => (some ("failed to save location: " ++ err), location, s1)
    | .ok (id, createdAt) =>
      (none, { location with ID := id, CreatedAt := createdAt }, s1)

end PlainService

/-! ## cmd/server/main.go: the `/health` route -/

/-- The entries of the `health` map that the handler sets after the timestamp. -/
structure Health where
  status : String
  database : String
  mqtt : String
  rabbitmq : String
deriving DecidableEq, Repr

/-- The `/health` handler of `setupRoutes`: `dbError` is the result of `db.HealthCheck`,
`mqttConnected` and `rabbitConnected` those of the two `IsConnected` calls; the result is
the status code and the map sent. -/
def healthHandler (dbError : Option Error) (mqttConnected rabbitConnected : Bool) :
    Nat × Health :=
  let health : Health := { status := "healthy", database := "", mqtt := "", rabbitmq := "" }
  let health : Health :=
    match dbError with
    | some _ => { health with database := "disconnected", status := "unhealthy" }
    | none => { health with database := "connected" }
  let health : Health :=
    if mqttConnected then { health with mqtt := "connected" }
    else { health with mqtt := "disconnected", status := "degraded" }
  let health : Health :=
    if rabbitConnected then { health with rabbitmq := "connected" }
    else { health with rabbitmq := "disconnected", status := "degraded" }
  let statusCode : Nat :=
    if health.status = "unhealthy" then 503
    else if health.status = "degraded" then 206
    else 200
  (statusCode, health)

/-! ## Facts of `float64` arithmetic used by the normalisation of bearings -/

/-- The facts about comparison, `+ 360` and `- 360` on which the two normalisation loops of
`CalculateBearing` rest.  Each holds for IEEE 754 doubles (comparisons with NaN are false,
rounding to nearest is monotone, `0` and `360` are exact) and for exact real arithmetic.
`add_turn` allows the sum of a negative bearing and `360` to round to `360` itself, which
is the case the second loop handles. -/
structure TurnArith (F : Type) [Float64 F] : Prop where
  not_lt_of_le : ∀ a b : F, a ≤ b → ¬ b < a
  not_le_of_lt : ∀ a b : F, a < b → ¬ b ≤ a
  lt_or_le : ∀ b : F, ((-360 : Int) : F) ≤ b → b < 0 ∨ 0 ≤ b
  full_turn : (360 : F) ≤ 360
  add_turn : ∀ b : F, ((-360 : Int) : F) ≤ b → b < 0 →
    0 ≤ b + 360 ∧ (b + 360 < 360 ∨ b + 360 = 360)
  sub_turn : (0 : F) ≤ 360 - 360 ∧ (360 - 360 : F) < 360

/-! ## Real-arithmetic reading of the calculator -/

@[simp]
theorem Pi_real : (Float64.Pi : ℝ) = Real.pi := rfl
@[simp]
theorem Sin_real (x : ℝ) : Float64.Sin x = Real.sin x := rfl
@[simp]
theorem Cos_real (x : ℝ) : Float64.Cos x = Real.cos x := rfl
@[simp]
theorem Sqrt_real (x : ℝ) : Float64.Sqrt x = Real.sqrt x := rfl
@[simp]
theorem Atan2_real (y x : ℝ) : Float64.Atan2 y x = Complex.arg ⟨x, y⟩ := rfl

theorem haversineA_self (lat lng : ℝ) : haversineA lat lng lat lng = 0 := by
  simp [haversineA]

theorem haversineA_symm (lat1 lng1 lat2 lng2 : ℝ) :
    haversineA lat1 lng1 lat2 lng2 = haversineA lat2 lng2 lat1 lng1 := by
  simp only [haversineA, Pi_real, Sin_real, Cos_real]
  have h1 : (lat1 * Real.pi / 180 - lat2 * Real.pi / 180) / 2
      = -((lat2 * Real.pi / 180 - lat1 * Real.pi / 180) / 2) := by ring
  have h2 : (lng1 * Real.pi / 180 - lng2 * Real.pi / 180) / 2
      = -((lng2 * Real.pi / 180 - lng1 * Real.pi / 180) / 2) := by ring
  rw [h1, h2, Real.sin_neg, Real.sin_neg]
  ring

theorem haversine_self_real (lat lng : ℝ) : HaversineDistance lat lng lat lng = 0 := by
  have h : (⟨1, 0⟩ : ℂ) = ((1 : ℝ) : ℂ) := rfl
  simp [HaversineDistance, haversineA_self, h]

/-- C2: the haversine distance from a point to itself is zero. -/
theorem HaversineDistance_self (lat lng : ℝ) : HaversineDistance lat lng lat lng = 0 :=
  haversine_self_real lat lng

/-- Over exact real arithmetic the haversine distance is symmetric in its two points. -/
theorem haversine_symm_real (lat1 lng1 lat2 lng2 : ℝ) :
    HaversineDistance lat1 lng1 lat2 lng2 = HaversineDistance lat2 lng2 lat1 lng1 := by
  simp only [HaversineDistance, haversineA_symm lat1 lng1 lat2 lng2]

theorem rawBearing_range (lat1 lng1 lat2 lng2 : ℝ) :
    -180 < rawBearing lat1 lng1 lat2 lng2 ∧ rawBearing lat1 lng1 lat2 lng2 ≤ 180 := by
  simp only [rawBearing, Atan2_real, Pi_real]
  generalize (⟨_, _⟩ : ℂ) = z
  have hpi : 0 < Real.pi := Real.pi_pos
  have h1 : -Real.pi < z.arg := Complex.neg_pi_lt_arg z
  have h2 : z.arg ≤ Real.pi := Complex.arg_le_pi z
  constructor
  · rw [lt_div_iff₀ hpi]
    nlinarith
  · rw [div_le_iff₀ hpi]
    nlinarith

theorem addLoop_real (n : Nat) (b : ℝ) (h1 : -180 < b) (h2 : b ≤ 180) :
    ∃ r, addLoop (n + 2) b = some r ∧ 0 ≤ r ∧ r < 360 := by
  by_cases hb : b < 0
  · refine ⟨b + 360, ?_, by linarith, by linarith⟩
    have hb2 : ¬ (b + 360 < 0) := by linarith
    simp [addLoop, hb, hb2]
  · refine ⟨b, ?_, by linarith, by linarith⟩
    simp [addLoop, hb]

theorem subLoop_real (n : Nat) (b : ℝ) (h : b < 360) : subLoop (n + 1) b = some b := by
  have hb : ¬ (360 ≤ b) := by linarith
  simp [subLoop, hb]

/-- Over exact real arithmetic `CalculateBearing` returns a bearing in `[0, 360)` for every
pair of points; the second loop never subtracts there. -/
theorem calculateBearing_range_real (n : Nat) (lat1 lng1 lat2 lng2 : ℝ) :
    ∃ r, CalculateBearing (n + 2) lat1 lng1 lat2 lng2 = some r ∧ 0 ≤ r ∧ r < 360 := by
  obtain ⟨h1, h2⟩ := rawBearing_range lat1 lng1 lat2 lng2
  obtain ⟨r, hr, h0, h360⟩ := addLoop_real n _ h1 h2
  refine ⟨r, ?_, h0, h360⟩
  simp [CalculateBearing, hr, subLoop_real (n + 1) r h360]

theorem turnArith_real : TurnArith ℝ where
  not_lt_of_le := fun _ _ h => not_lt.2 h
  not_le_of_lt := fun _ _ h => not_le.2 h
  lt_or_le := fun b _ => lt_or_le b 0
  full_turn := le_refl _
  add_turn := by
    intro b h1 h2
    push_cast at h1
    refine ⟨by linarith, Or.inl (by linarith)⟩
  sub_turn := by norm_num

section Bearing

variable {F : Type} [Float64 F]

theorem addLoop_turn (hF : TurnArith F) (n : Nat) (b : F) (hlo : ((-360 : Int) : F) ≤ b) :
    (b < 0 ∧ addLoop (n + 2) b = some (b + 360)) ∨ (0 ≤ b ∧ addLoop (n + 2) b = some b) := by
  rcases hF.lt_or_le b hlo with hb | hb
  · left
    have h2 : ¬ (b + 360 < 0) := hF.not_lt_of_le _ _ (hF.add_turn b hlo hb).1
    exact ⟨hb, by simp [addLoop, hb, h2]⟩
  · right
    have h2 : ¬ (b < 0) := hF.not_lt_of_le _ _ hb
    exact ⟨hb, by simp [addLoop, h2]⟩

theorem subLoop_turn (hF : TurnArith F) (n : Nat) (b : F)
    (h : b < 360 ∨ b = 360) :
    (b < 360 ∧ subLoop (n + 2) b = some b) ∨
      (b = 360 ∧ subLoop (n + 2) b = some (360 - 360)) := by
  rcases h with hb | hb
  · left
    have h2 : ¬ (360 ≤ b) := hF.not_le_of_lt _ _ hb
    exact ⟨hb, by simp [subLoop, h2]⟩
  · right
    subst hb
    have h2 : ¬ ((360 : F) ≤ 360 - 360) := hF.not_le_of_lt _ _ hF.sub_turn.2
    exact ⟨rfl, by simp [subLoop, hF.full_turn, h2]⟩

/-- C4: for every arithmetic with the facts `TurnArith` (IEEE doubles and the reals), and
every pair of points whose bearing before normalisation lies in `[-360, 360)` (the `atan2`
result in degrees lies in `[-180, 180]`), `CalculateBearing` returns once each loop may
test its condition twice, and the bearing `r` it returns satisfies `0 ≤ r < 360`.  A
bearing that is not negative is returned as it is; a negative one is turned once by `360`,
and when that sum rounds to `360` the second loop turns it back to `360 - 360`. -/
theorem CalculateBearing_range (hF : TurnArith F) (n : Nat) (lat1 lng1 lat2 lng2 : F)
    (hraw : ((-360 : Int) : F) ≤ rawBearing lat1 lng1 lat2 lng2 ∧
      rawBearing lat1 lng1 lat2 lng2 < 360) :
    ∃ r, CalculateBearing (n + 2) lat1 lng1 lat2 lng2 = some r ∧ 0 ≤ r ∧ r < 360 ∧
      (0 ≤ rawBearing lat1 lng1 lat2 lng2 → r = rawBearing lat1 lng1 lat2 lng2) ∧
      (rawBearing lat1 lng1 lat2 lng2 < 0 →
        rawBearing lat1 lng1 lat2 lng2 + 360 < 360 →
        r = rawBearing lat1 lng1 lat2 lng2 + 360) ∧
      (rawBearing lat1 lng1 lat2 lng2 < 0 →
        rawBearing lat1 lng1 lat2 lng2 + 360 = 360 → r = 360 - 360) := by
  obtain ⟨hlo, hhi⟩ := hraw
  generalize hb : rawBearing lat1 lng1 lat2 lng2 = b at hlo hhi
  unfold CalculateBearing
  rw [hb]
  rcases addLoop_turn hF n b hlo with ⟨hneg, ha⟩ | ⟨hpos, ha⟩
  · have hnot : ¬ (0 ≤ b) := hF.not_le_of_lt _ _ hneg
    obtain ⟨h0, hturn⟩ := hF.add_turn b hlo hneg
    rcases subLoop_turn hF n (b + 360) hturn with ⟨hlt, hs⟩ | ⟨heq, hs⟩
    · have hne : b + 360 ≠ 360 := by
        intro e
        rw [e] at hlt
        exact hF.not_le_of_lt _ _ hlt hF.full_turn
      exact ⟨b + 360, by simp [ha, hs], h0, hlt, fun h => absurd h hnot, fun _ _ => rfl,
        fun _ e => absurd e hne⟩
    · have hnl : ¬ (b + 360 < 360) := by
        rw [heq]
        exact hF.not_lt_of_le _ _ hF.full_turn
      exact ⟨360 - 360, by simp [ha, hs], hF.sub_turn.1, hF.sub_turn.2,
        fun h => absurd h hnot, fun _ h => absurd h hnl, fun _ _ => rfl⟩
  · have hnot : ¬ (b < 0) := hF.not_lt_of_le _ _ hpos
    rcases subLoop_turn hF n b (Or.inl hhi) with ⟨_, hs⟩ | ⟨heq, _⟩
    · exact ⟨b, by simp [ha, hs], hpos, hhi, fun _ => rfl, fun h => absurd h hnot,
        fun h => absurd h hnot⟩
    · rw [heq] at hhi
      exact absurd hF.full_turn (hF.not_le_of_lt _ _ hhi)

end Bearing

/-- Witness for C4: the bearing from the equator at the prime meridian to the point one
degree north and one degree east, over the reals. -/
theorem CalculateBearing_range_witness :
    (((-360 : Int) : ℝ) ≤ rawBearing (0 : ℝ) 0 1 1 ∧ rawBearing (0 : ℝ) 0 1 1 < 360) ∧
    ∃ r, CalculateBearing (0 + 2) (0 : ℝ) 0 1 1 = some r ∧ 0 ≤ r ∧ r < 360 ∧
      (0 ≤ rawBearing (0 : ℝ) 0 1 1 → r = rawBearing (0 : ℝ) 0 1 1) ∧
      (rawBearing (0 : ℝ) 0 1 1 < 0 → rawBearing (0 : ℝ) 0 1 1 + 360 < 360 →
        r = rawBearing (0 : ℝ) 0 1 1 + 360) ∧
      (rawBearing (0 : ℝ) 0 1 1 < 0 → rawBearing (0 : ℝ) 0 1 1 + 360 = 360 →
        r = 360 - 360) :=
  ⟨⟨by push_cast; linarith [(rawBearing_range (0 : ℝ) 0 1 1).1],
      by linarith [(rawBearing_range (0 : ℝ) 0 1 1).2]⟩,
    CalculateBearing_range turnArith_real 0 0 0 1 1
      ⟨by push_cast; linarith [(rawBearing_range (0 : ℝ) 0 1 1).1],
        by linarith [(rawBearing_range (0 : ℝ) 0 1 1).2]⟩⟩

/-! ## The evaluation loop -/

section Loop

variable {F W : Type} [Float64 F]

theorem foldl_checkGeofence (location : VehicleLocation F) (gs : List (Geofence F))
    (acc : List (GeofenceResult F)) :
    gs.foldl (checkGeofence location) acc
      = acc ++ (gs.filter (fun g => decide (Contains location g))).map (resultOf location) := by
  induction gs generalizing acc with
  | nil => simp
  | cons g gs ih =>
    rw [List.foldl_cons, ih]
    by_cases h : Contains location g
    · have h2 := h
      unfold Contains at h2
      simp [checkGeofence, List.filter_cons, h, h2, resultOf]
    · have h2 := h
      unfold Contains at h2
      simp [checkGeofence, List.filter_cons, h, h2]

theorem checkLoop_eq (C : Collaborators F W) (cache : GeofenceMap F)
    (location : VehicleLocation F) (w : W) :
    checkLoop C cache location w
      = ((((C.rangeOrder w cache.entries).map (fun e => e.2)).filter
          (fun g => decide (Contains location g))).map (resultOf location)) := by
  simp [checkLoop, foldl_checkGeofence]

theorem checkLoop_perm (C : Collaborators F W) (cache : GeofenceMap F)
    (location : VehicleLocation F) (w : W) :
    (checkLoop C cache location w).Perm
      (((cached cache).filter (fun g => decide (Contains location g))).map
        (resultOf location)) := by
  rw [checkLoop_eq]
  exact (((C.rangeOrder_perm w cache.entries).map _).filter _).map _

theorem checkLoop_entered (C : Collaborators F W) (cache : GeofenceMap F)
    (location : VehicleLocation F) (w : W) :
    ∀ r ∈ checkLoop C cache location w, r.Entered = true := by
  intro r hr
  rw [checkLoop_eq] at hr
  obtain ⟨g, _, rfl⟩ := List.mem_map.1 hr
  rfl

theorem checkLoop_geofences (C : Collaborators F W) (cache : GeofenceMap F)
    (location : VehicleLocation F) (w : W) :
    ((checkLoop C cache location w).map (fun r => r.Geofence)).Perm
      ((cached cache).filter (fun g => decide (Contains location g))) := by
  have h := (checkLoop_perm C cache location w).map (fun r => r.Geofence)
  simpa [List.map_map, Function.comp_def, resultOf] using h

theorem mem_cached {F : Type} (cache : GeofenceMap F) (g : Geofence F) :
    g ∈ cached cache ↔ ∃ id, cache.lookup id = some g := by
  constructor
  · intro h
    obtain ⟨e, he, rfl⟩ := List.mem_map.1 h
    exact ⟨e.1, AList.mem_lookup_iff.2 he⟩
  · rintro ⟨id, h⟩
    exact List.mem_map.2 ⟨⟨id, g⟩, AList.mem_lookup_iff.1 h, rfl⟩

end Loop

/-! ## The cache refresh and `CheckGeofences` -/

theorem refresh_ok {F W : Type} (C : Collaborators F W) (d : Detector F) (s : Sys F W)
    (L : List (Geofence F)) (h : (C.GetAll s.world).1 = .ok L) :
    refreshGeofenceCache C d s
      = (none, { cache := newCacheOf L, lastUpdated := (Now C (afterGetAll C s)).1 },
          (Now C (afterGetAll C s)).2) := by
  simp [refreshGeofenceCache, h]

theorem refresh_error {F W : Type} (C : Collaborators F W) (d : Detector F) (s : Sys F W)
    (err : Error) (h : (C.GetAll s.world).1 = .error err) :
    refreshGeofenceCache C d s = (some err, d, afterGetAll C s) := by
  simp [refreshGeofenceCache, h]

section Check

variable {F W : Type} [Float64 F]

theorem check_fresh (C : Collaborators F W) (d : Detector F) (location : VehicleLocation F)
    (s : Sys F W) (h : (Since C d.lastUpdated s).1 ≤ 5 * Minute) :
    CheckGeofences C d location s
      = (.ok (checkLoop C d.cache location (Since C d.lastUpdated s).2.world), d,
          (Since C d.lastUpdated s).2) := by
  have h2 : ¬ ((Since C d.lastUpdated s).1 > 5 * Minute) := not_lt.2 h
  simp only [CheckGeofences, h2, if_false]

theorem check_stale_ok (C : Collaborators F W) (d : Detector F) (location : VehicleLocation F)
    (s : Sys F W) (L : List (Geofence F)) (h : (Since C d.lastUpdated s).1 > 5 * Minute)
    (hL : (C.GetAll (Since C d.lastUpdated s).2.world).1 = .ok L) :
    CheckGeofences C d location s
      = (.ok (checkLoop C (newCacheOf L) location
            (Now C (afterGetAll C (Since C d.lastUpdated s).2)).2.world),
          { cache := newCacheOf L,
            lastUpdated := (Now C (afterGetAll C (Since C d.lastUpdated s).2)).1 },
          (Now C (afterGetAll C (Since C d.lastUpdated s).2)).2) := by
  simp only [CheckGeofences, h, if_true, refresh_ok C d _ L hL]

theorem check_stale_error (C : Collaborators F W) (d : Detector F)
    (location : VehicleLocation F) (s : Sys F W) (err : Error)
    (h : (Since C d.lastUpdated s).1 > 5 * Minute)
    (hE : (C.GetAll (Since C d.lastUpdated s).2.world).1 = .error err) :
    CheckGeofences C d location s
      = (.error err, d, afterGetAll C (Since C d.lastUpdated s).2) := by
  simp only [CheckGeofences, h, if_true, refresh_error C d _ err hE]

theorem check_result (C : Collaborators F W) (d : Detector F) (location : VehicleLocation F)
    (s : Sys F W) (results : List (GeofenceResult F))
    (h : (CheckGeofences C d location s).1 = .ok results) :
    results = checkLoop C (CheckGeofences C d location s).2.1.cache location
      (CheckGeofences C d location s).2.2.world := by
  by_cases hs : (Since C d.lastUpdated s).1 > 5 * Minute
  · cases hg : (C.GetAll (Since C d.lastUpdated s).2.world).1 with
    | error err =>
      rw [check_stale_error C d location s err hs hg] at h
      cases h
    | ok L =>
      rw [check_stale_ok C d location s L hs hg] at h ⊢
      simpa using h.symm
  · have hf := check_fresh C d location s (not_lt.1 hs)
    rw [hf] at h ⊢
    simpa using h.symm

theorem check_isOk (C : Collaborators F W) (d : Detector F) (location : VehicleLocation F)
    (s : Sys F W)
    (h : (Since C d.lastUpdated s).1 ≤ 5 * Minute ∨
      ∃ L, (C.GetAll (Since C d.lastUpdated s).2.world).1 = .ok L) :
    ∃ results, (CheckGeofences C d location s).1 = .ok results := by
  by_cases hs : (Since C d.lastUpdated s).1 > 5 * Minute
  · rcases h with h | ⟨L, hL⟩
    · exact absurd hs (not_lt.2 h)
    · exact ⟨_, by rw [check_stale_ok C d location s L hs hL]⟩
  · exact ⟨_, by rw [check_fresh C d location s (not_lt.1 hs)]⟩

/-- C1: let the snapshot be the detector's cache when the cache is fresh, or the map built
from the list `L` that `GetAll` returns when the cache is stale. `CheckGeofences` then
returns results and leaves that snapshot in the detector; a geofence has a result iff it
is held in the snapshot and its haversine distance from the location is at most its
radius; every result carries that distance; and the geofences of the results are, up to
order, the geofences of the snapshot that contain the location, so each entry of the
snapshot is reported at most once. -/
theorem CheckGeofences_contained (C : Collaborators F W) (d : Detector F)
    (location : VehicleLocation F) (s : Sys F W) (snapshot : GeofenceMap F)
    (h : ((Since C d.lastUpdated s).1 ≤ 5 * Minute ∧ snapshot = d.cache) ∨
      ((Since C d.lastUpdated s).1 > 5 * Minute ∧
        ∃ L, (C.GetAll (Since C d.lastUpdated s).2.world).1 = .ok L ∧
          snapshot = newCacheOf L)) :
    ∃ results, (CheckGeofences C d location s).1 = .ok results ∧
      (CheckGeofences C d location s).2.1.cache = snapshot ∧
      (∀ g, (∃ r ∈ results, r.Geofence = g) ↔
        ((∃ id, snapshot.lookup id = some g) ∧
          HaversineDistance location.Latitude location.Longitude g.Latitude g.Longitude
            ≤ ((g.Radius : Int) : F))) ∧
      (∀ r ∈ results, r.Entered = true ∧
        r.Distance = HaversineDistance location.Latitude location.Longitude
          r.Geofence.Latitude r.Geofence.Longitude) ∧
      (results.map (fun r => r.Geofence)).Perm
        ((cached snapshot).filter (fun g => decide (Contains location g))) := by
  have hc : ∃ w, CheckGeofences C d location s
      = (.ok (checkLoop C snapshot location w), (CheckGeofences C d location s).2.1,
          (CheckGeofences C d location s).2.2) ∧
        (CheckGeofences C d location s).2.1.cache = snapshot := by
    rcases h with ⟨hf, rfl⟩ | ⟨hs, L, hL, rfl⟩
    · exact ⟨_, by rw [check_fresh C d location s hf], by rw [check_fresh C d location s hf]⟩
    · exact ⟨_, by rw [check_stale_ok C d location s L hs hL],
        by rw [check_stale_ok C d location s L hs hL]⟩
  obtain ⟨w, hw, hcache⟩ := hc
  refine ⟨checkLoop C snapshot location w, by rw [hw], hcache, ?_, ?_, ?_⟩
  · intro g
    have hp := checkLoop_geofences C snapshot location w
    have hm : (∃ r ∈ checkLoop C snapshot location w, r.Geofence = g)
        ↔ g ∈ (checkLoop C snapshot location w).map (fun r => r.Geofence) := by
      simp [List.mem_map]
    rw [hm, hp.mem_iff, List.mem_filter, mem_cached]
    simp [Contains]
  · intro r hmem
    rw [checkLoop_eq] at hmem
    obtain ⟨g, _, rfl⟩ := List.mem_map.1 hmem
    exact ⟨rfl, rfl⟩
  · exact checkLoop_geofences _ _ _ _

end Check

/-! ## Cache freshness -/

section Snapshot

variable {F W : Type}

theorem Since_trace (C : Collaborators F W) (t : Time) (s : Sys F W) :
    (Since C t s).2.trace = s.trace := rfl

theorem Now_trace (C : Collaborators F W) (s : Sys F W) : (Now C s).2.trace = s.trace := rfl

theorem Since_zeroTime (C : Collaborators F W) (s : Sys F W) :
    (Since C zeroTime s).1 = maxDuration := by
  have h : (0 : Int) ≤ ((C.Now s.world).1 : Int) := Int.natCast_nonneg _
  simp only [Since, Now, Time.Sub, zeroTime, maxDuration]
  rw [if_pos]
  norm_num
  omega

theorem newCacheOf_concat (L : List (Geofence F)) (g : Geofence F) :
    newCacheOf (L ++ [g]) = (newCacheOf L).insert g.ID g := by
  simp [newCacheOf, List.foldl_append]

theorem lastWithID_concat (L : List (Geofence F)) (g : Geofence F) (id : Int) :
    lastWithID (L ++ [g]) id = if g.ID = id then some g else lastWithID L id := by
  by_cases h : g.ID = id <;> simp [lastWithID, List.find?_cons, h]

theorem newCacheOf_lookup (L : List (Geofence F)) (id : Int) :
    (newCacheOf L).lookup id = lastWithID L id := by
  induction L using List.reverseRecOn with
  | nil => simp [newCacheOf, lastWithID]
  | append_singleton L g ih =>
    rw [newCacheOf_concat, lastWithID_concat]
    by_cases h : g.ID = id
    · subst h
      simp [AList.lookup_insert]
    · rw [if_neg h, AList.lookup_insert_ne (Ne.symm h), ih]

theorem lastWithID_mem (L : List (Geofence F)) (id : Int) (g : Geofence F)
    (h : lastWithID L id = some g) : g ∈ L ∧ g.ID = id := by
  unfold lastWithID at h
  have h1 := List.mem_of_find?_eq_some h
  have h2 := List.find?_some h
  exact ⟨List.mem_reverse.1 h1, by simpa using h2⟩

theorem lastWithID_isSome (L : List (Geofence F)) (g : Geofence F) (h : g ∈ L) :
    ∃ g2, lastWithID L g.ID = some g2 := by
  unfold lastWithID
  cases hf : L.reverse.find? (fun x => decide (x.ID = g.ID)) with
  | some g2 => exact ⟨g2, rfl⟩
  | none =>
    rw [List.find?_eq_none] at hf
    have := hf g (List.mem_reverse.2 h)
    simp at this

/-- C8: when `GetAll` fails, `refreshGeofenceCache` returns the error and leaves the
detector, snapshot and `lastUpdated`, exactly as it was before the call. -/
theorem refreshGeofenceCache_failure (C : Collaborators F W) (d : Detector F) (s : Sys F W)
    (err : Error) (h : (C.GetAll s.world).1 = .error err) :
    (refreshGeofenceCache C d s).1 = some err ∧
    (refreshGeofenceCache C d s).2.1 = d ∧
    (refreshGeofenceCache C d s).2.1.cache = d.cache ∧
    (refreshGeofenceCache C d s).2.1.lastUpdated = d.lastUpdated := by
  rw [refresh_error C d s err h]
  exact ⟨rfl, rfl, rfl, rfl⟩

end Snapshot

section Freshness

variable {F W : Type} [Float64 F]

/-- C5: inside the five-minute window `CheckGeofences` makes no collaborator call (so no
`GetAll`), leaves the detector (snapshot and `lastUpdated`) unchanged, and a second
evaluation inside the window, whatever the world has become in between, is computed from
the same snapshot: both results are, up to order, the results for the geofences of that
snapshot that contain the location. -/
theorem CheckGeofences_within_ttl (C : Collaborators F W) (d : Detector F)
    (location : VehicleLocation F) (s s2 : Sys F W)
    (h1 : (Since C d.lastUpdated s).1 ≤ 5 * Minute)
    (h2 : (Since C d.lastUpdated s2).1 ≤ 5 * Minute) :
    (CheckGeofences C d location s).2.1 = d ∧
    (CheckGeofences C d location s).2.2.trace = s.trace ∧
    getAllCalls (CheckGeofences C d location s).2.2.trace = getAllCalls s.trace ∧
    (CheckGeofences C (CheckGeofences C d location s).2.1 location s2).2.1 = d ∧
    (CheckGeofences C (CheckGeofences C d location s).2.1 location s2).2.2.trace = s2.trace ∧
    ∃ rs1 rs2, (CheckGeofences C d location s).1 = .ok rs1 ∧
      (CheckGeofences C (CheckGeofences C d location s).2.1 location s2).1 = .ok rs2 ∧
      rs1.Perm (((cached d.cache).filter (fun g => decide (Contains location g))).map
        (resultOf location)) ∧
      rs2.Perm (((cached d.cache).filter (fun g => decide (Contains location g))).map
        (resultOf location)) := by
  have e1 := check_fresh C d location s h1
  have e2 := check_fresh C d location s2 h2
  have hd : (CheckGeofences C d location s).2.1 = d := by rw [e1]
  rw [hd, e1, e2]
  exact ⟨rfl, rfl, rfl, rfl, rfl, _, _, rfl, rfl, checkLoop_perm _ _ _ _,
    checkLoop_perm _ _ _ _⟩

/-- C6: when the cache is stale and the lookup succeeds with `L`, `CheckGeofences` calls
`GetAll` once; afterwards the cache maps every id to the last geofence of `L` with that id
and to nothing else (so it holds exactly the ids of `L`, and nothing of the previous
snapshot survives unless it is in `L`), and the results are computed from this new
snapshot. -/
theorem CheckGeofences_refresh (C : Collaborators F W) (d : Detector F)
    (location : VehicleLocation F) (s : Sys F W) (L : List (Geofence F))
    (hs : (Since C d.lastUpdated s).1 > 5 * Minute)
    (hL : (C.GetAll (Since C d.lastUpdated s).2.world).1 = .ok L) :
    (CheckGeofences C d location s).2.2.trace = s.trace ++ [Call.GetAll] ∧
    (∀ id, (CheckGeofences C d location s).2.1.cache.lookup id = lastWithID L id) ∧
    (∀ id, id ∈ (CheckGeofences C d location s).2.1.cache ↔ ∃ g ∈ L, g.ID = id) ∧
    (∀ id g, (CheckGeofences C d location s).2.1.cache.lookup id = some g →
      g ∈ L ∧ g.ID = id) ∧
    ∃ results, (CheckGeofences C d location s).1 = .ok results ∧
      results.Perm (((cached (newCacheOf L)).filter
        (fun g => decide (Contains location g))).map (resultOf location)) := by
  rw [check_stale_ok C d location s L hs hL]
  refine ⟨rfl, fun id => newCacheOf_lookup L id, ?_, ?_, _, rfl, checkLoop_perm _ _ _ _⟩
  · intro id
    simp only []
    rw [← AList.lookup_isSome, newCacheOf_lookup]
    constructor
    · intro h
      obtain ⟨g, hg⟩ := Option.isSome_iff_exists.1 h
      exact ⟨g, lastWithID_mem L id g hg⟩
    · rintro ⟨g, hg, rfl⟩
      obtain ⟨g2, hg2⟩ := lastWithID_isSome L g hg
      rw [hg2]
      rfl
  · intro id g h
    simp only [newCacheOf_lookup] at h
    exact lastWithID_mem L id g h

/-- C7 (amended): when the cache is stale and the lookup fails, `CheckGeofences` calls
`GetAll` once and fails the evaluation: it returns the lookup's error and no results, and
leaves the snapshot and `lastUpdated` as they were. -/
theorem CheckGeofences_lookup_failure (C : Collaborators F W) (d : Detector F)
    (location : VehicleLocation F) (s : Sys F W) (err : Error)
    (hs : (Since C d.lastUpdated s).1 > 5 * Minute)
    (hE : (C.GetAll (Since C d.lastUpdated s).2.world).1 = .error err) :
    (CheckGeofences C d location s).1 = .error err ∧
    (CheckGeofences C d location s).2.1 = d ∧
    (CheckGeofences C d location s).2.2.trace = s.trace ++ [Call.GetAll] := by
  rw [check_stale_error C d location s err hs hE]
  exact ⟨rfl, rfl, rfl⟩

/-- C9: a detector from `NewDetector` has an empty cache and the zero `lastUpdated`; at
every clock reading it is stale, so its first `CheckGeofences` calls `GetAll` (exactly
once) and evaluates against the looked-up snapshot, or returns the lookup's error. -/
theorem NewDetector_first_check (C : Collaborators F W) (location : VehicleLocation F)
    (s : Sys F W) :
    (NewDetector F).cache.entries = [] ∧ (NewDetector F).lastUpdated = zeroTime ∧
    (Since C (NewDetector F).lastUpdated s).1 > 5 * Minute ∧
    (CheckGeofences C (NewDetector F) location s).2.2.trace = s.trace ++ [Call.GetAll] ∧
    (∀ L, (C.GetAll (Since C (NewDetector F).lastUpdated s).2.world).1 = .ok L →
      ∃ w, (CheckGeofences C (NewDetector F) location s).1
        = .ok (checkLoop C (newCacheOf L) location w)) ∧
    (∀ err, (C.GetAll (Since C (NewDetector F).lastUpdated s).2.world).1 = .error err →
      (CheckGeofences C (NewDetector F) location s).1 = .error err) := by
  have hs : (Since C (NewDetector F).lastUpdated s).1 > 5 * Minute := by
    show (Since C zeroTime s).1 > 5 * Minute
    rw [Since_zeroTime]
    decide
  refine ⟨rfl, rfl, hs, ?_, ?_, ?_⟩
  · cases hg : (C.GetAll (Since C (NewDetector F).lastUpdated s).2.world).1 with
    | error err => rw [check_stale_error C _ location s err hs hg]; rfl
    | ok L => rw [check_stale_ok C _ location s L hs hg]; rfl
  · intro L hL
    rw [check_stale_ok C _ location s L hs hL]
    exact ⟨_, rfl⟩
  · intro err hE
    rw [check_stale_error C _ location s err hs hE]

end Freshness

/-! ## The event pipeline -/

theorem createCalls_append {F : Type} (t1 t2 : List (Call F)) :
    createCalls (t1 ++ t2) = createCalls t1 ++ createCalls t2 := by
  simp [createCalls, List.filterMap_append]


theorem publish_createCalls {F W : Type} (C : Collaborators F W) (message : GeofenceEventMessage F)
    (s : Sys F W) :
    createCalls (PublishGeofenceEvent C message s).2.trace = createCalls s.trace := by
  unfold PublishGeofenceEvent
  simp only []
  split
  · simp [createCalls_append, createCalls]
  · split
    · simp [createCalls_append, createCalls]
    · split <;> simp [createCalls_append, createCalls, Now]


section Pipeline

variable {F W : Type}

theorem check_createCalls [Float64 F] (C : Collaborators F W) (d : Detector F)
    (location : VehicleLocation F) (s : Sys F W) :
    createCalls (CheckGeofences C d location s).2.2.trace = createCalls s.trace := by
  by_cases hs : (Since C d.lastUpdated s).1 > 5 * Minute
  · cases hg : (C.GetAll (Since C d.lastUpdated s).2.world).1 with
    | error err =>
      rw [check_stale_error C d location s err hs hg]
      show createCalls (s.trace ++ [Call.GetAll]) = _
      simp [createCalls_append, createCalls]
    | ok L =>
      rw [check_stale_ok C d location s L hs hg]
      show createCalls (s.trace ++ [Call.GetAll]) = _
      simp [createCalls_append, createCalls]
  · rw [check_fresh C d location s (not_lt.1 hs)]
    rfl

theorem processResult_createCalls (C : Collaborators F W) (location : VehicleLocation F)
    (s : Sys F W) (result : GeofenceResult F) (h : result.Entered = true) :
    createCalls (processResult C location s result).trace
      = createCalls s.trace ++ [newGeofenceEvent location result.Geofence] := by
  unfold processResult
  rw [if_pos h]
  unfold ProcessGeofenceEntry
  simp only []
  cases (C.Create (newGeofenceEvent location result.Geofence) s.world).1 with
  | some err => simp [createCalls_append, createCalls]
  | none =>
    simp only []
    rw [publish_createCalls]
    simp [createCalls_append, createCalls]

theorem foldl_processResult_createCalls (C : Collaborators F W)
    (location : VehicleLocation F) (results : List (GeofenceResult F)) (s : Sys F W)
    (h : ∀ r ∈ results, r.Entered = true) :
    createCalls (results.foldl (processResult C location) s).trace
      = createCalls s.trace
        ++ results.map (fun r => newGeofenceEvent location r.Geofence) := by
  induction results generalizing s with
  | nil => simp
  | cons r rs ih =>
    rw [List.foldl_cons, ih _ (fun x hx => h x (List.mem_cons_of_mem _ hx)),
      processResult_createCalls C location s r (h r (List.mem_cons_self _ _))]
    simp

theorem process_ok [Float64 F] (C : Collaborators F W) (d : Detector F)
    (location : VehicleLocation F) (s : Sys F W) (results : List (GeofenceResult F))
    (h : (CheckGeofences C d location s).1 = .ok results) :
    ProcessLocationForGeofencing C d location s
      = (none, (CheckGeofences C d location s).2.1,
          results.foldl (processResult C location) (CheckGeofences C d location s).2.2) := by
  unfold ProcessLocationForGeofencing
  rcases hc : CheckGeofences C d location s with ⟨r, d1, s1⟩
  rw [hc] at h
  simp only [] at h
  subst h
  rfl

/-- C10: when the evaluation succeeds with `results`, `ProcessLocationForGeofencing` calls
the Event Store `Create` exactly once per result, in order, with the entry event of that
result's geofence, and makes no other `Create` call, whatever the collaborators (so
whichever `Create` calls fail). -/
theorem ProcessLocationForGeofencing_creates [Float64 F] (C : Collaborators F W) (d : Detector F)
    (location : VehicleLocation F) (s : Sys F W) (results : List (GeofenceResult F))
    (h : (CheckGeofences C d location s).1 = .ok results) :
    createCalls (ProcessLocationForGeofencing C d location s).2.2.trace
      = createCalls s.trace ++ results.map (fun r => newGeofenceEvent location r.Geofence) ∧
    (createCalls (ProcessLocationForGeofencing C d location s).2.2.trace).length
      = (createCalls s.trace).length + results.length := by
  have hent : ∀ r ∈ results, r.Entered = true := by
    rw [check_result C d location s results h]
    exact checkLoop_entered _ _ _ _
  have e : createCalls (ProcessLocationForGeofencing C d location s).2.2.trace
      = createCalls s.trace
        ++ results.map (fun r => newGeofenceEvent location r.Geofence) := by
    rw [process_ok C d location s results h]
    simp only []
    rw [foldl_processResult_createCalls C location results _ hent, check_createCalls]
  exact ⟨e, by rw [e]; simp⟩

end Pipeline

/-! ## Worked instances over real arithmetic -/

section Instances

theorem contains_at_centre (location : VehicleLocation ℝ) (g : Geofence ℝ)
    (hlat : g.Latitude = location.Latitude) (hlng : g.Longitude = location.Longitude)
    (hr : 0 ≤ g.Radius) : Contains location g := by
  unfold Contains
  rw [hlat, hlng, haversine_self_real]
  exact_mod_cast hr

theorem example_entries (F : Type) [Float64 F] :
    (exampleDetector F).cache.entries = [⟨2, merdeka F⟩, ⟨1, monas F⟩] := rfl

theorem example_checkLoop (now : Nat) (lookup : Except Error (List (Geofence ℝ))) (w : Nat) :
    checkLoop (exampleCollaborators ℝ now lookup) (exampleDetector ℝ).cache (atMonas ℝ) w
      = [resultOf (atMonas ℝ) (merdeka ℝ), resultOf (atMonas ℝ) (monas ℝ)] := by
  have h1 : Contains (atMonas ℝ) (merdeka ℝ) :=
    contains_at_centre _ _ rfl rfl (by decide)
  have h2 : Contains (atMonas ℝ) (monas ℝ) :=
    contains_at_centre _ _ rfl rfl (by decide)
  rw [checkLoop_eq, example_entries]
  simp [exampleCollaborators, List.filter_cons, h1, h2]

theorem example_fresh :
    (Since (freshWorld ℝ) (exampleDetector ℝ).lastUpdated (startSys ℝ)).1 ≤ 5 * Minute := by
  decide

theorem example_fresh_later :
    (Since (freshWorld ℝ) (exampleDetector ℝ).lastUpdated (laterSys ℝ)).1 ≤ 5 * Minute := by
  decide

theorem example_stale :
    (Since (failingWorld ℝ) (exampleDetector ℝ).lastUpdated (startSys ℝ)).1 > 5 * Minute := by
  decide

theorem example_stale_ok :
    (Since (refreshWorld ℝ) (exampleDetector ℝ).lastUpdated (startSys ℝ)).1 > 5 * Minute := by
  decide

/-- Witness for C1: the fresh example detector evaluated at the centre of its geofences;
the snapshot is the detector's own cache. -/
theorem CheckGeofences_contained_witness :
    (((Since (freshWorld ℝ) (exampleDetector ℝ).lastUpdated (startSys ℝ)).1 ≤ 5 * Minute ∧
        (exampleDetector ℝ).cache = (exampleDetector ℝ).cache) ∨
      ((Since (freshWorld ℝ) (exampleDetector ℝ).lastUpdated (startSys ℝ)).1 > 5 * Minute ∧
        ∃ L, ((freshWorld ℝ).GetAll
          (Since (freshWorld ℝ) (exampleDetector ℝ).lastUpdated (startSys ℝ)).2.world).1
            = .ok L ∧
          (exampleDetector ℝ).cache = newCacheOf L)) ∧
    ∃ results, (freshCheck ℝ).1 = .ok results ∧
      (freshCheck ℝ).2.1.cache = (exampleDetector ℝ).cache ∧
      (∀ g, (∃ r ∈ results, r.Geofence = g) ↔
        ((∃ id, (exampleDetector ℝ).cache.lookup id = some g) ∧
          HaversineDistance (atMonas ℝ).Latitude (atMonas ℝ).Longitude g.Latitude g.Longitude
            ≤ ((g.Radius : Int) : ℝ))) ∧
      (∀ r ∈ results, r.Entered = true ∧
        r.Distance = HaversineDistance (atMonas ℝ).Latitude (atMonas ℝ).Longitude
          r.Geofence.Latitude r.Geofence.Longitude) ∧
      (results.map (fun r => r.Geofence)).Perm
        ((cached (exampleDetector ℝ).cache).filter
          (fun g => decide (Contains (atMonas ℝ) g))) :=
  ⟨Or.inl ⟨example_fresh, rfl⟩,
    CheckGeofences_contained _ _ _ _ _ (Or.inl ⟨example_fresh, rfl⟩)⟩

/-- Witness for C5: two evaluations of the example detector inside the window, the second
in a world where three `Create` calls have happened in between. -/
theorem CheckGeofences_within_ttl_witness :
    (Since (freshWorld ℝ) (exampleDetector ℝ).lastUpdated (startSys ℝ)).1 ≤ 5 * Minute ∧
    (Since (freshWorld ℝ) (exampleDetector ℝ).lastUpdated (laterSys ℝ)).1 ≤ 5 * Minute ∧
    (freshCheck ℝ).2.1 = (exampleDetector ℝ) ∧
    (freshCheck ℝ).2.2.trace = (startSys ℝ).trace ∧
    getAllCalls (freshCheck ℝ).2.2.trace = getAllCalls (startSys ℝ).trace ∧
    (CheckGeofences (freshWorld ℝ) (freshCheck ℝ).2.1 (atMonas ℝ) (laterSys ℝ)).2.1 = (exampleDetector ℝ) ∧
    (CheckGeofences (freshWorld ℝ) (freshCheck ℝ).2.1 (atMonas ℝ) (laterSys ℝ)).2.2.trace
      = (laterSys ℝ).trace ∧
    ∃ rs1 rs2, (freshCheck ℝ).1 = .ok rs1 ∧
      (CheckGeofences (freshWorld ℝ) (freshCheck ℝ).2.1 (atMonas ℝ) (laterSys ℝ)).1 = .ok rs2 ∧
      rs1.Perm (((cached (exampleDetector ℝ).cache).filter
        (fun g => decide (Contains (atMonas ℝ) g))).map (resultOf (atMonas ℝ))) ∧
      rs2.Perm (((cached (exampleDetector ℝ).cache).filter
        (fun g => decide (Contains (atMonas ℝ) g))).map (resultOf (atMonas ℝ))) :=
  ⟨example_fresh, example_fresh_later,
    CheckGeofences_within_ttl _ _ _ _ _ example_fresh example_fresh_later⟩

/-- Witness for C6: the stale example detector refreshed from a lookup that returns only
`merdeka`. -/
theorem CheckGeofences_refresh_witness :
    (Since (refreshWorld ℝ) (exampleDetector ℝ).lastUpdated (startSys ℝ)).1 > 5 * Minute ∧
    ((refreshWorld ℝ).GetAll (Since (refreshWorld ℝ) (exampleDetector ℝ).lastUpdated (startSys ℝ)).2.world).1
      = .ok [merdeka ℝ] ∧
    (refreshCheck ℝ).2.2.trace = (startSys ℝ).trace ++ [Call.GetAll] ∧
    (∀ id, (refreshCheck ℝ).2.1.cache.lookup id = lastWithID [merdeka ℝ] id) ∧
    (∀ id, id ∈ (refreshCheck ℝ).2.1.cache ↔ ∃ g ∈ [merdeka ℝ], g.ID = id) ∧
    (∀ id g, (refreshCheck ℝ).2.1.cache.lookup id = some g →
      g ∈ [merdeka ℝ] ∧ g.ID = id) ∧
    ∃ results, (refreshCheck ℝ).1 = .ok results ∧
      results.Perm (((cached (newCacheOf [merdeka ℝ])).filter
        (fun g => decide (Contains (atMonas ℝ) g))).map (resultOf (atMonas ℝ))) :=
  ⟨example_stale_ok, rfl, CheckGeofences_refresh _ _ _ _ _ example_stale_ok rfl⟩

/-- Counterexample to C7: the example detector is stale, its snapshot holds `monas`, which
contains the location, and the lookup fails; `CheckGeofences` returns the lookup's error
and no result. -/
theorem CheckGeofences_stale_failure_counterexample :
    (Since (failingWorld ℝ) (exampleDetector ℝ).lastUpdated (startSys ℝ)).1 > 5 * Minute ∧
    ((failingWorld ℝ).GetAll (Since (failingWorld ℝ) (exampleDetector ℝ).lastUpdated (startSys ℝ)).2.world).1
      = .error "lookup failed" ∧
    (exampleDetector ℝ).cache.lookup 1 = some (monas ℝ) ∧
    Contains (atMonas ℝ) (monas ℝ) ∧
    (failedCheck ℝ).1 = .error "lookup failed" ∧
    ¬ ∃ results, (failedCheck ℝ).1 = .ok results := by
  have h : failedCheck ℝ = _ :=
    check_stale_error (failingWorld ℝ) (exampleDetector ℝ) (atMonas ℝ) (startSys ℝ) "lookup failed" example_stale rfl
  refine ⟨example_stale, rfl, rfl, contains_at_centre _ _ rfl rfl (by decide), ?_, ?_⟩
  · rw [h]
  · rw [h]
    rintro ⟨results, hr⟩
    cases hr

/-- Witness for C7 (amended): the same stale detector and failing lookup. -/
theorem CheckGeofences_lookup_failure_witness :
    (Since (failingWorld ℝ) (exampleDetector ℝ).lastUpdated (startSys ℝ)).1 > 5 * Minute ∧
    ((failingWorld ℝ).GetAll (Since (failingWorld ℝ) (exampleDetector ℝ).lastUpdated (startSys ℝ)).2.world).1
      = .error "lookup failed" ∧
    (failedCheck ℝ).1 = .error "lookup failed" ∧
    (failedCheck ℝ).2.1 = (exampleDetector ℝ) ∧
    (failedCheck ℝ).2.2.trace = (startSys ℝ).trace ++ [Call.GetAll] :=
  ⟨example_stale, rfl, CheckGeofences_lookup_failure _ _ _ _ _ example_stale rfl⟩

/-- Witness for C8: a refresh of the example detector whose lookup fails. -/
theorem refreshGeofenceCache_failure_witness :
    ((failingWorld ℝ).GetAll (startSys ℝ).world).1 = .error "lookup failed" ∧
    (refreshGeofenceCache (failingWorld ℝ) (exampleDetector ℝ) (startSys ℝ)).1 = some "lookup failed" ∧
    (refreshGeofenceCache (failingWorld ℝ) (exampleDetector ℝ) (startSys ℝ)).2.1 = (exampleDetector ℝ) ∧
    (refreshGeofenceCache (failingWorld ℝ) (exampleDetector ℝ) (startSys ℝ)).2.1.cache = (exampleDetector ℝ).cache ∧
    (refreshGeofenceCache (failingWorld ℝ) (exampleDetector ℝ) (startSys ℝ)).2.1.lastUpdated
      = (exampleDetector ℝ).lastUpdated :=
  ⟨rfl, refreshGeofenceCache_failure _ _ _ _ rfl⟩

theorem example_check_ok :
    (CheckGeofences (freshWorld ℝ) (exampleDetector ℝ) (atMonas ℝ) (startSys ℝ)).1
      = .ok [resultOf (atMonas ℝ) (merdeka ℝ), resultOf (atMonas ℝ) (monas ℝ)] := by
  rw [check_fresh _ _ _ _ example_fresh]
  simp only []
  exact congrArg _ (example_checkLoop _ _ _)

/-- Witness for C10: the location lies in both geofences of the fresh example detector; the
first `Create` (for `merdeka`) fails, and `Create` is still called for `monas`. -/
theorem ProcessLocationForGeofencing_creates_witness :
    (CheckGeofences (freshWorld ℝ) (exampleDetector ℝ) (atMonas ℝ) (startSys ℝ)).1
      = .ok [resultOf (atMonas ℝ) (merdeka ℝ), resultOf (atMonas ℝ) (monas ℝ)] ∧
    ((freshWorld ℝ).Create (newGeofenceEvent (atMonas ℝ) (merdeka ℝ)) 0).1
      = some "insert failed" ∧
    createCalls (ProcessLocationForGeofencing (freshWorld ℝ) (exampleDetector ℝ) (atMonas ℝ) (startSys ℝ)).2.2.trace
      = createCalls (startSys ℝ).trace ++
        [resultOf (atMonas ℝ) (merdeka ℝ), resultOf (atMonas ℝ) (monas ℝ)].map
          (fun r => newGeofenceEvent (atMonas ℝ) r.Geofence) ∧
    (createCalls (ProcessLocationForGeofencing (freshWorld ℝ) (exampleDetector ℝ) (atMonas ℝ) (startSys ℝ)).2.2.trace).length
      = (createCalls (startSys ℝ).trace).length
        + [resultOf (atMonas ℝ) (merdeka ℝ), resultOf (atMonas ℝ) (monas ℝ)].length :=
  ⟨example_check_ok, rfl,
    ProcessLocationForGeofencing_creates _ _ _ _ _ example_check_ok⟩

end Instances

/-! ## Publishing in the event pipeline -/

section Publishing

variable {F W : Type}

theorem publishCalls_append (t1 t2 : List (Call F)) :
    publishCalls (t1 ++ t2) = publishCalls t1 ++ publishCalls t2 := by
  simp [publishCalls, List.filterMap_append]

theorem routingKeys_append (t1 t2 : List (Call F)) :
    routingKeys (t1 ++ t2) = routingKeys t1 ++ routingKeys t2 := by
  simp [routingKeys, List.filterMap_append]

theorem check_trace [Float64 F] (C : Collaborators F W) (d : Detector F)
    (location : VehicleLocation F) (s : Sys F W) :
    (CheckGeofences C d location s).2.2.trace = s.trace ∨
    (CheckGeofences C d location s).2.2.trace = s.trace ++ [Call.GetAll] := by
  by_cases hs : (Since C d.lastUpdated s).1 > 5 * Minute
  · right
    cases hg : (C.GetAll (Since C d.lastUpdated s).2.world).1 with
    | error err => rw [check_stale_error C d location s err hs hg]; rfl
    | ok L => rw [check_stale_ok C d location s L hs hg]; rfl
  · left
    rw [check_fresh C d location s (not_lt.1 hs)]
    rfl

theorem check_publishCalls [Float64 F] (C : Collaborators F W) (d : Detector F)
    (location : VehicleLocation F) (s : Sys F W) :
    publishCalls (CheckGeofences C d location s).2.2.trace = publishCalls s.trace := by
  rcases check_trace C d location s with h | h <;> rw [h]
  simp [publishCalls_append, publishCalls]

theorem check_routingKeys [Float64 F] (C : Collaborators F W) (d : Detector F)
    (location : VehicleLocation F) (s : Sys F W) :
    routingKeys (CheckGeofences C d location s).2.2.trace = routingKeys s.trace := by
  rcases check_trace C d location s with h | h <;> rw [h]
  simp [routingKeys_append, routingKeys]

theorem publish_publishCalls (C : Collaborators F W) (message : GeofenceEventMessage F)
    (s : Sys F W) :
    publishCalls (PublishGeofenceEvent C message s).2.trace
      = publishCalls s.trace ++ [message] := by
  unfold PublishGeofenceEvent
  simp only []
  split
  · simp [publishCalls_append, publishCalls]
  · split
    · simp [publishCalls_append, publishCalls]
    · split <;> simp [publishCalls_append, publishCalls, Now]

theorem publish_routingKeys (C : Collaborators F W) (message : GeofenceEventMessage F)
    (s : Sys F W) :
    routingKeys (PublishGeofenceEvent C message s).2.trace = routingKeys s.trace ∨
    routingKeys (PublishGeofenceEvent C message s).2.trace
      = routingKeys s.trace ++ ["geofence." ++ message.Event] := by
  unfold PublishGeofenceEvent
  simp only []
  split
  · left; simp [routingKeys_append, routingKeys]
  · split
    · left; simp [routingKeys_append, routingKeys]
    · right; split <;> simp [routingKeys_append, routingKeys, Now]

theorem publish_succeeds (C : Collaborators F W) (hp : PublisherSucceeds C)
    (message : GeofenceEventMessage F) (s : Sys F W) :
    (PublishGeofenceEvent C message s).1 = none ∧
    routingKeys (PublishGeofenceEvent C message s).2.trace
      = routingKeys s.trace ++ ["geofence." ++ message.Event] := by
  obtain ⟨hc, hm, hw⟩ := hp
  obtain ⟨body, hb⟩ := hm message
  unfold PublishGeofenceEvent
  simp [hc, hb, hw, routingKeys_append, routingKeys, Now]

theorem processResult_publishCalls (C : Collaborators F W) (location : VehicleLocation F)
    (s : Sys F W) (result : GeofenceResult F) (h : result.Entered = true) :
    publishCalls (processResult C location s result).trace
      = publishCalls s.trace ++
        (if (C.Create (newGeofenceEvent location result.Geofence) s.world).1 = none
          then [newEventMessage location result] else []) := by
  unfold processResult
  rw [if_pos h]
  unfold ProcessGeofenceEntry
  simp only []
  cases (C.Create (newGeofenceEvent location result.Geofence) s.world).1 with
  | some err => simp [publishCalls_append, publishCalls]
  | none =>
    simp only []
    rw [publish_publishCalls]
    simp [publishCalls_append, publishCalls]

theorem loopState_zero (C : Collaborators F W) (location : VehicleLocation F) (s : Sys F W)
    (results : List (GeofenceResult F)) : loopState C location s results 0 = s := by
  simp [loopState]

theorem loopState_length (C : Collaborators F W) (location : VehicleLocation F)
    (s : Sys F W) (results : List (GeofenceResult F)) :
    loopState C location s results results.length
      = results.foldl (processResult C location) s := by
  simp [loopState]

theorem loopState_succ (C : Collaborators F W) (location : VehicleLocation F) (s : Sys F W)
    (results : List (GeofenceResult F)) (i : Nat) (hi : i < results.length) :
    loopState C location s results (i + 1)
      = processResult C location (loopState C location s results i) results[i] := by
  unfold loopState
  rw [List.take_succ, List.foldl_append, List.getElem?_eq_getElem hi]
  rfl

end Publishing

section PipelineClaims

variable {F W : Type} [Float64 F]

theorem check_entered (C : Collaborators F W) (d : Detector F) (location : VehicleLocation F)
    (s : Sys F W) (results : List (GeofenceResult F))
    (h : (CheckGeofences C d location s).1 = .ok results) :
    ∀ r ∈ results, r.Entered = true := by
  rw [check_result C d location s results h]
  exact checkLoop_entered _ _ _ _

theorem process_error (C : Collaborators F W) (d : Detector F) (location : VehicleLocation F)
    (s : Sys F W) (err : Error) (h : (CheckGeofences C d location s).1 = .error err) :
    ProcessLocationForGeofencing C d location s
      = (some ("failed to check geofences: " ++ err), (CheckGeofences C d location s).2.1,
          (CheckGeofences C d location s).2.2) := by
  unfold ProcessLocationForGeofencing
  rcases hc : CheckGeofences C d location s with ⟨r, d1, s1⟩
  rw [hc] at h
  simp only [] at h
  subst h
  rfl

/-- C11: when the evaluation succeeds with `results`, the loop of
`ProcessLocationForGeofencing` runs one iteration per result; iteration `i` makes exactly
one `Create` call, for the event of the geofence of `results[i]`, and then calls the
publisher exactly once, with the message of that result, if that `Create` returned no
error, and not at all if it returned an error.  No other publisher call is made. -/
theorem ProcessLocationForGeofencing_publishes (C : Collaborators F W) (d : Detector F)
    (location : VehicleLocation F) (s : Sys F W) (results : List (GeofenceResult F))
    (h : (CheckGeofences C d location s).1 = .ok results) :
    (ProcessLocationForGeofencing C d location s).2.2
      = loopState C location (CheckGeofences C d location s).2.2 results results.length ∧
    publishCalls (loopState C location (CheckGeofences C d location s).2.2 results 0).trace
      = publishCalls s.trace ∧
    ∀ i (hi : i < results.length),
      createCalls (loopState C location (CheckGeofences C d location s).2.2 results
          (i + 1)).trace
        = createCalls (loopState C location (CheckGeofences C d location s).2.2 results
            i).trace ++ [newGeofenceEvent location results[i].Geofence] ∧
      publishCalls (loopState C location (CheckGeofences C d location s).2.2 results
          (i + 1)).trace
        = publishCalls (loopState C location (CheckGeofences C d location s).2.2 results
            i).trace ++
          (if (C.Create (newGeofenceEvent location results[i].Geofence)
              (loopState C location (CheckGeofences C d location s).2.2 results i).world).1
              = none
            then [newEventMessage location results[i]] else []) := by
  refine ⟨?_, ?_, ?_⟩
  · rw [process_ok C d location s results h, loopState_length]
  · rw [loopState_zero, check_publishCalls]
  · intro i hi
    have he := check_entered C d location s results h results[i] (List.getElem_mem _)
    rw [loopState_succ C location _ results i hi]
    exact ⟨processResult_createCalls C location _ _ he,
      processResult_publishCalls C location _ _ he⟩

/-- C12: if `CheckGeofences` succeeds, `ProcessLocationForGeofencing` returns nil whatever
the Event Store and the publisher do, and still calls `Create` for every result; if
`CheckGeofences` fails, it returns the wrapped error and makes no `Create` call, no
publisher call and no channel publish; it returns an error only in that case. -/
theorem ProcessLocationForGeofencing_result (C : Collaborators F W) (d : Detector F)
    (location : VehicleLocation F) (s : Sys F W) :
    (∀ results, (CheckGeofences C d location s).1 = .ok results →
      (ProcessLocationForGeofencing C d location s).1 = none ∧
      createCalls (ProcessLocationForGeofencing C d location s).2.2.trace
        = createCalls s.trace
          ++ results.map (fun r => newGeofenceEvent location r.Geofence)) ∧
    (∀ err, (CheckGeofences C d location s).1 = .error err →
      (ProcessLocationForGeofencing C d location s).1
        = some ("failed to check geofences: " ++ err) ∧
      createCalls (ProcessLocationForGeofencing C d location s).2.2.trace
        = createCalls s.trace ∧
      publishCalls (ProcessLocationForGeofencing C d location s).2.2.trace
        = publishCalls s.trace ∧
      routingKeys (ProcessLocationForGeofencing C d location s).2.2.trace
        = routingKeys s.trace) ∧
    ((ProcessLocationForGeofencing C d location s).1 ≠ none ↔
      ∃ err, (CheckGeofences C d location s).1 = .error err) := by
  refine ⟨?_, ?_, ?_⟩
  · intro results h
    refine ⟨by rw [process_ok C d location s results h], ?_⟩
    rw [process_ok C d location s results h]
    simp only []
    rw [foldl_processResult_createCalls C location results _
      (check_entered C d location s results h), check_createCalls]
  · intro err h
    rw [process_error C d location s err h]
    exact ⟨rfl, check_createCalls C d location s, check_publishCalls C d location s,
      check_routingKeys C d location s⟩
  · cases hc : (CheckGeofences C d location s).1 with
    | error err =>
      rw [process_error C d location s err hc]
      simp
    | ok results =>
      rw [process_ok C d location s results hc]
      simp

end PipelineClaims

/-! ## The Monas scenario and a far location -/

section Meridian

theorem arg_cos_sin (θ : ℝ) (h1 : -Real.pi < θ) (h2 : θ ≤ Real.pi) :
    Complex.arg ⟨Real.cos θ, Real.sin θ⟩ = θ := by
  have h : (⟨Real.cos θ, Real.sin θ⟩ : ℂ)
      = Complex.cos θ + Complex.sin θ * Complex.I := by
    apply Complex.ext
    · simp [← Complex.ofReal_cos, ← Complex.ofReal_sin]
    · simp [← Complex.ofReal_cos, ← Complex.ofReal_sin]
  rw [h]
  exact Complex.arg_cos_add_sin_mul_I ⟨h1, h2⟩

theorem haversine_meridian (lat1 lat2 lng : ℝ) (h0 : lat1 ≤ lat2) (h1 : lat2 - lat1 ≤ 180) :
    HaversineDistance lat1 lng lat2 lng = 6371000 * ((lat2 - lat1) * Real.pi / 180) := by
  have hpi : 0 < Real.pi := Real.pi_pos
  have ht0 : 0 ≤ (lat2 * Real.pi / 180 - lat1 * Real.pi / 180) / 2 := by
    have : 0 ≤ (lat2 - lat1) * Real.pi := mul_nonneg (by linarith) hpi.le
    linarith
  have ht1 : (lat2 * Real.pi / 180 - lat1 * Real.pi / 180) / 2 ≤ Real.pi / 2 := by
    have : (lat2 - lat1) * Real.pi ≤ 180 * Real.pi :=
      mul_le_mul_of_nonneg_right h1 hpi.le
    linarith
  have hsin : 0 ≤ Real.sin ((lat2 * Real.pi / 180 - lat1 * Real.pi / 180) / 2) :=
    Real.sin_nonneg_of_nonneg_of_le_pi ht0 (by linarith)
  have hcos : 0 ≤ Real.cos ((lat2 * Real.pi / 180 - lat1 * Real.pi / 180) / 2) :=
    Real.cos_nonneg_of_neg_pi_div_two_le_of_le (by linarith) ht1
  have ha : haversineA lat1 lng lat2 lng
      = Real.sin ((lat2 * Real.pi / 180 - lat1 * Real.pi / 180) / 2)
        * Real.sin ((lat2 * Real.pi / 180 - lat1 * Real.pi / 180) / 2) := by
    simp [haversineA]
  have hc : 1 - haversineA lat1 lng lat2 lng
      = Real.cos ((lat2 * Real.pi / 180 - lat1 * Real.pi / 180) / 2)
        * Real.cos ((lat2 * Real.pi / 180 - lat1 * Real.pi / 180) / 2) := by
    rw [ha]
    nlinarith [Real.sin_sq_add_cos_sq ((lat2 * Real.pi / 180 - lat1 * Real.pi / 180) / 2)]
  simp only [HaversineDistance, Sqrt_real, Atan2_real]
  rw [hc, ha, Real.sqrt_mul_self hsin, Real.sqrt_mul_self hcos,
    arg_cos_sin _ (by linarith) (by linarith)]
  ring

end Meridian

section Scenarios

variable {F W : Type}

theorem processResult_routingKeys (C : Collaborators F W) (location : VehicleLocation F)
    (s : Sys F W) (result : GeofenceResult F) :
    routingKeys (processResult C location s result).trace = routingKeys s.trace ∨
    routingKeys (processResult C location s result).trace
      = routingKeys s.trace ++ ["geofence.geofence_entry"] := by
  unfold processResult
  split
  · unfold ProcessGeofenceEntry
    simp only []
    cases (C.Create (newGeofenceEvent location result.Geofence) s.world).1 with
    | some err => left; simp [routingKeys_append, routingKeys]
    | none =>
      simp only []
      rcases publish_routingKeys C (newEventMessage location result)
        { world := (C.Create (newGeofenceEvent location result.Geofence) s.world).2,
          trace := s.trace ++ [Call.Create (newGeofenceEvent location result.Geofence)] }
        with h | h
      · left; rw [h]; simp [routingKeys_append, routingKeys]
      · right; rw [h]; simp [routingKeys_append, routingKeys, newEventMessage]
  · left; rfl

theorem foldl_processResult_routingKeys (C : Collaborators F W)
    (location : VehicleLocation F) (results : List (GeofenceResult F)) (s : Sys F W) :
    ∃ n, n ≤ results.length ∧
      routingKeys (results.foldl (processResult C location) s).trace
        = routingKeys s.trace ++ List.replicate n "geofence.geofence_entry" := by
  induction results generalizing s with
  | nil => exact ⟨0, le_refl _, by simp⟩
  | cons r rs ih =>
    obtain ⟨n, hn, h⟩ := ih (processResult C location s r)
    rw [List.foldl_cons, h]
    rcases processResult_routingKeys C location s r with h1 | h1
    · exact ⟨n, by simp; omega, by rw [h1]⟩
    · refine ⟨n + 1, by simp; omega, ?_⟩
      rw [h1, List.replicate_succ]
      simp

theorem processResult_success (C : Collaborators F W) (location : VehicleLocation F)
    (s : Sys F W) (result : GeofenceResult F) (h : result.Entered = true)
    (hstore : StoreSucceeds C) (hpub : PublisherSucceeds C) :
    routingKeys (processResult C location s result).trace
      = routingKeys s.trace ++ ["geofence.geofence_entry"] := by
  unfold processResult
  rw [if_pos h]
  unfold ProcessGeofenceEntry
  simp only [hstore _ _]
  rw [(publish_succeeds C hpub _ _).2]
  simp [routingKeys_append, routingKeys, newEventMessage]

theorem checkLoop_single [Float64 F] (C : Collaborators F W) (cache : GeofenceMap F)
    (location : VehicleLocation F) (w : W) (k : Int) (g : Geofence F)
    (hcache : cache.entries = [⟨k, g⟩]) :
    checkLoop C cache location w
      = if Contains location g then [resultOf location g] else [] := by
  have hp := C.rangeOrder_perm w cache.entries
  rw [hcache] at hp
  rw [checkLoop_eq, hcache, List.perm_singleton.1 hp]
  by_cases h : Contains location g <;> simp [List.filter_cons, h]

end Scenarios

section MonasScenario

variable {W : Type}

theorem monas_scenario (C : Collaborators ℝ W) (d : Detector ℝ)
    (location : VehicleLocation ℝ) (s : Sys ℝ W) (k : Int) (g : Geofence ℝ)
    (hfresh : (Since C d.lastUpdated s).1 ≤ 5 * Minute)
    (hcache : d.cache.entries = [⟨k, g⟩])
    (hlat : g.Latitude = location.Latitude) (hlng : g.Longitude = location.Longitude)
    (hr : 0 ≤ g.Radius) (hstore : StoreSucceeds C) (hpub : PublisherSucceeds C) :
    (CheckGeofences C d location s).1
      = .ok [{ Geofence := g, Distance := 0, Entered := true }] ∧
    (ProcessLocationForGeofencing C d location s).1 = none ∧
    createCalls (ProcessLocationForGeofencing C d location s).2.2.trace
      = createCalls s.trace ++ [newGeofenceEvent location g] ∧
    publishCalls (ProcessLocationForGeofencing C d location s).2.2.trace
      = publishCalls s.trace
        ++ [newEventMessage location { Geofence := g, Distance := 0, Entered := true }] ∧
    routingKeys (ProcessLocationForGeofencing C d location s).2.2.trace
      = routingKeys s.trace ++ ["geofence.geofence_entry"] := by
  have hres : resultOf location g = { Geofence := g, Distance := 0, Entered := true } := by
    simp [resultOf, hlat, hlng, haversine_self_real]
  have hcheck : (CheckGeofences C d location s).1
      = .ok [{ Geofence := g, Distance := 0, Entered := true }] := by
    rw [check_fresh C d location s hfresh]
    simp only []
    rw [checkLoop_single C d.cache location _ k g hcache,
      if_pos (contains_at_centre location g hlat hlng hr), hres]
  have hproc := process_ok C d location s _ hcheck
  refine ⟨hcheck, by rw [hproc], ?_, ?_, ?_⟩
  · rw [hproc]
    simp only [List.foldl_cons, List.foldl_nil]
    rw [processResult_createCalls C location _ _ rfl, check_createCalls]
  · rw [hproc]
    simp only [List.foldl_cons, List.foldl_nil]
    rw [processResult_publishCalls C location _ _ rfl, check_publishCalls, if_pos (hstore _ _)]
  · rw [hproc]
    simp only [List.foldl_cons, List.foldl_nil]
    rw [processResult_success C location _ _ rfl hstore hpub, check_routingKeys]

/-- C13: with a fresh cache holding the single geofence Monas (lat -6.1754, lng 106.8272,
radius 50) and the report of vehicle B1234XYZ from the same coordinates at timestamp
1700000000, `CheckGeofences` returns exactly one result, for Monas, with distance 0; and
with the store and the publisher succeeding, `ProcessLocationForGeofencing` returns nil,
makes exactly one `Create` call and exactly one publisher call, and one message reaches
the channel. -/
theorem Monas_end_to_end (C : Collaborators ℝ W) (d : Detector ℝ)
    (location : VehicleLocation ℝ) (s : Sys ℝ W) (k : Int) (g : Geofence ℝ)
    (hfresh : (Since C d.lastUpdated s).1 ≤ 5 * Minute)
    (hcache : d.cache.entries = [⟨k, g⟩])
    (hname : g.Name = "Monas") (hglat : g.Latitude = -6.1754)
    (hglng : g.Longitude = 106.8272) (hradius : g.Radius = 50)
    (hvehicle : location.VehicleID = "B1234XYZ") (hlat : location.Latitude = -6.1754)
    (hlng : location.Longitude = 106.8272) (hts : location.Timestamp = 1700000000)
    (hstore : StoreSucceeds C) (hpub : PublisherSucceeds C) :
    (CheckGeofences C d location s).1
      = .ok [{ Geofence := g, Distance := 0, Entered := true }] ∧
    (ProcessLocationForGeofencing C d location s).1 = none ∧
    createCalls (ProcessLocationForGeofencing C d location s).2.2.trace
      = createCalls s.trace ++
        [{ ID := 0, VehicleID := "B1234XYZ", GeofenceID := some g.ID,
           EventType := "geofence_entry", Latitude := -6.1754, Longitude := 106.8272,
           Timestamp := 1700000000, CreatedAt := zeroTime }] ∧
    publishCalls (ProcessLocationForGeofencing C d location s).2.2.trace
      = publishCalls s.trace ++
        [{ VehicleID := "B1234XYZ", Event := "geofence_entry",
           Location := { Latitude := -6.1754, Longitude := 106.8272 },
           Timestamp := 1700000000, GeofenceName := "Monas", Distance := 0 }] ∧
    (routingKeys (ProcessLocationForGeofencing C d location s).2.2.trace).length
      = (routingKeys s.trace).length + 1 := by
  obtain ⟨h1, h2, h3, h4, h5⟩ := monas_scenario C d location s k g hfresh hcache
    (by rw [hglat, hlat]) (by rw [hglng, hlng]) (by rw [hradius]; decide) hstore hpub
  refine ⟨h1, h2, ?_, ?_, by rw [h5]; simp⟩
  · rw [h3]
    simp [newGeofenceEvent, hvehicle, hlat, hlng, hts]
  · rw [h4]
    simp [newEventMessage, hvehicle, hlat, hlng, hts, hname]

end MonasScenario

section RoutingAndFar

variable {F W : Type} [Float64 F]

/-- C14 (amended): every routing key `ProcessLocationForGeofencing` hands to the channel is
`"geofence.geofence_entry"`, and in general `PublishGeofenceEvent` publishes under
`"geofence."` followed by the `Event` field of its message, which the pipeline sets to
`"geofence_entry"`. -/
theorem ProcessLocationForGeofencing_routingKeys (C : Collaborators F W) (d : Detector F)
    (location : VehicleLocation F) (s : Sys F W) :
    (∃ n, routingKeys (ProcessLocationForGeofencing C d location s).2.2.trace
      = routingKeys s.trace ++ List.replicate n "geofence.geofence_entry") ∧
    (∀ result, (newEventMessage location result).Event = "geofence_entry") ∧
    (∀ message s1,
      routingKeys (PublishGeofenceEvent C message s1).2.trace = routingKeys s1.trace ∨
      routingKeys (PublishGeofenceEvent C message s1).2.trace
        = routingKeys s1.trace ++ ["geofence." ++ message.Event]) := by
  refine ⟨?_, fun _ => rfl, fun message s1 => publish_routingKeys C message s1⟩
  cases hc : (CheckGeofences C d location s).1 with
  | error err =>
    rw [process_error C d location s err hc]
    exact ⟨0, by simp [check_routingKeys]⟩
  | ok results =>
    rw [process_ok C d location s results hc]
    obtain ⟨n, _, h⟩ := foldl_processResult_routingKeys C location results
      (CheckGeofences C d location s).2.2
    exact ⟨n, by rw [h, check_routingKeys]⟩

/-- C15: if the cache is fresh and the location is farther than its radius from every
cached geofence, `CheckGeofences` returns the empty list and
`ProcessLocationForGeofencing` returns nil without any collaborator call: no `Create`, no
publisher call, nothing handed to the channel. -/
theorem ProcessLocationForGeofencing_far (C : Collaborators F W) (d : Detector F)
    (location : VehicleLocation F) (s : Sys F W)
    (hord : ∀ a b : F, b < a → ¬ a ≤ b)
    (hfresh : (Since C d.lastUpdated s).1 ≤ 5 * Minute)
    (hfar : ∀ g ∈ cached d.cache, ((g.Radius : Int) : F)
      < HaversineDistance location.Latitude location.Longitude g.Latitude g.Longitude) :
    (CheckGeofences C d location s).1 = .ok [] ∧
    (ProcessLocationForGeofencing C d location s).1 = none ∧
    (ProcessLocationForGeofencing C d location s).2.2.trace = s.trace ∧
    createCalls (ProcessLocationForGeofencing C d location s).2.2.trace
      = createCalls s.trace ∧
    publishCalls (ProcessLocationForGeofencing C d location s).2.2.trace
      = publishCalls s.trace ∧
    routingKeys (ProcessLocationForGeofencing C d location s).2.2.trace
      = routingKeys s.trace := by
  have hloop : checkLoop C d.cache location (Since C d.lastUpdated s).2.world = [] := by
    rw [checkLoop_eq, List.map_eq_nil_iff, List.filter_eq_nil_iff]
    intro g hg
    have hmem : g ∈ cached d.cache :=
      ((C.rangeOrder_perm _ d.cache.entries).map _).mem_iff.1 hg
    have := hord _ _ (hfar g hmem)
    simpa [Contains] using this
  have hcheck : (CheckGeofences C d location s).1 = .ok [] := by
    rw [check_fresh C d location s hfresh]
    simp only []
    rw [hloop]
  have htrace : (ProcessLocationForGeofencing C d location s).2.2.trace = s.trace := by
    rw [process_ok C d location s [] hcheck, check_fresh C d location s hfresh]
    rfl
  refine ⟨hcheck, by rw [process_ok C d location s [] hcheck], htrace, ?_, ?_, ?_⟩ <;>
    rw [htrace]

end RoutingAndFar

section ScenarioInstances

theorem monasLatitude_real : monasLatitude ℝ = -6.1754 := by
  norm_num [monasLatitude]

theorem monasLongitude_real : monasLongitude ℝ = 106.8272 := by
  norm_num [monasLongitude]

theorem happyWorld_fresh :
    (Since (happyWorld ℝ) (monasDetector ℝ).lastUpdated (startSys ℝ)).1 ≤ 5 * Minute := by
  decide

theorem happyWorld_store (F : Type) [Float64 F] : StoreSucceeds (happyWorld F) :=
  fun _ _ => rfl

theorem happyWorld_publisher (F : Type) [Float64 F] : PublisherSucceeds (happyWorld F) :=
  ⟨fun _ => rfl, fun message => ⟨message.VehicleID, rfl⟩, fun _ _ _ _ _ _ => rfl⟩

theorem far_from_monas :
    (((monasGeofence ℝ).Radius : Int) : ℝ)
      < HaversineDistance (farReport ℝ).Latitude (farReport ℝ).Longitude
          (monasGeofence ℝ).Latitude (monasGeofence ℝ).Longitude := by
  have h : HaversineDistance (farReport ℝ).Latitude (farReport ℝ).Longitude
      (monasGeofence ℝ).Latitude (monasGeofence ℝ).Longitude
      = 6371000 * ((monasLatitude ℝ - ((-61844 : Int) : ℝ) / 10000) * Real.pi / 180) := by
    apply haversine_meridian
    · norm_num [monasLatitude, farReport, monasGeofence]
    · norm_num [monasLatitude, farReport, monasGeofence]
  rw [h]
  have hpi := Real.pi_gt_three
  norm_num [monasLatitude, monasGeofence]
  nlinarith

/-- Witness for C13: the Monas scenario with collaborators that never fail. -/
theorem Monas_end_to_end_witness :
    (CheckGeofences (happyWorld ℝ) (monasDetector ℝ) (monasReport ℝ) (startSys ℝ)).1
      = .ok [{ Geofence := monasGeofence ℝ, Distance := 0, Entered := true }] ∧
    (ProcessLocationForGeofencing (happyWorld ℝ) (monasDetector ℝ) (monasReport ℝ)
      (startSys ℝ)).1 = none ∧
    createCalls (ProcessLocationForGeofencing (happyWorld ℝ) (monasDetector ℝ)
        (monasReport ℝ) (startSys ℝ)).2.2.trace
      = createCalls (startSys ℝ).trace ++
        [{ ID := 0, VehicleID := "B1234XYZ", GeofenceID := some (monasGeofence ℝ).ID,
           EventType := "geofence_entry", Latitude := -6.1754, Longitude := 106.8272,
           Timestamp := 1700000000, CreatedAt := zeroTime }] ∧
    publishCalls (ProcessLocationForGeofencing (happyWorld ℝ) (monasDetector ℝ)
        (monasReport ℝ) (startSys ℝ)).2.2.trace
      = publishCalls (startSys ℝ).trace ++
        [{ VehicleID := "B1234XYZ", Event := "geofence_entry",
           Location := { Latitude := -6.1754, Longitude := 106.8272 },
           Timestamp := 1700000000, GeofenceName := "Monas", Distance := 0 }] ∧
    (routingKeys (ProcessLocationForGeofencing (happyWorld ℝ) (monasDetector ℝ)
        (monasReport ℝ) (startSys ℝ)).2.2.trace).length
      = (routingKeys (startSys ℝ).trace).length + 1 :=
  Monas_end_to_end (happyWorld ℝ) (monasDetector ℝ) (monasReport ℝ) (startSys ℝ) 1
    (monasGeofence ℝ) happyWorld_fresh rfl rfl monasLatitude_real
    monasLongitude_real rfl rfl monasLatitude_real monasLongitude_real rfl
    (happyWorld_store ℝ) (happyWorld_publisher ℝ)

/-- Counterexample to C14: in the Monas scenario the one routing key handed to the channel
is `"geofence.geofence_entry"`, not `"geofence.entry"`. -/
theorem routing_key_counterexample :
    routingKeys (ProcessLocationForGeofencing (happyWorld ℝ) (monasDetector ℝ)
        (monasReport ℝ) (startSys ℝ)).2.2.trace = ["geofence.geofence_entry"] ∧
    ¬ (∀ key ∈ routingKeys (ProcessLocationForGeofencing (happyWorld ℝ) (monasDetector ℝ)
        (monasReport ℝ) (startSys ℝ)).2.2.trace, key = "geofence.entry") := by
  have h := (monas_scenario (happyWorld ℝ) (monasDetector ℝ) (monasReport ℝ) (startSys ℝ)
    1 (monasGeofence ℝ) happyWorld_fresh rfl rfl rfl (by decide)
    (happyWorld_store ℝ) (happyWorld_publisher ℝ)).2.2.2.2
  have h2 : routingKeys (ProcessLocationForGeofencing (happyWorld ℝ) (monasDetector ℝ)
      (monasReport ℝ) (startSys ℝ)).2.2.trace = ["geofence.geofence_entry"] := by
    rw [h]
    rfl
  refine ⟨h2, ?_⟩
  rw [h2]
  intro hall
  have := hall "geofence.geofence_entry" (List.mem_singleton.2 rfl)
  exact absurd this (by decide)

/-- Witness for C15: the report 0.009 degrees south of Monas, about 1000 m from the only
cached geofence, whose radius is 50 m. -/
theorem ProcessLocationForGeofencing_far_witness :
    (∀ a b : ℝ, b < a → ¬ a ≤ b) ∧
    (Since (happyWorld ℝ) (monasDetector ℝ).lastUpdated (startSys ℝ)).1 ≤ 5 * Minute ∧
    (∀ g ∈ cached (monasDetector ℝ).cache, ((g.Radius : Int) : ℝ)
      < HaversineDistance (farReport ℝ).Latitude (farReport ℝ).Longitude
          g.Latitude g.Longitude) ∧
    (CheckGeofences (happyWorld ℝ) (monasDetector ℝ) (farReport ℝ) (startSys ℝ)).1
      = .ok [] ∧
    (ProcessLocationForGeofencing (happyWorld ℝ) (monasDetector ℝ) (farReport ℝ)
      (startSys ℝ)).1 = none ∧
    (ProcessLocationForGeofencing (happyWorld ℝ) (monasDetector ℝ) (farReport ℝ)
      (startSys ℝ)).2.2.trace = (startSys ℝ).trace ∧
    createCalls (ProcessLocationForGeofencing (happyWorld ℝ) (monasDetector ℝ)
      (farReport ℝ) (startSys ℝ)).2.2.trace = createCalls (startSys ℝ).trace ∧
    publishCalls (ProcessLocationForGeofencing (happyWorld ℝ) (monasDetector ℝ)
      (farReport ℝ) (startSys ℝ)).2.2.trace = publishCalls (startSys ℝ).trace ∧
    routingKeys (ProcessLocationForGeofencing (happyWorld ℝ) (monasDetector ℝ)
      (farReport ℝ) (startSys ℝ)).2.2.trace = routingKeys (startSys ℝ).trace :=
  have hfar : ∀ g ∈ cached (monasDetector ℝ).cache, ((g.Radius : Int) : ℝ)
      < HaversineDistance (farReport ℝ).Latitude (farReport ℝ).Longitude
          g.Latitude g.Longitude := by
    intro g hg
    have hg2 : g = monasGeofence ℝ := List.mem_singleton.1 hg
    rw [hg2]
    exact far_from_monas
  ⟨fun _ _ h => not_le.2 h, happyWorld_fresh, hfar,
    ProcessLocationForGeofencing_far _ _ _ _ (fun _ _ h => not_le.2 h)
      happyWorld_fresh hfar⟩

end ScenarioInstances

section PipelineInstances

theorem example_publishes :
    publishCalls (ProcessLocationForGeofencing (freshWorld ℝ) (exampleDetector ℝ) (atMonas ℝ) (startSys ℝ)).2.2.trace
      = [newEventMessage (atMonas ℝ) (resultOf (atMonas ℝ) (monas ℝ))] := by
  rw [process_ok _ _ _ _ _ example_check_ok, check_fresh _ _ _ _ example_fresh]
  simp only [List.foldl_cons, List.foldl_nil]
  rw [processResult_publishCalls _ _ _ _ rfl, processResult_publishCalls _ _ _ _ rfl]
  rfl

/-- Witness for C11: the location lies in both geofences of the fresh example detector; the
`Create` for `merdeka` fails and nothing is published for it, the `Create` for `monas`
succeeds and its message is the only one published. -/
theorem ProcessLocationForGeofencing_publishes_witness :
    (CheckGeofences (freshWorld ℝ) (exampleDetector ℝ) (atMonas ℝ) (startSys ℝ)).1
      = .ok [resultOf (atMonas ℝ) (merdeka ℝ), resultOf (atMonas ℝ) (monas ℝ)] ∧
    publishCalls (ProcessLocationForGeofencing (freshWorld ℝ) (exampleDetector ℝ) (atMonas ℝ) (startSys ℝ)).2.2.trace
      = [newEventMessage (atMonas ℝ) (resultOf (atMonas ℝ) (monas ℝ))] ∧
    (ProcessLocationForGeofencing (freshWorld ℝ) (exampleDetector ℝ) (atMonas ℝ) (startSys ℝ)).2.2
      = loopState (freshWorld ℝ) (atMonas ℝ) (CheckGeofences (freshWorld ℝ) (exampleDetector ℝ) (atMonas ℝ) (startSys ℝ)).2.2
          [resultOf (atMonas ℝ) (merdeka ℝ), resultOf (atMonas ℝ) (monas ℝ)]
          [resultOf (atMonas ℝ) (merdeka ℝ), resultOf (atMonas ℝ) (monas ℝ)].length ∧
    publishCalls (loopState (freshWorld ℝ) (atMonas ℝ) (CheckGeofences (freshWorld ℝ) (exampleDetector ℝ) (atMonas ℝ) (startSys ℝ)).2.2
        [resultOf (atMonas ℝ) (merdeka ℝ), resultOf (atMonas ℝ) (monas ℝ)] 0).trace
      = publishCalls (startSys ℝ).trace ∧
    ∀ i (hi : i < [resultOf (atMonas ℝ) (merdeka ℝ), resultOf (atMonas ℝ) (monas ℝ)].length),
      createCalls (loopState (freshWorld ℝ) (atMonas ℝ) (CheckGeofences (freshWorld ℝ) (exampleDetector ℝ) (atMonas ℝ) (startSys ℝ)).2.2
          [resultOf (atMonas ℝ) (merdeka ℝ), resultOf (atMonas ℝ) (monas ℝ)] (i + 1)).trace
        = createCalls (loopState (freshWorld ℝ) (atMonas ℝ) (CheckGeofences (freshWorld ℝ) (exampleDetector ℝ) (atMonas ℝ) (startSys ℝ)).2.2
            [resultOf (atMonas ℝ) (merdeka ℝ), resultOf (atMonas ℝ) (monas ℝ)] i).trace
          ++ [newGeofenceEvent (atMonas ℝ)
            [resultOf (atMonas ℝ) (merdeka ℝ), resultOf (atMonas ℝ) (monas ℝ)][i].Geofence] ∧
      publishCalls (loopState (freshWorld ℝ) (atMonas ℝ) (CheckGeofences (freshWorld ℝ) (exampleDetector ℝ) (atMonas ℝ) (startSys ℝ)).2.2
          [resultOf (atMonas ℝ) (merdeka ℝ), resultOf (atMonas ℝ) (monas ℝ)] (i + 1)).trace
        = publishCalls (loopState (freshWorld ℝ) (atMonas ℝ) (CheckGeofences (freshWorld ℝ) (exampleDetector ℝ) (atMonas ℝ) (startSys ℝ)).2.2
            [resultOf (atMonas ℝ) (merdeka ℝ), resultOf (atMonas ℝ) (monas ℝ)] i).trace ++
          (if ((freshWorld ℝ).Create (newGeofenceEvent (atMonas ℝ)
              [resultOf (atMonas ℝ) (merdeka ℝ), resultOf (atMonas ℝ) (monas ℝ)][i].Geofence)
              (loopState (freshWorld ℝ) (atMonas ℝ) (CheckGeofences (freshWorld ℝ) (exampleDetector ℝ) (atMonas ℝ) (startSys ℝ)).2.2
                [resultOf (atMonas ℝ) (merdeka ℝ), resultOf (atMonas ℝ) (monas ℝ)] i).world).1
              = none
            then [newEventMessage (atMonas ℝ)
              [resultOf (atMonas ℝ) (merdeka ℝ), resultOf (atMonas ℝ) (monas ℝ)][i]]
            else []) :=
  ⟨example_check_ok, example_publishes,
    ProcessLocationForGeofencing_publishes _ _ _ _ _ example_check_ok⟩

end PipelineInstances

/-! ## Location ingestion -/

theorem storeCalls_append {F : Type} (t1 t2 : List (IngestCall F)) :
    storeCalls (t1 ++ t2) = storeCalls t1 ++ storeCalls t2 := by
  simp [storeCalls, List.filterMap_append]


theorem goCalls_append {F : Type} (t1 t2 : List (IngestCall F)) :
    goCalls (t1 ++ t2) = goCalls t1 ++ goCalls t2 := by
  simp [goCalls, List.filterMap_append]


section IngestLemmas

variable {F W : Type} [Float64 F]

theorem save_invalid (LS : LocationStore F W) (location : VehicleLocation F)
    (s : IngestSys F W) (h : Invalid location) :
    ∃ err, enhancedLocationService.SaveLocation LS location s = (some err, location, s) ∧
      IsValidationError LS location err := by
  unfold enhancedLocationService.SaveLocation
  by_cases h1 : location.VehicleID = ""
  · exact ⟨_, by rw [if_pos h1], Or.inl rfl⟩
  · rw [if_neg h1]
    by_cases h2 : location.Latitude < ((-90 : Int) : F) ∨ location.Latitude > 90
    · exact ⟨_, by rw [if_pos h2], Or.inr (Or.inl rfl)⟩
    · rw [if_neg h2]
      by_cases h3 : location.Longitude < ((-180 : Int) : F) ∨ location.Longitude > 180
      · exact ⟨_, by rw [if_pos h3], Or.inr (Or.inr (Or.inl rfl))⟩
      · rw [if_neg h3]
        by_cases h4 : location.Timestamp ≤ 0
        · exact ⟨_, by rw [if_pos h4], Or.inr (Or.inr (Or.inr rfl))⟩
        · rcases h with h | h | h | h
          · exact absurd h h1
          · exact absurd h h2
          · exact absurd h h3
          · exact absurd h h4

theorem save_valid_error (LS : LocationStore F W) (location : VehicleLocation F)
    (s : IngestSys F W) (err : Error) (h : ¬ Invalid location)
    (he : (LS.Create location s.world).1 = .error err) :
    enhancedLocationService.SaveLocation LS location s
      = (some ("failed to save location: " ++ err), location,
          { world := (LS.Create location s.world).2,
            trace := s.trace ++ [IngestCall.Create location] }) := by
  unfold Invalid at h
  push_neg at h
  obtain ⟨h1, h2, h3, h4⟩ := h
  have h2' : ¬ (location.Latitude < ((-90 : Int) : F) ∨ location.Latitude > 90) := by
    rintro (h | h)
    · exact h2.1 h
    · exact h2.2 h
  have h3' : ¬ (location.Longitude < ((-180 : Int) : F) ∨ location.Longitude > 180) := by
    rintro (h | h)
    · exact h3.1 h
    · exact h3.2 h
  unfold enhancedLocationService.SaveLocation
  rw [if_neg h1, if_neg h2', if_neg h3', if_neg (not_le.2 h4)]
  simp only [he]

theorem save_valid_ok (LS : LocationStore F W) (location : VehicleLocation F)
    (s : IngestSys F W) (id : Int) (createdAt : Time) (h : ¬ Invalid location)
    (hc : (LS.Create location s.world).1 = .ok (id, createdAt)) :
    enhancedLocationService.SaveLocation LS location s
      = (none, { location with ID := id, CreatedAt := createdAt },
          { world := (LS.Create location s.world).2,
            trace := s.trace ++ [IngestCall.Create location]
              ++ [IngestCall.Go { location with ID := id, CreatedAt := createdAt }] }) := by
  unfold Invalid at h
  push_neg at h
  obtain ⟨h1, h2, h3, h4⟩ := h
  have h2' : ¬ (location.Latitude < ((-90 : Int) : F) ∨ location.Latitude > 90) := by
    rintro (h | h)
    · exact h2.1 h
    · exact h2.2 h
  have h3' : ¬ (location.Longitude < ((-180 : Int) : F) ∨ location.Longitude > 180) := by
    rintro (h | h)
    · exact h3.1 h
    · exact h3.2 h
  unfold enhancedLocationService.SaveLocation
  rw [if_neg h1, if_neg h2', if_neg h3', if_neg (not_le.2 h4)]
  simp only [hc]

theorem save_valid_storeCalls (LS : LocationStore F W) (location : VehicleLocation F)
    (s : IngestSys F W) (h : ¬ Invalid location) :
    storeCalls (enhancedLocationService.SaveLocation LS location s).2.2.trace
      = storeCalls s.trace ++ [location] := by
  cases hc : (LS.Create location s.world).1 with
  | error err =>
    rw [save_valid_error LS location s err h hc]
    simp [storeCalls_append, storeCalls]
  | ok r =>
    rw [save_valid_ok LS location s r.1 r.2 h hc]
    simp [storeCalls_append, storeCalls]

end IngestLemmas

section IngestClaims

variable {W : Type}

theorem invalid_real (location : VehicleLocation ℝ) :
    Invalid location ↔
      (location.VehicleID = "" ∨
        ¬ (-90 ≤ location.Latitude ∧ location.Latitude ≤ 90) ∨
        ¬ (-180 ≤ location.Longitude ∧ location.Longitude ≤ 180) ∨
        location.Timestamp ≤ 0) := by
  unfold Invalid
  have h1 : (location.Latitude < ((-90 : Int) : ℝ) ∨ location.Latitude > 90)
      ↔ ¬ (-90 ≤ location.Latitude ∧ location.Latitude ≤ 90) := by
    push_cast
    rw [not_and_or, not_le, not_le]
  have h2 : (location.Longitude < ((-180 : Int) : ℝ) ∨ location.Longitude > 180)
      ↔ ¬ (-180 ≤ location.Longitude ∧ location.Longitude ≤ 180) := by
    push_cast
    rw [not_and_or, not_le, not_le]
  rw [h1, h2]

/-- C16: for every `float64` arithmetic, `SaveLocation` returns one of its four validation
errors without calling the Location Store `Create` and without starting the geofencing
goroutine if and only if the vehicle id is empty, or the latitude is below -90 or above 90,
or the longitude is below -180 or above 180, or the timestamp is not positive; in that
case nothing at all is changed; and a report with a vehicle id, a positive timestamp,
`-90 ≤ latitude ≤ 90` and `-180 ≤ longitude ≤ 180`, the bounds included, reaches
`Create`.  The comparisons are those of the code: a coordinate that is neither below the
lower bound nor above the upper one passes them. -/
theorem SaveLocation_validation {F : Type} [Float64 F] (LS : LocationStore F W)
    (location : VehicleLocation F) (s : IngestSys F W) :
    (((∃ err, (enhancedLocationService.SaveLocation LS location s).1 = some err ∧
          IsValidationError LS location err) ∧
        storeCalls (enhancedLocationService.SaveLocation LS location s).2.2.trace
          = storeCalls s.trace ∧
        goCalls (enhancedLocationService.SaveLocation LS location s).2.2.trace
          = goCalls s.trace) ↔
      (location.VehicleID = "" ∨
        (location.Latitude < ((-90 : Int) : F) ∨ location.Latitude > 90) ∨
        (location.Longitude < ((-180 : Int) : F) ∨ location.Longitude > 180) ∨
        location.Timestamp ≤ 0)) ∧
    ((location.VehicleID = "" ∨
        (location.Latitude < ((-90 : Int) : F) ∨ location.Latitude > 90) ∨
        (location.Longitude < ((-180 : Int) : F) ∨ location.Longitude > 180) ∨
        location.Timestamp ≤ 0) →
      (enhancedLocationService.SaveLocation LS location s).2 = (location, s)) ∧
    ((∀ a b : F, a ≤ b → ¬ b < a) →
      location.VehicleID ≠ "" → 0 < location.Timestamp →
      ((-90 : Int) : F) ≤ location.Latitude → location.Latitude ≤ 90 →
      ((-180 : Int) : F) ≤ location.Longitude → location.Longitude ≤ 180 →
      storeCalls (enhancedLocationService.SaveLocation LS location s).2.2.trace
        = storeCalls s.trace ++ [location]) := by
  refine ⟨⟨?_, ?_⟩, ?_, ?_⟩
  · rintro ⟨_, hstore, _⟩
    by_contra hv
    rw [save_valid_storeCalls LS location s hv] at hstore
    have := congrArg List.length hstore
    simp at this
  · intro hinv
    obtain ⟨err, he, hval⟩ := save_invalid LS location s hinv
    rw [he]
    exact ⟨⟨err, rfl, hval⟩, rfl, rfl⟩
  · intro hinv
    obtain ⟨err, he, _⟩ := save_invalid LS location s hinv
    rw [he]
  · intro hord hid hts hlat1 hlat2 hlng1 hlng2
    apply save_valid_storeCalls
    rintro (h | h | h | h)
    · exact hid h
    · rcases h with h | h
      · exact hord _ _ hlat1 h
      · exact hord _ _ hlat2 h
    · rcases h with h | h
      · exact hord _ _ hlng1 h
      · exact hord _ _ hlng2 h
    · exact absurd hts (not_lt.2 h)

/-- Witness for C16: over the reals a report from latitude -90 and longitude 180 reaches
`Create`. -/
theorem SaveLocation_validation_witness :
    storeCalls (enhancedLocationService.SaveLocation (exampleStore ℝ (.ok (7, ⟨0⟩)))
        (boundsReport ℝ) (startIngest ℝ)).2.2.trace
      = storeCalls (startIngest ℝ).trace ++ [boundsReport ℝ] :=
  (SaveLocation_validation (exampleStore ℝ (.ok (7, ⟨0⟩))) (boundsReport ℝ)
      (startIngest ℝ)).2.2
    (fun _ _ h => not_lt.2 h) (by decide) (by decide)
    (le_refl _) (by simp only [boundsReport]; push_cast; norm_num)
    (by simp only [boundsReport]; push_cast; norm_num) (le_refl _)

end IngestClaims

section IngestFlow

variable {F W : Type} [Float64 F]

/-- C17: for a report that passes validation, if the Location Store `Create` fails then
`SaveLocation` returns the store's error wrapped as `failed to save location: ...`, after
exactly one `Create` call, and starts no geofencing goroutine. -/
theorem SaveLocation_store_failure (LS : LocationStore F W) (location : VehicleLocation F)
    (s : IngestSys F W) (err : Error) (hvalid : ¬ Invalid location)
    (hfail : (LS.Create location s.world).1 = .error err) :
    (enhancedLocationService.SaveLocation LS location s).1
      = some ("failed to save location: " ++ err) ∧
    storeCalls (enhancedLocationService.SaveLocation LS location s).2.2.trace
      = storeCalls s.trace ++ [location] ∧
    goCalls (enhancedLocationService.SaveLocation LS location s).2.2.trace
      = goCalls s.trace := by
  rw [save_valid_error LS location s err hvalid hfail]
  refine ⟨rfl, ?_, ?_⟩
  · simp [storeCalls_append, storeCalls]
  · simp [goCalls_append, goCalls]

/-- C18: for a report that passes validation and whose `Create` succeeds, `SaveLocation`
returns nil and starts exactly one goroutine, for that report as stored (with the id and
creation time the store assigned); in a full run that goroutine executes
`ProcessLocationForGeofencing` once, and the value `SaveLocation` returned is the same for
any two geofencing environments and detectors, whatever fails in them. -/
theorem SaveLocation_schedules (LS : LocationStore F W) (location : VehicleLocation F)
    (s : IngestSys F W) (id : Int) (createdAt : Time) (hvalid : ¬ Invalid location)
    (hok : (LS.Create location s.world).1 = .ok (id, createdAt)) :
    (enhancedLocationService.SaveLocation LS location s).1 = none ∧
    goCalls (enhancedLocationService.SaveLocation LS location s).2.2.trace
      = goCalls s.trace ++ [{ location with ID := id, CreatedAt := createdAt }] ∧
    (∀ (C : Collaborators F W) (d : Detector F),
      (ingest LS C d location s.world).2
        = (ProcessLocationForGeofencing C d
            { location with ID := id, CreatedAt := createdAt }
            { world := (LS.Create location s.world).2, trace := [] }).2) ∧
    ∀ (C1 C2 : Collaborators F W) (d1 d2 : Detector F),
      (ingest LS C1 d1 location s.world).1 = (ingest LS C2 d2 location s.world).1 := by
  refine ⟨?_, ?_, ?_, fun _ _ _ _ => rfl⟩
  · rw [save_valid_ok LS location s id createdAt hvalid hok]
  · rw [save_valid_ok LS location s id createdAt hvalid hok]
    simp [goCalls_append, goCalls]
  · intro C d
    unfold ingest
    rw [save_valid_ok LS location { world := s.world, trace := [] } id createdAt hvalid hok]
    simp [goCalls]

end IngestFlow

/-! ## The event consumer -/

section ConsumerClaims

variable {F W : Type}

theorem handlerCalls_append (t1 t2 : List (ConsumerCall F)) :
    handlerCalls (t1 ++ t2) = handlerCalls t1 ++ handlerCalls t2 := by
  simp [handlerCalls, List.filterMap_append]

theorem processMessage_undecodable (C : ConsumerCollaborators F W) (delivery : Delivery)
    (handler : MessageHandler F W) (s : ConsumerSys F W) (err : Error)
    (h : C.Unmarshal delivery.Body = .error err) :
    processMessage C delivery handler s
      = { world := (C.Nack delivery false false s.world).2
          trace := s.trace ++ [ConsumerCall.Nack delivery false false] } := by
  simp [processMessage, h]

/-- C19: for a delivery whose body does not decode, `processMessage` returns after exactly
one call, `Nack(false, false)` on that delivery (no requeue), without invoking the
handler; the receive loop then goes on with the remaining deliveries. -/
theorem processMessage_malformed (C : ConsumerCollaborators F W) (delivery : Delivery)
    (handler : MessageHandler F W) (s : ConsumerSys F W) (err : Error)
    (h : C.Unmarshal delivery.Body = .error err) :
    (processMessage C delivery handler s).trace
      = s.trace ++ [ConsumerCall.Nack delivery false false] ∧
    handlerCalls (processMessage C delivery handler s).trace = handlerCalls s.trace ∧
    (processMessage C delivery handler s).world
      = (C.Nack delivery false false s.world).2 ∧
    ∀ later : List Delivery,
      consumeLoop C handler (delivery :: later) s
        = consumeLoop C handler later
            { world := (C.Nack delivery false false s.world).2
              trace := s.trace ++ [ConsumerCall.Nack delivery false false] } := by
  rw [processMessage_undecodable C delivery handler s err h]
  refine ⟨rfl, by simp [handlerCalls_append, handlerCalls], rfl, ?_⟩
  intro later
  simp only [consumeLoop, List.foldl_cons]
  rw [processMessage_undecodable C delivery handler s err h]

/-- C20: for a delivery whose body decodes to `message`, `processMessage` invokes the
handler exactly once, on `message`, and then takes exactly one acknowledgement action on
the delivery: `Ack(false)` if the handler returned nil, `Nack(false, true)` (requeue) if
it returned an error. -/
theorem processMessage_decoded (C : ConsumerCollaborators F W) (delivery : Delivery)
    (handler : MessageHandler F W) (s : ConsumerSys F W) (message : GeofenceEventMessage F)
    (h : C.Unmarshal delivery.Body = .ok message) :
    (processMessage C delivery handler s).trace
      = s.trace ++ [ConsumerCall.Handler message,
          if (handler message s.world).1 = none then ConsumerCall.Ack delivery false
          else ConsumerCall.Nack delivery false true] ∧
    handlerCalls (processMessage C delivery handler s).trace
      = handlerCalls s.trace ++ [message] := by
  unfold processMessage
  simp only [h]
  cases hh : (handler message s.world).1 with
  | some err => simp [handlerCalls_append, handlerCalls]
  | none => simp [handlerCalls_append, handlerCalls]

end ConsumerClaims

/-! ## Worked instances of ingestion and consumption -/

section ServiceInstances

theorem monasReport_valid : ¬ Invalid (monasReport ℝ) := by
  rw [invalid_real]
  have h1 : (monasReport ℝ).Latitude = -6.1754 := monasLatitude_real
  have h2 : (monasReport ℝ).Longitude = 106.8272 := monasLongitude_real
  have h3 : (monasReport ℝ).VehicleID ≠ "" := by decide
  have h4 : ¬ ((monasReport ℝ).Timestamp ≤ 0) := by decide
  rw [h1, h2]
  rintro (h | h | h | h)
  · exact h3 h
  · norm_num at h
  · norm_num at h
  · exact h4 h

/-- Witness for C17: the Monas report against a store whose `Create` fails. -/
theorem SaveLocation_store_failure_witness :
    ¬ Invalid (monasReport ℝ) ∧
    ((exampleStore ℝ (.error "connection refused")).Create (monasReport ℝ) (startIngest ℝ).world).1
      = .error "connection refused" ∧
    (enhancedLocationService.SaveLocation (exampleStore ℝ (.error "connection refused")) (monasReport ℝ) (startIngest ℝ)).1
      = some ("failed to save location: " ++ "connection refused") ∧
    storeCalls (enhancedLocationService.SaveLocation (exampleStore ℝ (.error "connection refused")) (monasReport ℝ) (startIngest ℝ)).2.2.trace
      = storeCalls (startIngest ℝ).trace ++ [(monasReport ℝ)] ∧
    goCalls (enhancedLocationService.SaveLocation (exampleStore ℝ (.error "connection refused")) (monasReport ℝ) (startIngest ℝ)).2.2.trace
      = goCalls (startIngest ℝ).trace :=
  ⟨monasReport_valid, rfl,
    SaveLocation_store_failure _ _ _ _ monasReport_valid rfl⟩

/-- Witness for C18: the Monas report against a store that assigns id 7. -/
theorem SaveLocation_schedules_witness :
    ¬ Invalid (monasReport ℝ) ∧
    ((exampleStore ℝ (.ok (7, ⟨1000⟩))).Create (monasReport ℝ) (startIngest ℝ).world).1 = .ok (7, ⟨1000⟩) ∧
    (enhancedLocationService.SaveLocation (exampleStore ℝ (.ok (7, ⟨1000⟩))) (monasReport ℝ) (startIngest ℝ)).1 = none ∧
    goCalls (enhancedLocationService.SaveLocation (exampleStore ℝ (.ok (7, ⟨1000⟩))) (monasReport ℝ) (startIngest ℝ)).2.2.trace
      = goCalls (startIngest ℝ).trace ++ [{ (monasReport ℝ) with ID := 7, CreatedAt := ⟨1000⟩ }] ∧
    (∀ (C : Collaborators ℝ Nat) (d : Detector ℝ),
      (ingest (exampleStore ℝ (.ok (7, ⟨1000⟩))) C d (monasReport ℝ) (startIngest ℝ).world).2
        = (ProcessLocationForGeofencing C d
            { (monasReport ℝ) with ID := 7, CreatedAt := ⟨1000⟩ }
            { world := ((exampleStore ℝ (.ok (7, ⟨1000⟩))).Create (monasReport ℝ) (startIngest ℝ).world).2, trace := [] }).2) ∧
    ∀ (C1 C2 : Collaborators ℝ Nat) (d1 d2 : Detector ℝ),
      (ingest (exampleStore ℝ (.ok (7, ⟨1000⟩))) C1 d1 (monasReport ℝ) (startIngest ℝ).world).1
        = (ingest (exampleStore ℝ (.ok (7, ⟨1000⟩))) C2 d2 (monasReport ℝ) (startIngest ℝ).world).1 :=
  ⟨monasReport_valid, rfl, SaveLocation_schedules _ _ _ _ _ monasReport_valid rfl⟩

/-- Witness for C19: a delivery with an empty body, which the example decoder rejects. -/
theorem processMessage_malformed_witness :
    (exampleConsumer ℝ).Unmarshal ({ DeliveryTag := 1, Body := "" } : Delivery).Body
      = .error "unexpected end of JSON input" ∧
    (processMessage (exampleConsumer ℝ) { DeliveryTag := 1, Body := "" } (exampleHandler ℝ) (startConsumer ℝ)).trace
      = (startConsumer ℝ).trace ++ [ConsumerCall.Nack { DeliveryTag := 1, Body := "" } false false] ∧
    handlerCalls (processMessage (exampleConsumer ℝ) { DeliveryTag := 1, Body := "" } (exampleHandler ℝ) (startConsumer ℝ)).trace
      = handlerCalls (startConsumer ℝ).trace ∧
    (processMessage (exampleConsumer ℝ) { DeliveryTag := 1, Body := "" } (exampleHandler ℝ) (startConsumer ℝ)).world
      = ((exampleConsumer ℝ).Nack { DeliveryTag := 1, Body := "" } false false (startConsumer ℝ).world).2 ∧
    ∀ later : List Delivery,
      consumeLoop (exampleConsumer ℝ) (exampleHandler ℝ) ({ DeliveryTag := 1, Body := "" } :: later) (startConsumer ℝ)
        = consumeLoop (exampleConsumer ℝ) (exampleHandler ℝ) later
            { world := ((exampleConsumer ℝ).Nack { DeliveryTag := 1, Body := "" } false false (startConsumer ℝ).world).2
              trace := (startConsumer ℝ).trace ++ [ConsumerCall.Nack { DeliveryTag := 1, Body := "" } false false] } :=
  ⟨rfl, processMessage_malformed _ _ _ _ _ rfl⟩

/-- Witness for C20: a delivery that decodes, handled by a handler that fails on this first
attempt, so the delivery is rejected with requeue. -/
theorem processMessage_decoded_witness :
    (exampleConsumer ℝ).Unmarshal ({ DeliveryTag := 2, Body := "B1234XYZ" } : Delivery).Body = .ok (decoded ℝ "B1234XYZ") ∧
    ((exampleHandler ℝ) (decoded ℝ "B1234XYZ") (startConsumer ℝ).world).1 = some "handler failed" ∧
    (processMessage (exampleConsumer ℝ) { DeliveryTag := 2, Body := "B1234XYZ" } (exampleHandler ℝ) (startConsumer ℝ)).trace
      = (startConsumer ℝ).trace ++ [ConsumerCall.Handler (decoded ℝ "B1234XYZ"),
          if ((exampleHandler ℝ) (decoded ℝ "B1234XYZ") (startConsumer ℝ).world).1 = none
          then ConsumerCall.Ack { DeliveryTag := 2, Body := "B1234XYZ" } false
          else ConsumerCall.Nack { DeliveryTag := 2, Body := "B1234XYZ" } false true] ∧
    handlerCalls (processMessage (exampleConsumer ℝ) { DeliveryTag := 2, Body := "B1234XYZ" } (exampleHandler ℝ) (startConsumer ℝ)).trace
      = handlerCalls (startConsumer ℝ).trace ++ [decoded ℝ "B1234XYZ"] :=
  ⟨rfl, rfl, processMessage_decoded _ _ _ _ _ rfl⟩

end ServiceInstances

/-! ## The `/health` route -/

section HealthRoute

/-- C30: evaluation of the `/health` handler.  With a failing database check and MQTT or
RabbitMQ disconnected the status code is 206, not 503: the later `degraded` assignment
overwrites `unhealthy`.  The code is 503 exactly when the database check fails and both
clients are connected, 206 exactly when a client is disconnected, and 200 exactly when
all three are healthy. -/
theorem healthHandler_codes :
    (healthHandler (some "connection refused") false true).1 = 206 ∧
    (healthHandler (some "connection refused") false true).2
      = { status := "degraded", database := "disconnected", mqtt := "disconnected",
          rabbitmq := "connected" } ∧
    (∀ dbError mqttConnected rabbitConnected,
      (healthHandler dbError mqttConnected rabbitConnected).1 = 503 ↔
        dbError ≠ none ∧ mqttConnected = true ∧ rabbitConnected = true) ∧
    (∀ dbError mqttConnected rabbitConnected,
      (healthHandler dbError mqttConnected rabbitConnected).1 = 206 ↔
        mqttConnected = false ∨ rabbitConnected = false) ∧
    (∀ dbError mqttConnected rabbitConnected,
      (healthHandler dbError mqttConnected rabbitConnected).1 = 200 ↔
        dbError = none ∧ mqttConnected = true ∧ rabbitConnected = true) := by
  refine ⟨by decide, by decide, ?_, ?_, ?_⟩ <;>
  · intro dbError mqttConnected rabbitConnected
    cases dbError <;> cases mqttConnected <;> cases rabbitConnected <;>
      simp [healthHandler]

end HealthRoute

/-! ## The plain and the enhanced location service -/

section TwoServices

variable {F W : Type} [Float64 F]

/-- C28: on every report and every store, the plain and the enhanced `SaveLocation` return
the same error or nil, leave the same location and the same world, and make the same
Location Store `Create` calls; the plain service starts no goroutine, and the trace of the
enhanced one is that of the plain one, followed by one `Go` exactly when the save
succeeded. -/
theorem SaveLocation_plain_enhanced (LS : LocationStore F W) (location : VehicleLocation F)
    (s : IngestSys F W) :
    (locationService.SaveLocation LS location s).1
      = (enhancedLocationService.SaveLocation LS location s).1 ∧
    (locationService.SaveLocation LS location s).2.1
      = (enhancedLocationService.SaveLocation LS location s).2.1 ∧
    (locationService.SaveLocation LS location s).2.2.world
      = (enhancedLocationService.SaveLocation LS location s).2.2.world ∧
    storeCalls (locationService.SaveLocation LS location s).2.2.trace
      = storeCalls (enhancedLocationService.SaveLocation LS location s).2.2.trace ∧
    goCalls (locationService.SaveLocation LS location s).2.2.trace = goCalls s.trace ∧
    (enhancedLocationService.SaveLocation LS location s).2.2.trace
      = (locationService.SaveLocation LS location s).2.2.trace
        ++ (if (enhancedLocationService.SaveLocation LS location s).1 = none
            then [IngestCall.Go (enhancedLocationService.SaveLocation LS location s).2.1]
            else []) := by
  unfold locationService.SaveLocation enhancedLocationService.SaveLocation
  split
  · simp
  · split
    · simp
    · split
      · simp
      · split
        · simp
        · cases hc : (LS.Create location s.world).1 with
          | error err => simp [hc, storeCalls_append, goCalls_append, storeCalls, goCalls]
          | ok r => simp [hc, storeCalls_append, goCalls_append, storeCalls, goCalls]

end TwoServices


section Payloads

variable {F W : Type}

theorem foldl_processResult_publishCalls (C : Collaborators F W)
    (location : VehicleLocation F) (results : List (GeofenceResult F)) (s : Sys F W)
    (h : ∀ r ∈ results, r.Entered = true) :
    ∃ sent : List (GeofenceResult F), sent.Sublist results ∧
      publishCalls (results.foldl (processResult C location) s).trace
        = publishCalls s.trace ++ sent.map (newEventMessage location) := by
  induction results generalizing s with
  | nil => exact ⟨[], List.Sublist.refl _, by simp⟩
  | cons r rs ih =>
    obtain ⟨sent, hsub, hp⟩ := ih (processResult C location s r)
      (fun x hx => h x (List.mem_cons_of_mem _ hx))
    rw [List.foldl_cons, hp, processResult_publishCalls C location s r
      (h r (List.mem_cons_self _ _))]
    by_cases hc : (C.Create (newGeofenceEvent location r.Geofence) s.world).1 = none
    · exact ⟨r :: sent, hsub.cons₂ r, by simp [hc]⟩
    · exact ⟨sent, hsub.cons r, by simp [hc]⟩

/-- C23: when the evaluation succeeds with `results`, the events passed to `Create` are,
in order, one per result, carrying the location's vehicle id, latitude, longitude and
timestamp and the id of the result's geofence; the messages passed to the publisher are
those of a sublist of the results, each carrying the same vehicle id, latitude, longitude
and timestamp, the geofence's name, and the haversine distance `CheckGeofences` computed
for that geofence. -/
theorem ProcessLocationForGeofencing_payloads [Float64 F] (C : Collaborators F W)
    (d : Detector F) (location : VehicleLocation F) (s : Sys F W)
    (results : List (GeofenceResult F))
    (h : (CheckGeofences C d location s).1 = .ok results) :
    createCalls (ProcessLocationForGeofencing C d location s).2.2.trace
      = createCalls s.trace ++ results.map (fun r => newGeofenceEvent location r.Geofence) ∧
    (∃ sent : List (GeofenceResult F), sent.Sublist results ∧
      publishCalls (ProcessLocationForGeofencing C d location s).2.2.trace
        = publishCalls s.trace ++ sent.map (newEventMessage location)) ∧
    ∀ r ∈ results,
      (newGeofenceEvent location r.Geofence).VehicleID = location.VehicleID ∧
      (newGeofenceEvent location r.Geofence).Latitude = location.Latitude ∧
      (newGeofenceEvent location r.Geofence).Longitude = location.Longitude ∧
      (newGeofenceEvent location r.Geofence).Timestamp = location.Timestamp ∧
      (newGeofenceEvent location r.Geofence).GeofenceID = some r.Geofence.ID ∧
      (newEventMessage location r).VehicleID = location.VehicleID ∧
      (newEventMessage location r).Location.Latitude = location.Latitude ∧
      (newEventMessage location r).Location.Longitude = location.Longitude ∧
      (newEventMessage location r).Timestamp = location.Timestamp ∧
      (newEventMessage location r).GeofenceName = r.Geofence.Name ∧
      (newEventMessage location r).Distance
        = HaversineDistance location.Latitude location.Longitude
            r.Geofence.Latitude r.Geofence.Longitude := by
  have hent := check_entered C d location s results h
  refine ⟨?_, ?_, ?_⟩
  · rw [process_ok C d location s results h]
    simp only []
    rw [foldl_processResult_createCalls C location results _ hent, check_createCalls]
  · obtain ⟨sent, hsub, hp⟩ := foldl_processResult_publishCalls C location results
      (CheckGeofences C d location s).2.2 hent
    refine ⟨sent, hsub, ?_⟩
    rw [process_ok C d location s results h]
    simp only []
    rw [hp, check_publishCalls]
  · intro r hr
    have hres := check_result C d location s results h
    rw [hres, checkLoop_eq] at hr
    obtain ⟨g, _, rfl⟩ := List.mem_map.1 hr
    exact ⟨rfl, rfl, rfl, rfl, rfl, rfl, rfl, rfl, rfl, rfl, rfl⟩

/-- C22: for an unchanged location and a cache that stays fresh, a second run of the
pipeline leaves the detector unchanged and its `CheckGeofences` returns the same results
up to order as the first; the detector holds only the snapshot and `lastUpdated`, and the
second run calls `Create` again for every result, exactly as the first did. -/
theorem ProcessLocationForGeofencing_repeat [Float64 F] (C : Collaborators F W)
    (d : Detector F) (location : VehicleLocation F) (s : Sys F W)
    (h1 : (Since C d.lastUpdated s).1 ≤ 5 * Minute)
    (h2 : (Since C d.lastUpdated (ProcessLocationForGeofencing C d location s).2.2).1
      ≤ 5 * Minute) :
    (ProcessLocationForGeofencing C d location s).2.1 = d ∧
    ∃ rs1 rs2,
      (CheckGeofences C d location s).1 = .ok rs1 ∧
      (CheckGeofences C d location (ProcessLocationForGeofencing C d location s).2.2).1
        = .ok rs2 ∧
      rs1.Perm rs2 ∧
      rs1.Perm (((cached d.cache).filter (fun g => decide (Contains location g))).map
        (resultOf location)) ∧
      createCalls (ProcessLocationForGeofencing C d location s).2.2.trace
        = createCalls s.trace ++ rs1.map (fun r => newGeofenceEvent location r.Geofence) ∧
      createCalls (ProcessLocationForGeofencing C d location
          (ProcessLocationForGeofencing C d location s).2.2).2.2.trace
        = createCalls (ProcessLocationForGeofencing C d location s).2.2.trace
          ++ rs2.map (fun r => newGeofenceEvent location r.Geofence) := by
  have e1 := check_fresh C d location s h1
  have e2 := check_fresh C d location _ h2
  have c1 : (CheckGeofences C d location s).1
      = .ok (checkLoop C d.cache location (Since C d.lastUpdated s).2.world) := by rw [e1]
  have c2 : (CheckGeofences C d location (ProcessLocationForGeofencing C d location s).2.2).1
      = .ok (checkLoop C d.cache location
          (Since C d.lastUpdated (ProcessLocationForGeofencing C d location s).2.2).2.world) := by
    rw [e2]
  have hd : (ProcessLocationForGeofencing C d location s).2.1 = d := by
    rw [process_ok C d location s _ c1, e1]
  have p1 := checkLoop_perm C d.cache location (Since C d.lastUpdated s).2.world
  have p2 := checkLoop_perm C d.cache location
    (Since C d.lastUpdated (ProcessLocationForGeofencing C d location s).2.2).2.world
  refine ⟨hd, _, _, c1, c2, p1.trans p2.symm, p1, ?_, ?_⟩
  · rw [process_ok C d location s _ c1]
    simp only []
    rw [foldl_processResult_createCalls C location _ _ (check_entered C d location s _ c1),
      check_createCalls]
  · rw [process_ok C d location _ _ c2]
    simp only []
    rw [foldl_processResult_createCalls C location _ _
      (check_entered C d location _ _ c2), check_createCalls]

end Payloads

/-! ## Redelivery -/

section Redelivery

variable {F W : Type}

theorem processMessage_handler_error (C : ConsumerCollaborators F W) (delivery : Delivery)
    (handler : MessageHandler F W) (s : ConsumerSys F W) (message : GeofenceEventMessage F)
    (err : Error) (hd : C.Unmarshal delivery.Body = .ok message)
    (hh : (handler message s.world).1 = some err) :
    processMessage C delivery handler s
      = { world := (C.Nack delivery false true (handler message s.world).2).2
          trace := s.trace
            ++ [ConsumerCall.Handler message, ConsumerCall.Nack delivery false true] } := by
  simp [processMessage, hd, hh]

theorem processMessage_handler_ok (C : ConsumerCollaborators F W) (delivery : Delivery)
    (handler : MessageHandler F W) (s : ConsumerSys F W) (message : GeofenceEventMessage F)
    (hd : C.Unmarshal delivery.Body = .ok message)
    (hh : (handler message s.world).1 = none) :
    processMessage C delivery handler s
      = { world := (C.Ack delivery false (handler message s.world).2).2
          trace := s.trace
            ++ [ConsumerCall.Handler message, ConsumerCall.Ack delivery false] } := by
  simp [processMessage, hd, hh]

theorem lastRequeued_nack (trace : List (ConsumerCall F)) (message : GeofenceEventMessage F)
    (delivery : Delivery) :
    lastRequeued (trace ++ [ConsumerCall.Handler message,
      ConsumerCall.Nack delivery false true]) = true := by
  simp [lastRequeued, List.getLast?_append]

theorem lastRequeued_ack (trace : List (ConsumerCall F)) (message : GeofenceEventMessage F)
    (delivery : Delivery) :
    lastRequeued (trace ++ [ConsumerCall.Handler message,
      ConsumerCall.Ack delivery false]) = false := by
  simp [lastRequeued, List.getLast?_append]

theorem deliveries_empty (C : ConsumerCollaborators F W) (handler : MessageHandler F W)
    (n : Nat) (s : ConsumerSys F W) : deliveries C handler n ([], s) = ([], s) := by
  induction n with
  | zero => rfl
  | succ n ih => simp [deliveries, deliverNext, ih]

theorem ackCalls_append (t1 t2 : List (ConsumerCall F)) :
    ackCalls (t1 ++ t2) = ackCalls t1 ++ ackCalls t2 := by
  simp [ackCalls, List.filterMap_append]

/-- C21: over a queue that redelivers what is rejected with requeue, a delivery that
decodes and whose handler fails on the first attempt and succeeds on the second is still
in the queue after the first attempt, and after the second the queue is empty for good:
the consumer has run the handler exactly twice, answered `Nack` with requeue and then
`Ack`, and acknowledged the delivery exactly once. -/
theorem redelivery_until_success (C : ConsumerCollaborators F W) (delivery : Delivery)
    (handler : MessageHandler F W) (s : ConsumerSys F W) (message : GeofenceEventMessage F)
    (err : Error) (hd : C.Unmarshal delivery.Body = .ok message)
    (h1 : (handler message s.world).1 = some err)
    (h2 : (handler message (C.Nack delivery false true (handler message s.world).2).2).1
      = none) :
    (deliveries C handler 1 ([delivery], s)).1 = [delivery] ∧
    (deliveries C handler 1 ([delivery], s)).2.trace
      = s.trace ++ [ConsumerCall.Handler message, ConsumerCall.Nack delivery false true] ∧
    ∀ n, (deliveries C handler (n + 2) ([delivery], s)).1 = [] ∧
      (deliveries C handler (n + 2) ([delivery], s)).2.trace
        = s.trace ++ [ConsumerCall.Handler message, ConsumerCall.Nack delivery false true,
            ConsumerCall.Handler message, ConsumerCall.Ack delivery false] ∧
      handlerCalls (deliveries C handler (n + 2) ([delivery], s)).2.trace
        = handlerCalls s.trace ++ [message, message] ∧
      ackCalls (deliveries C handler (n + 2) ([delivery], s)).2.trace
        = ackCalls s.trace ++ [delivery] := by
  have e1 := processMessage_handler_error C delivery handler s message err hd h1
  have step1 : deliverNext C handler ([delivery], s)
      = ([delivery], { world := (C.Nack delivery false true (handler message s.world).2).2
                       trace := s.trace ++ [ConsumerCall.Handler message,
                         ConsumerCall.Nack delivery false true] }) := by
    simp only [deliverNext, e1, lastRequeued_nack, if_true, List.nil_append]
  have e2 := processMessage_handler_ok C delivery handler
    { world := (C.Nack delivery false true (handler message s.world).2).2
      trace := s.trace ++ [ConsumerCall.Handler message,
        ConsumerCall.Nack delivery false true] } message hd h2
  have step2 : deliverNext C handler (deliverNext C handler ([delivery], s))
      = ([], { world := (C.Ack delivery false (handler message
                  (C.Nack delivery false true (handler message s.world).2).2).2).2
               trace := s.trace ++ [ConsumerCall.Handler message,
                 ConsumerCall.Nack delivery false true, ConsumerCall.Handler message,
                 ConsumerCall.Ack delivery false] }) := by
    rw [step1]
    simp only [deliverNext, e2, lastRequeued_ack]
    simp
  refine ⟨?_, ?_, ?_⟩
  · simp only [deliveries, step1]
  · simp only [deliveries, step1]
  · intro n
    have hn : deliveries C handler (n + 2) ([delivery], s)
        = deliverNext C handler (deliverNext C handler ([delivery], s)) := by
      simp only [deliveries]
      rw [step2, deliveries_empty]
    rw [hn, step2]
    refine ⟨rfl, rfl, ?_, ?_⟩
    · simp [handlerCalls_append, handlerCalls]
    · simp [ackCalls_append, ackCalls]

end Redelivery

/-! ## MQTT topics -/

section Topics

theorem dropLiteral_append (lit text : List Char) : dropLiteral lit (lit ++ text) = some text := by
  induction lit with
  | nil => cases text <;> rfl
  | cons c lit ih => simp [dropLiteral, ih]

theorem dropLiteral_some (lit text rest : List Char) (h : dropLiteral lit text = some rest) :
    text = lit ++ rest := by
  induction lit generalizing text with
  | nil =>
    cases text <;> simp [dropLiteral] at h <;> simp [h]
  | cons c lit ih =>
    cases text with
    | nil => simp [dropLiteral] at h
    | cons d text =>
      by_cases hcd : c = d
      · subst hcd
        simp only [dropLiteral, if_true] at h
        rw [ih text h]
        rfl
      · simp [dropLiteral, hcd] at h

theorem takeWhile_segment (id rest : List Char) (h : '/' ∉ id) :
    (id ++ '/' :: rest).takeWhile (fun c => c != '/') = id ∧
    (id ++ '/' :: rest).dropWhile (fun c => c != '/') = '/' :: rest := by
  induction id with
  | nil => simp
  | cons c id ih =>
    have hc : c ≠ '/' := fun e => h (by simp [e])
    have hid : '/' ∉ id := fun e => h (List.mem_cons_of_mem _ e)
    obtain ⟨h1, h2⟩ := ih hid
    simp [List.takeWhile_cons, List.dropWhile_cons, hc, h1, h2]

theorem locationTopic_toList (vehicleID : String) :
    (locationTopic vehicleID).toList
      = "/fleet/vehicle/".toList ++ (vehicleID.toList ++ "/location".toList) := by
  simp [locationTopic, List.append_assoc]

theorem string_ne_empty (id : String) : id ≠ "" ↔ id.toList ≠ [] := by
  constructor
  · intro h h2
    exact h (String.ext h2)
  · intro h h2
    apply h
    rw [h2]
    rfl

theorem FindStringSubmatch_locationTopic (vehicleID : String) (hne : vehicleID ≠ "")
    (hs : '/' ∉ vehicleID.toList) :
    FindStringSubmatch (locationTopic vehicleID) = [locationTopic vehicleID, vehicleID] := by
  have hseg := takeWhile_segment vehicleID.toList "location".toList hs
  have hsuf : vehicleID.toList ++ "/location".toList
      = vehicleID.toList ++ '/' :: "location".toList := rfl
  unfold FindStringSubmatch
  rw [locationTopic_toList, dropLiteral_append]
  simp only []
  rw [hsuf, hseg.1, hseg.2]
  have h1 : vehicleID.toList ≠ [] := (string_ne_empty vehicleID).1 hne
  have h2 : ('/' :: "location".toList) = "/location".toList := rfl
  rw [if_pos ⟨h1, h2⟩]
  rfl

theorem FindStringSubmatch_cases (topic : String) :
    FindStringSubmatch topic = [] ∨
    ∃ vehicleID : String, vehicleID ≠ "" ∧ '/' ∉ vehicleID.toList ∧
      topic = locationTopic vehicleID ∧ FindStringSubmatch topic = [topic, vehicleID] := by
  unfold FindStringSubmatch
  cases hd : dropLiteral "/fleet/vehicle/".toList topic.toList with
  | none => left; rfl
  | some rest =>
    simp only []
    by_cases hm : rest.takeWhile (fun c => c != '/') ≠ [] ∧
        rest.dropWhile (fun c => c != '/') = "/location".toList
    · right
      rw [if_pos hm]
      refine ⟨String.mk (rest.takeWhile (fun c => c != '/')), ?_, ?_, ?_, rfl⟩
      · rw [string_ne_empty]
        exact hm.1
      · intro hmem
        have := List.mem_takeWhile_imp hmem
        simp at this
      · apply String.ext
        have ht := dropLiteral_some _ _ _ hd
        have hr := List.takeWhile_append_dropWhile (fun c => c != '/') rest
        rw [hm.2] at hr
        show topic.toList = (locationTopic _).toList
        rw [locationTopic_toList, ht]
        show _ = _ ++ (rest.takeWhile (fun c => c != '/') ++ _)
        rw [hr]
    · left
      rw [if_neg hm]

theorem extract_locationTopic (vehicleID : String) (hne : vehicleID ≠ "")
    (hs : '/' ∉ vehicleID.toList) :
    extractVehicleIDFromTopic (locationTopic vehicleID) = .ok vehicleID := by
  unfold extractVehicleIDFromTopic
  simp only [FindStringSubmatch_locationTopic vehicleID hne hs]
  simp [hne]

theorem extract_cases (topic : String) :
    extractVehicleIDFromTopic topic
      = .error ("topic does not match expected pattern: " ++ topic) ∨
    ∃ vehicleID : String, vehicleID ≠ "" ∧ '/' ∉ vehicleID.toList ∧
      topic = locationTopic vehicleID ∧ extractVehicleIDFromTopic topic = .ok vehicleID := by
  rcases FindStringSubmatch_cases topic with h | ⟨vehicleID, hne, hs, ht, _⟩
  · left
    unfold extractVehicleIDFromTopic
    simp [h]
  · right
    exact ⟨vehicleID, hne, hs, ht, by rw [ht]; exact extract_locationTopic vehicleID hne hs⟩

theorem locationTopic_injective (a b : String) (h : locationTopic a = locationTopic b) :
    a = b := by
  have h2 := congrArg String.toList h
  rw [locationTopic_toList, locationTopic_toList] at h2
  have h3 := List.append_cancel_right (List.append_cancel_left h2)
  exact String.ext h3

end Topics

section TopicClaims

variable {F W : Type}

theorem publishLocation_topic (M : MqttCollaborators F W) (vehicleID : String)
    (latitude longitude : F) (timestamp : Int) (s : MqttSys F W) :
    (PublishLocation M vehicleID latitude longitude timestamp s).2.published = s.published ∨
    ∃ payload, (PublishLocation M vehicleID latitude longitude timestamp s).2.published
      = s.published ++ [(locationTopic vehicleID, payload)] := by
  unfold PublishLocation
  cases hc : M.IsConnected s.world
  · left
    simp
  · cases hm : M.Marshal (⟨vehicleID, latitude, longitude, timestamp⟩ : LocationMessage F) with
    | error e =>
      left
      simp [hm]
    | ok payload =>
      right
      refine ⟨payload, ?_⟩
      cases hr : (M.Publish (locationTopic vehicleID) 1 false payload s.world).1 <;>
        simp [hm, hr]

/-- C29: for a non-empty vehicle id without `/`, `extractVehicleIDFromTopic` applied to the
topic `PublishLocation` formats for it returns that id; a topic that is not
`/fleet/vehicle/<id>/location` for such an id is answered with the pattern error; whenever
the match has two elements the group is not empty, so the empty-id branch is never taken;
and every topic `PublishLocation` publishes on is the formatted one. -/
theorem extractVehicleIDFromTopic_spec :
    (∀ vehicleID : String, vehicleID ≠ "" → '/' ∉ vehicleID.toList →
      extractVehicleIDFromTopic (locationTopic vehicleID) = .ok vehicleID) ∧
    (∀ topic : String,
      (¬ ∃ vehicleID : String, vehicleID ≠ "" ∧ '/' ∉ vehicleID.toList ∧
        topic = locationTopic vehicleID) →
      extractVehicleIDFromTopic topic
        = .error ("topic does not match expected pattern: " ++ topic)) ∧
    (∀ topic : String, (FindStringSubmatch topic).length = 2 →
      (FindStringSubmatch topic).getD 1 "" ≠ "") ∧
    (∀ (M : MqttCollaborators F W) (vehicleID : String) (latitude longitude : F)
      (timestamp : Int) (s : MqttSys F W),
      (PublishLocation M vehicleID latitude longitude timestamp s).2.published = s.published ∨
      ∃ payload, (PublishLocation M vehicleID latitude longitude timestamp s).2.published
        = s.published ++ [(locationTopic vehicleID, payload)]) := by
  refine ⟨extract_locationTopic, ?_, ?_, publishLocation_topic⟩
  · intro topic hno
    rcases extract_cases topic with h | ⟨vehicleID, hne, hs, ht, _⟩
    · exact h
    · exact absurd ⟨vehicleID, hne, hs, ht⟩ hno
  · intro topic hlen
    rcases FindStringSubmatch_cases topic with h | ⟨vehicleID, hne, _, _, h⟩
    · rw [h] at hlen
      simp at hlen
    · rw [h]
      simpa using hne

/-- C25: for a topic `/fleet/vehicle/<id>/location` (id non-empty, without `/`) and a
payload that decodes, `handleLocationMessage` hands exactly one location to
`SaveLocation`: it carries the id of the topic, whatever id the payload names, and the
payload's latitude, longitude and timestamp; a payload that does not decode, or a topic
that does not match, gives an error without any `SaveLocation` call. -/
theorem handleLocationMessage_spec (M : MqttCollaborators F W)
    (save : VehicleLocation F → W → Option Error × W) (topic payload : String)
    (s : MqttSys F W) :
    (∀ (vehicleID : String) (msg : LocationMessage F), vehicleID ≠ "" →
      '/' ∉ vehicleID.toList → topic = locationTopic vehicleID →
      M.Unmarshal payload = .ok msg →
      (handleLocationMessage M save topic payload s).2.saved
        = s.saved ++ [{ ID := 0, VehicleID := vehicleID, Latitude := msg.Latitude,
                        Longitude := msg.Longitude, Timestamp := msg.Timestamp,
                        CreatedAt := zeroTime }]) ∧
    (∀ err, M.Unmarshal payload = .error err →
      (∃ e, (handleLocationMessage M save topic payload s).1 = some e) ∧
      (handleLocationMessage M save topic payload s).2 = s) ∧
    ((¬ ∃ vehicleID : String, vehicleID ≠ "" ∧ '/' ∉ vehicleID.toList ∧
        topic = locationTopic vehicleID) →
      (handleLocationMessage M save topic payload s).1
        = some ("topic does not match expected pattern: " ++ topic) ∧
      (handleLocationMessage M save topic payload s).2 = s) := by
  refine ⟨?_, ?_, ?_⟩
  · intro vehicleID msg hne hs ht hm
    have he := extract_locationTopic vehicleID hne hs
    rw [← ht] at he
    unfold handleLocationMessage
    simp only [he, hm]
    by_cases hv : msg.VehicleID = vehicleID
    · cases h : (save _ s.world).1 <;> simp [hv]
    · cases h : (save _ s.world).1 <;> simp [hv]
  · intro err hm
    unfold handleLocationMessage
    cases he : extractVehicleIDFromTopic topic with
    | error e => exact ⟨⟨_, rfl⟩, rfl⟩
    | ok vehicleID => simp [hm]
  · intro hno
    have he : extractVehicleIDFromTopic topic
        = .error ("topic does not match expected pattern: " ++ topic) := by
      rcases extract_cases topic with h | ⟨vehicleID, hne, hs, ht, _⟩
      · exact h
      · exact absurd ⟨vehicleID, hne, hs, ht⟩ hno
    simp [handleLocationMessage, he]

end TopicClaims

/-! ## Worked instances of redelivery and of repeated evaluation -/

section FinalInstances

/-- Witness for C21: the example handler fails while no acknowledgement action has been
taken and succeeds afterwards. -/
theorem redelivery_until_success_witness :
    (exampleConsumer ℝ).Unmarshal ({ DeliveryTag := 2, Body := "B1234XYZ" } : Delivery).Body = .ok (decoded ℝ "B1234XYZ") ∧
    ((exampleHandler ℝ) (decoded ℝ "B1234XYZ") (startConsumer ℝ).world).1 = some "handler failed" ∧
    ((exampleHandler ℝ) (decoded ℝ "B1234XYZ")
      ((exampleConsumer ℝ).Nack { DeliveryTag := 2, Body := "B1234XYZ" } false true ((exampleHandler ℝ) (decoded ℝ "B1234XYZ") (startConsumer ℝ).world).2).2).1 = none ∧
    (deliveries (exampleConsumer ℝ) (exampleHandler ℝ) 1 ([{ DeliveryTag := 2, Body := "B1234XYZ" }], (startConsumer ℝ))).1 = [{ DeliveryTag := 2, Body := "B1234XYZ" }] ∧
    (deliveries (exampleConsumer ℝ) (exampleHandler ℝ) 1 ([{ DeliveryTag := 2, Body := "B1234XYZ" }], (startConsumer ℝ))).2.trace
      = (startConsumer ℝ).trace ++ [ConsumerCall.Handler (decoded ℝ "B1234XYZ"),
          ConsumerCall.Nack { DeliveryTag := 2, Body := "B1234XYZ" } false true] ∧
    ∀ n, (deliveries (exampleConsumer ℝ) (exampleHandler ℝ) (n + 2) ([{ DeliveryTag := 2, Body := "B1234XYZ" }], (startConsumer ℝ))).1 = [] ∧
      (deliveries (exampleConsumer ℝ) (exampleHandler ℝ) (n + 2) ([{ DeliveryTag := 2, Body := "B1234XYZ" }], (startConsumer ℝ))).2.trace
        = (startConsumer ℝ).trace ++ [ConsumerCall.Handler (decoded ℝ "B1234XYZ"),
            ConsumerCall.Nack { DeliveryTag := 2, Body := "B1234XYZ" } false true,
            ConsumerCall.Handler (decoded ℝ "B1234XYZ"),
            ConsumerCall.Ack { DeliveryTag := 2, Body := "B1234XYZ" } false] ∧
      handlerCalls (deliveries (exampleConsumer ℝ) (exampleHandler ℝ) (n + 2) ([{ DeliveryTag := 2, Body := "B1234XYZ" }], (startConsumer ℝ))).2.trace
        = handlerCalls (startConsumer ℝ).trace ++ [(decoded ℝ "B1234XYZ"), (decoded ℝ "B1234XYZ")] ∧
      ackCalls (deliveries (exampleConsumer ℝ) (exampleHandler ℝ) (n + 2) ([{ DeliveryTag := 2, Body := "B1234XYZ" }], (startConsumer ℝ))).2.trace
        = ackCalls (startConsumer ℝ).trace ++ [{ DeliveryTag := 2, Body := "B1234XYZ" }] :=
  ⟨rfl, rfl, rfl, redelivery_until_success _ _ _ _ _ "handler failed" rfl rfl rfl⟩

theorem example_fresh_again :
    (Since (freshWorld ℝ) (exampleDetector ℝ).lastUpdated (ProcessLocationForGeofencing (freshWorld ℝ) (exampleDetector ℝ) (atMonas ℝ) (startSys ℝ)).2.2).1 ≤ 5 * Minute := by
  decide

/-- Witness for C22: the pipeline run twice on the fresh example detector for the same
location, which lies in both of its geofences. -/
theorem ProcessLocationForGeofencing_repeat_witness :
    (Since (freshWorld ℝ) (exampleDetector ℝ).lastUpdated (startSys ℝ)).1 ≤ 5 * Minute ∧
    (Since (freshWorld ℝ) (exampleDetector ℝ).lastUpdated (ProcessLocationForGeofencing (freshWorld ℝ) (exampleDetector ℝ) (atMonas ℝ) (startSys ℝ)).2.2).1 ≤ 5 * Minute ∧
    (ProcessLocationForGeofencing (freshWorld ℝ) (exampleDetector ℝ) (atMonas ℝ) (startSys ℝ)).2.1 = (exampleDetector ℝ) ∧
    ∃ rs1 rs2,
      (CheckGeofences (freshWorld ℝ) (exampleDetector ℝ) (atMonas ℝ) (startSys ℝ)).1 = .ok rs1 ∧
      (CheckGeofences (freshWorld ℝ) (exampleDetector ℝ) (atMonas ℝ) (ProcessLocationForGeofencing (freshWorld ℝ) (exampleDetector ℝ) (atMonas ℝ) (startSys ℝ)).2.2).1 = .ok rs2 ∧
      rs1.Perm rs2 ∧
      rs1.Perm (((cached (exampleDetector ℝ).cache).filter (fun g => decide (Contains (atMonas ℝ) g))).map
        (resultOf (atMonas ℝ))) ∧
      createCalls (ProcessLocationForGeofencing (freshWorld ℝ) (exampleDetector ℝ) (atMonas ℝ) (startSys ℝ)).2.2.trace
        = createCalls (startSys ℝ).trace ++ rs1.map (fun r => newGeofenceEvent (atMonas ℝ) r.Geofence) ∧
      createCalls (ProcessLocationForGeofencing (freshWorld ℝ) (exampleDetector ℝ) (atMonas ℝ) (ProcessLocationForGeofencing (freshWorld ℝ) (exampleDetector ℝ) (atMonas ℝ) (startSys ℝ)).2.2).2.2.trace
        = createCalls (ProcessLocationForGeofencing (freshWorld ℝ) (exampleDetector ℝ) (atMonas ℝ) (startSys ℝ)).2.2.trace
          ++ rs2.map (fun r => newGeofenceEvent (atMonas ℝ) r.Geofence) :=
  ⟨example_fresh, example_fresh_again,
    ProcessLocationForGeofencing_repeat _ _ _ _ example_fresh example_fresh_again⟩

/-- Witness for C23: the fresh example detector and the location inside both of its
geofences. -/
theorem ProcessLocationForGeofencing_payloads_witness :
    (CheckGeofences (freshWorld ℝ) (exampleDetector ℝ) (atMonas ℝ) (startSys ℝ)).1 = .ok [resultOf (atMonas ℝ) (merdeka ℝ), resultOf (atMonas ℝ) (monas ℝ)] ∧
    createCalls (ProcessLocationForGeofencing (freshWorld ℝ) (exampleDetector ℝ) (atMonas ℝ) (startSys ℝ)).2.2.trace
      = createCalls (startSys ℝ).trace ++ [resultOf (atMonas ℝ) (merdeka ℝ), resultOf (atMonas ℝ) (monas ℝ)].map (fun r => newGeofenceEvent (atMonas ℝ) r.Geofence) ∧
    (∃ sent : List (GeofenceResult ℝ), sent.Sublist [resultOf (atMonas ℝ) (merdeka ℝ), resultOf (atMonas ℝ) (monas ℝ)] ∧
      publishCalls (ProcessLocationForGeofencing (freshWorld ℝ) (exampleDetector ℝ) (atMonas ℝ) (startSys ℝ)).2.2.trace
        = publishCalls (startSys ℝ).trace ++ sent.map (newEventMessage (atMonas ℝ))) ∧
    ∀ r ∈ [resultOf (atMonas ℝ) (merdeka ℝ), resultOf (atMonas ℝ) (monas ℝ)],
      (newGeofenceEvent (atMonas ℝ) r.Geofence).VehicleID = (atMonas ℝ).VehicleID ∧
      (newGeofenceEvent (atMonas ℝ) r.Geofence).Latitude = (atMonas ℝ).Latitude ∧
      (newGeofenceEvent (atMonas ℝ) r.Geofence).Longitude = (atMonas ℝ).Longitude ∧
      (newGeofenceEvent (atMonas ℝ) r.Geofence).Timestamp = (atMonas ℝ).Timestamp ∧
      (newGeofenceEvent (atMonas ℝ) r.Geofence).GeofenceID = some r.Geofence.ID ∧
      (newEventMessage (atMonas ℝ) r).VehicleID = (atMonas ℝ).VehicleID ∧
      (newEventMessage (atMonas ℝ) r).Location.Latitude = (atMonas ℝ).Latitude ∧
      (newEventMessage (atMonas ℝ) r).Location.Longitude = (atMonas ℝ).Longitude ∧
      (newEventMessage (atMonas ℝ) r).Timestamp = (atMonas ℝ).Timestamp ∧
      (newEventMessage (atMonas ℝ) r).GeofenceName = r.Geofence.Name ∧
      (newEventMessage (atMonas ℝ) r).Distance
        = HaversineDistance (atMonas ℝ).Latitude (atMonas ℝ).Longitude
            r.Geofence.Latitude r.Geofence.Longitude :=
  ⟨example_check_ok, ProcessLocationForGeofencing_payloads _ _ _ _ _ example_check_ok⟩

end FinalInstances

/-! ## The haversine term over real arithmetic -/

section HaversineRange

theorem cos_latitude_nonneg (lat : ℝ) (h1 : -90 ≤ lat) (h2 : lat ≤ 90) :
    0 ≤ Real.cos (lat * Real.pi / 180) := by
  have hpi : 0 < Real.pi := Real.pi_pos
  apply Real.cos_nonneg_of_neg_pi_div_two_le_of_le
  · nlinarith
  · nlinarith

theorem haversineA_range_real (lat1 lng1 lat2 lng2 : ℝ) (h1 : -90 ≤ lat1 ∧ lat1 ≤ 90)
    (h2 : -90 ≤ lat2 ∧ lat2 ≤ 90) :
    0 ≤ haversineA lat1 lng1 lat2 lng2 ∧ haversineA lat1 lng1 lat2 lng2 ≤ 1 := by
  have hc1 := cos_latitude_nonneg lat1 h1.1 h1.2
  have hc2 := cos_latitude_nonneg lat2 h2.1 h2.2
  simp only [haversineA, Pi_real, Sin_real, Cos_real]
  generalize hθ : (lat2 * Real.pi / 180 - lat1 * Real.pi / 180) / 2 = θ
  generalize (lng2 * Real.pi / 180 - lng1 * Real.pi / 180) / 2 = ψ
  have hs := Real.sin_sq_eq_half_sub θ
  have h2θ : 2 * θ = lat2 * Real.pi / 180 - lat1 * Real.pi / 180 := by rw [← hθ]; ring
  rw [h2θ, Real.cos_sub] at hs
  have hadd := Real.cos_add (lat1 * Real.pi / 180) (lat2 * Real.pi / 180)
  have hle := Real.cos_le_one (lat1 * Real.pi / 180 + lat2 * Real.pi / 180)
  have hψ1 : Real.sin ψ * Real.sin ψ ≤ 1 := by nlinarith [Real.sin_sq_add_cos_sq ψ]
  have hψ0 : 0 ≤ Real.sin ψ * Real.sin ψ := mul_self_nonneg _
  have hcc : 0 ≤ Real.cos (lat1 * Real.pi / 180) * Real.cos (lat2 * Real.pi / 180) :=
    mul_nonneg hc1 hc2
  constructor
  · have := mul_nonneg hcc hψ0
    nlinarith [mul_self_nonneg (Real.sin θ)]
  · have hb : Real.cos (lat1 * Real.pi / 180) * Real.cos (lat2 * Real.pi / 180)
        * (Real.sin ψ * Real.sin ψ)
        ≤ Real.cos (lat1 * Real.pi / 180) * Real.cos (lat2 * Real.pi / 180) := by
      nlinarith
    nlinarith

theorem haversine_range_real (lat1 lng1 lat2 lng2 : ℝ) :
    0 ≤ HaversineDistance lat1 lng1 lat2 lng2 ∧
    HaversineDistance lat1 lng1 lat2 lng2 ≤ Real.pi * 6371000 := by
  simp only [HaversineDistance, Sqrt_real, Atan2_real]
  generalize haversineA lat1 lng1 lat2 lng2 = a
  have him : 0 ≤ (⟨Real.sqrt (1 - a), Real.sqrt a⟩ : ℂ).im := Real.sqrt_nonneg _
  have hre : 0 ≤ (⟨Real.sqrt (1 - a), Real.sqrt a⟩ : ℂ).re := Real.sqrt_nonneg _
  have h0 := Complex.arg_nonneg_iff.2 him
  have hhalf := (abs_le.1 (Complex.abs_arg_le_pi_div_two_iff.2 hre)).2
  constructor
  · positivity
  · nlinarith

end HaversineRange

/-! ## The wire shape -/

section WireShape

variable {F W : Type}

theorem publishedBodies_append (t1 t2 : List (Call F)) :
    publishedBodies (t1 ++ t2) = publishedBodies t1 ++ publishedBodies t2 := by
  simp [publishedBodies, List.filterMap_append]

theorem check_publishedBodies [Float64 F] (C : Collaborators F W) (d : Detector F)
    (location : VehicleLocation F) (s : Sys F W) :
    publishedBodies (CheckGeofences C d location s).2.2.trace = publishedBodies s.trace := by
  rcases check_trace C d location s with h | h <;> rw [h]
  simp [publishedBodies_append, publishedBodies]

theorem publish_bodies (C : Collaborators F W) (message : GeofenceEventMessage F)
    (s : Sys F W) :
    publishedBodies (PublishGeofenceEvent C message s).2.trace = publishedBodies s.trace ∨
    ∃ body, C.Marshal message = .ok body ∧
      publishedBodies (PublishGeofenceEvent C message s).2.trace
        = publishedBodies s.trace ++ [body] := by
  unfold PublishGeofenceEvent
  simp only []
  split
  · left; simp [publishedBodies_append, publishedBodies]
  · split
    · left; simp [publishedBodies_append, publishedBodies]
    · rename_i body hb
      right
      refine ⟨body, hb, ?_⟩
      split <;> simp [publishedBodies_append, publishedBodies, Now]

theorem publish_marshal_error (C : Collaborators F W) (message : GeofenceEventMessage F)
    (s : Sys F W) (err : Error) (h : C.Marshal message = .error err) :
    (PublishGeofenceEvent C message s).1 ≠ none ∧
    publishedBodies (PublishGeofenceEvent C message s).2.trace = publishedBodies s.trace := by
  unfold PublishGeofenceEvent
  simp only [h]
  split <;> simp [publishedBodies_append, publishedBodies]

theorem publish_succeeds_bodies (C : Collaborators F W) (hp : PublisherSucceeds C)
    (message : GeofenceEventMessage F) (body : String) (hb : C.Marshal message = .ok body)
    (s : Sys F W) :
    publishedBodies (PublishGeofenceEvent C message s).2.trace
      = publishedBodies s.trace ++ [body] := by
  obtain ⟨hc, _, hw⟩ := hp
  unfold PublishGeofenceEvent
  simp [hc, hb, hw, publishedBodies_append, publishedBodies, Now]

theorem processResult_bodies (C : Collaborators F W) (location : VehicleLocation F)
    (s : Sys F W) (result : GeofenceResult F) :
    publishedBodies (processResult C location s result).trace = publishedBodies s.trace ∨
    ∃ body, C.Marshal (newEventMessage location result) = .ok body ∧
      publishedBodies (processResult C location s result).trace
        = publishedBodies s.trace ++ [body] := by
  unfold processResult
  split
  · unfold ProcessGeofenceEntry
    simp only []
    cases (C.Create (newGeofenceEvent location result.Geofence) s.world).1 with
    | some err => left; simp [publishedBodies_append, publishedBodies]
    | none =>
      simp only []
      rcases publish_bodies C (newEventMessage location result)
        { world := (C.Create (newGeofenceEvent location result.Geofence) s.world).2,
          trace := s.trace ++ [Call.Create (newGeofenceEvent location result.Geofence)] }
        with h | ⟨body, hb, h⟩
      · left; rw [h]; simp [publishedBodies_append, publishedBodies]
      · right
        refine ⟨body, hb, ?_⟩
        rw [h]; simp [publishedBodies_append, publishedBodies]
  · left; rfl

theorem processResult_success_bodies (C : Collaborators F W) (location : VehicleLocation F)
    (s : Sys F W) (result : GeofenceResult F) (h : result.Entered = true)
    (hstore : StoreSucceeds C) (hpub : PublisherSucceeds C) (body : String)
    (hb : C.Marshal (newEventMessage location result) = .ok body) :
    publishedBodies (processResult C location s result).trace
      = publishedBodies s.trace ++ [body] := by
  unfold processResult
  rw [if_pos h]
  unfold ProcessGeofenceEntry
  simp only [hstore _ _]
  rw [publish_succeeds_bodies C hpub _ body hb]
  simp [publishedBodies_append, publishedBodies]

theorem foldl_processResult_bodies (C : Collaborators F W)
    (location : VehicleLocation F) (results : List (GeofenceResult F)) (s : Sys F W) :
    ∃ bodies : List String,
      publishedBodies (results.foldl (processResult C location) s).trace
        = publishedBodies s.trace ++ bodies ∧
      ∀ body ∈ bodies, ∃ r ∈ results, C.Marshal (newEventMessage location r) = .ok body := by
  induction results generalizing s with
  | nil => exact ⟨[], by simp, by simp⟩
  | cons r rs ih =>
    obtain ⟨bodies, h, hall⟩ := ih (processResult C location s r)
    rw [List.foldl_cons, h]
    rcases processResult_bodies C location s r with h1 | ⟨body, hb, h1⟩
    · refine ⟨bodies, by rw [h1], ?_⟩
      intro b hmem
      obtain ⟨r2, hr2, hm⟩ := hall b hmem
      exact ⟨r2, List.mem_cons_of_mem _ hr2, hm⟩
    · refine ⟨body :: bodies, by rw [h1]; simp, ?_⟩
      intro b hmem
      rcases List.mem_cons.1 hmem with e | hmem
      · subst e
        exact ⟨r, List.mem_cons_self _ _, hb⟩
      · obtain ⟨r2, hr2, hm⟩ := hall b hmem
        exact ⟨r2, List.mem_cons_of_mem _ hr2, hm⟩

theorem process_bodies [Float64 F] (C : Collaborators F W) (d : Detector F)
    (location : VehicleLocation F) (s : Sys F W) :
    ∃ bodies : List String,
      publishedBodies (ProcessLocationForGeofencing C d location s).2.2.trace
        = publishedBodies s.trace ++ bodies ∧
      ∀ body ∈ bodies, ∃ results, (CheckGeofences C d location s).1 = .ok results ∧
        ∃ r ∈ results, C.Marshal (newEventMessage location r) = .ok body := by
  cases hc : (CheckGeofences C d location s).1 with
  | error err =>
    rw [process_error C d location s err hc]
    exact ⟨[], by simp [check_publishedBodies], by simp⟩
  | ok results =>
    rw [process_ok C d location s results hc]
    obtain ⟨bodies, h, hall⟩ := foldl_processResult_bodies C location results
      (CheckGeofences C d location s).2.2
    refine ⟨bodies, by rw [h, check_publishedBodies], ?_⟩
    intro b hmem
    exact ⟨results, rfl, hall b hmem⟩

theorem marshalMembers_shape [Float64 F] (enc : JSONEncoder F)
    (message : GeofenceEventMessage F) (members : List (String × String))
    (h : marshalMembers enc message = .ok members) :
    ∃ lat lng, enc.number message.Location.Latitude = .ok lat ∧
      enc.number message.Location.Longitude = .ok lng ∧
      ∃ tail, members
          = [("vehicle_id", enc.string message.VehicleID),
              ("event", enc.string message.Event),
              ("location", renderObject enc [("latitude", lat), ("longitude", lng)]),
              ("timestamp", toString message.Timestamp)]
            ++ (if message.GeofenceName = "" then []
                else [("geofence_name", enc.string message.GeofenceName)])
            ++ tail ∧
        ((IsZero message.Distance ∧ tail = []) ∨
          (¬ IsZero message.Distance ∧
            ∃ text, enc.number message.Distance = .ok text ∧ tail = [("distance", text)])) := by
  unfold marshalMembers GeofenceEventMessage.fields Location.fields at h
  cases hlat : enc.number message.Location.Latitude with
  | error e => simp [encodeFields, encodeMember, encodeValue, isEmptyMember, isEmptyValue, hlat] at h
  | ok lat =>
    cases hlng : enc.number message.Location.Longitude with
    | error e =>
      simp [encodeFields, encodeMember, encodeValue, isEmptyMember, isEmptyValue, hlat, hlng] at h
    | ok lng =>
      refine ⟨lat, lng, rfl, rfl, ?_⟩
      by_cases hn : message.GeofenceName = "" <;> by_cases hz : IsZero message.Distance
      · refine ⟨[], ?_, Or.inl ⟨hz, rfl⟩⟩
        simp [encodeFields, encodeMember, encodeValue, isEmptyMember, isEmptyValue, hlat, hlng,
          hn, hz] at h
        simp [hn, ← h]
      · cases hd : enc.number message.Distance with
        | error e =>
          simp [encodeFields, encodeMember, encodeValue, isEmptyMember, isEmptyValue, hlat,
            hlng, hn, hz, hd] at h
        | ok text =>
          refine ⟨[("distance", text)], ?_, Or.inr ⟨hz, text, rfl, rfl⟩⟩
          simp [encodeFields, encodeMember, encodeValue, isEmptyMember, isEmptyValue, hlat,
            hlng, hn, hz, hd] at h
          simp [hn, ← h]
      · refine ⟨[], ?_, Or.inl ⟨hz, rfl⟩⟩
        simp [encodeFields, encodeMember, encodeValue, isEmptyMember, isEmptyValue, hlat, hlng,
          hn, hz] at h
        simp [hn, ← h]
      · cases hd : enc.number message.Distance with
        | error e =>
          simp [encodeFields, encodeMember, encodeValue, isEmptyMember, isEmptyValue, hlat,
            hlng, hn, hz, hd] at h
        | ok text =>
          refine ⟨[("distance", text)], ?_, Or.inr ⟨hz, text, rfl, rfl⟩⟩
          simp [encodeFields, encodeMember, encodeValue, isEmptyMember, isEmptyValue, hlat,
            hlng, hn, hz, hd] at h
          simp [hn, ← h]

theorem marshalMembers_keys [Float64 F] (enc : JSONEncoder F)
    (message : GeofenceEventMessage F) (members : List (String × String))
    (h : marshalMembers enc message = .ok members) :
    members.map Prod.fst
      = ["vehicle_id", "event", "location", "timestamp"]
        ++ (if message.GeofenceName = "" then [] else ["geofence_name"])
        ++ (if IsZero message.Distance then [] else ["distance"]) := by
  obtain ⟨lat, lng, _, _, tail, hm, ht⟩ := marshalMembers_shape enc message members h
  rw [hm]
  rcases ht with ⟨hz, rfl⟩ | ⟨hz, text, _, rfl⟩ <;>
    by_cases hn : message.GeofenceName = "" <;> simp [hn, hz]

theorem jsonMarshal_ok [Float64 F] (enc : JSONEncoder F) (message : GeofenceEventMessage F)
    (body : String) (h : jsonMarshal enc message = .ok body) :
    ∃ members, marshalMembers enc message = .ok members ∧ body = renderObject enc members := by
  unfold jsonMarshal at h
  cases hm : marshalMembers enc message with
  | error e => simp [hm] at h
  | ok members =>
    simp [hm] at h
    exact ⟨members, rfl, h.symm⟩

theorem jsonMarshal_unsupported [Float64 F] (enc : JSONEncoder F)
    (message : GeofenceEventMessage F) (err : Error)
    (h : (enc.number message.Location.Latitude = .error err ∨
        enc.number message.Location.Longitude = .error err) ∨
      (¬ IsZero message.Distance ∧ enc.number message.Distance = .error err)) :
    ∃ e, jsonMarshal enc message = .error e := by
  cases hj : jsonMarshal enc message with
  | error e => exact ⟨e, rfl⟩
  | ok body =>
    obtain ⟨members, hm, _⟩ := jsonMarshal_ok enc message body hj
    obtain ⟨lat, lng, hlat, hlng, tail, _, ht⟩ := marshalMembers_shape enc message members hm
    rcases h with (h | h) | ⟨hz, h⟩
    · rw [h] at hlat; cases hlat
    · rw [h] at hlng; cases hlng
    · rcases ht with ⟨hz2, _⟩ | ⟨_, text, hd, _⟩
      · exact absurd hz2 hz
      · rw [h] at hd; cases hd

end WireShape

section WireShapeClaims

variable {F W : Type} [Float64 F]

/-- C24 (amended): when the publisher serialises with `json.Marshal`, every body that
`ProcessLocationForGeofencing` hands to the channel is the JSON object written for the
message of a result of the evaluation.  Its members are `vehicle_id`, `event`, `location`
(an object with `latitude` and `longitude`) and `timestamp`, then `geofence_name` exactly
when the geofence name is not empty, then `distance` exactly when the distance is not
zero. -/
theorem ProcessLocationForGeofencing_bodies (C : Collaborators F W) (enc : JSONEncoder F)
    (hM : ∀ message, C.Marshal message = jsonMarshal enc message)
    (d : Detector F) (location : VehicleLocation F) (s : Sys F W) :
    ∃ bodies : List String,
      publishedBodies (ProcessLocationForGeofencing C d location s).2.2.trace
        = publishedBodies s.trace ++ bodies ∧
      ∀ body ∈ bodies, ∃ results, (CheckGeofences C d location s).1 = .ok results ∧
        ∃ r ∈ results, ∃ members lat lng,
          marshalMembers enc (newEventMessage location r) = .ok members ∧
          body = renderObject enc members ∧
          enc.number location.Latitude = .ok lat ∧
          enc.number location.Longitude = .ok lng ∧
          ("location", renderObject enc [("latitude", lat), ("longitude", lng)]) ∈ members ∧
          members.map Prod.fst
            = ["vehicle_id", "event", "location", "timestamp"]
              ++ (if r.Geofence.Name = "" then [] else ["geofence_name"])
              ++ (if IsZero r.Distance then [] else ["distance"]) ∧
          ("geofence_name" ∈ members.map Prod.fst ↔ r.Geofence.Name ≠ "") ∧
          ("distance" ∈ members.map Prod.fst ↔ ¬ IsZero r.Distance) := by
  obtain ⟨bodies, hb, hall⟩ := process_bodies C d location s
  refine ⟨bodies, hb, ?_⟩
  intro body hmem
  obtain ⟨results, hres, r, hr, hbody⟩ := hall body hmem
  rw [hM] at hbody
  obtain ⟨members, hm, hrender⟩ := jsonMarshal_ok enc _ body hbody
  obtain ⟨lat, lng, hlat, hlng, tail, hshape, _⟩ := marshalMembers_shape enc _ members hm
  have hk := marshalMembers_keys enc _ members hm
  have hk2 : members.map Prod.fst
      = ["vehicle_id", "event", "location", "timestamp"]
        ++ (if r.Geofence.Name = "" then [] else ["geofence_name"])
        ++ (if IsZero r.Distance then [] else ["distance"]) := hk
  refine ⟨results, hres, r, hr, members, lat, lng, hm, hrender, hlat, hlng, ?_, hk2, ?_, ?_⟩
  · rw [hshape]
    simp
  · rw [hk2]
    by_cases h1 : r.Geofence.Name = "" <;> by_cases h2 : IsZero r.Distance <;> simp [h1, h2]
  · rw [hk2]
    by_cases h1 : r.Geofence.Name = "" <;> by_cases h2 : IsZero r.Distance <;> simp [h1, h2]

end WireShapeClaims

section WireShapeInstances

theorem marshalMembers_example {F : Type} [Float64 F] (message : GeofenceEventMessage F) :
    marshalMembers (exampleEncoder F) message
      = .ok ([("vehicle_id", (exampleEncoder F).string message.VehicleID),
              ("event", (exampleEncoder F).string message.Event),
              ("location", renderObject (exampleEncoder F)
                [("latitude", "<float>"), ("longitude", "<float>")]),
              ("timestamp", toString message.Timestamp)]
            ++ (if message.GeofenceName = "" then []
                else [("geofence_name", (exampleEncoder F).string message.GeofenceName)])
            ++ (if IsZero message.Distance then [] else [("distance", "<float>")])) := by
  unfold marshalMembers GeofenceEventMessage.fields Location.fields
  by_cases hn : message.GeofenceName = "" <;> by_cases hz : IsZero message.Distance <;>
    simp [encodeFields, encodeMember, encodeValue, isEmptyMember, isEmptyValue, exampleEncoder,
      hn, hz]

theorem wireWorld_marshal {F : Type} [Float64 F] (message : GeofenceEventMessage F) :
    (wireWorld F).Marshal message = jsonMarshal (exampleEncoder F) message := rfl

theorem wireWorld_fresh (d : Detector ℝ) (h : d.lastUpdated = ⟨0⟩) :
    (Since (wireWorld ℝ) d.lastUpdated (startSys ℝ)).1 ≤ 5 * Minute := by
  rw [h]
  decide

theorem wireWorld_store (F : Type) [Float64 F] : StoreSucceeds (wireWorld F) :=
  fun _ _ => rfl

theorem wireWorld_publisher (F : Type) [Float64 F] : PublisherSucceeds (wireWorld F) :=
  ⟨fun _ => rfl,
    fun message => ⟨_, by rw [wireWorld_marshal, jsonMarshal, marshalMembers_example]⟩,
    fun _ _ _ _ _ _ => rfl⟩

theorem wireWorld_scenario (d : Detector ℝ) (g : Geofence ℝ) (hd : d.lastUpdated = ⟨0⟩)
    (hcache : d.cache.entries = [⟨1, g⟩])
    (hlat : g.Latitude = (monasReport ℝ).Latitude)
    (hlng : g.Longitude = (monasReport ℝ).Longitude) (hr : 0 ≤ g.Radius) :
    ∃ members,
      marshalMembers (exampleEncoder ℝ)
          (newEventMessage (monasReport ℝ) { Geofence := g, Distance := 0, Entered := true })
        = .ok members ∧
      publishedBodies (ProcessLocationForGeofencing (wireWorld ℝ) d (monasReport ℝ)
          (startSys ℝ)).2.2.trace
        = [renderObject (exampleEncoder ℝ) members] ∧
      members.map Prod.fst
        = ["vehicle_id", "event", "location", "timestamp"]
          ++ (if g.Name = "" then [] else ["geofence_name"]) := by
  have hcheck := (monas_scenario (wireWorld ℝ) d (monasReport ℝ) (startSys ℝ) 1 g
    (wireWorld_fresh d hd) hcache hlat hlng hr (wireWorld_store ℝ) (wireWorld_publisher ℝ)).1
  have hz : IsZero (0 : ℝ) := ⟨le_refl _, le_refl _⟩
  have hm := marshalMembers_example
    (newEventMessage (monasReport ℝ) { Geofence := g, Distance := 0, Entered := true })
  refine ⟨_, hm, ?_, ?_⟩
  · rw [process_ok (wireWorld ℝ) d (monasReport ℝ) (startSys ℝ) _ hcheck]
    simp only [List.foldl_cons, List.foldl_nil]
    rw [processResult_success_bodies (wireWorld ℝ) (monasReport ℝ) _ _ rfl (wireWorld_store ℝ)
      (wireWorld_publisher ℝ) _ (by rw [wireWorld_marshal, jsonMarshal, hm]),
      check_publishedBodies]
    rfl
  · by_cases hn : g.Name = "" <;> simp [newEventMessage, hn, hz]

/-- Counterexample to C24: in the Monas scenario, with `json.Marshal` as the serialiser, the
one body handed to the channel is the object of a message with distance 0 and has no
`distance` member; with a geofence whose name is empty the body has neither `distance` nor
`geofence_name`. -/
theorem marshal_omits_counterexample :
    (∃ members,
      publishedBodies (ProcessLocationForGeofencing (wireWorld ℝ) (monasDetector ℝ)
          (monasReport ℝ) (startSys ℝ)).2.2.trace
        = [renderObject (exampleEncoder ℝ) members] ∧
      members.map Prod.fst
        = ["vehicle_id", "event", "location", "timestamp", "geofence_name"] ∧
      "distance" ∉ members.map Prod.fst) ∧
    (∃ members,
      publishedBodies (ProcessLocationForGeofencing (wireWorld ℝ) (unnamedDetector ℝ)
          (monasReport ℝ) (startSys ℝ)).2.2.trace
        = [renderObject (exampleEncoder ℝ) members] ∧
      members.map Prod.fst = ["vehicle_id", "event", "location", "timestamp"] ∧
      "distance" ∉ members.map Prod.fst ∧ "geofence_name" ∉ members.map Prod.fst) := by
  constructor
  · obtain ⟨members, _, hb, hk⟩ := wireWorld_scenario (monasDetector ℝ) (monasGeofence ℝ) rfl
      rfl rfl rfl (by decide)
    have hn : (monasGeofence ℝ).Name ≠ "" := by decide
    rw [if_neg hn] at hk
    exact ⟨members, hb, hk, by rw [hk]; decide⟩
  · obtain ⟨members, _, hb, hk⟩ := wireWorld_scenario (unnamedDetector ℝ) (unnamedGeofence ℝ)
      rfl rfl rfl rfl (by decide)
    have hn : (unnamedGeofence ℝ).Name = "" := rfl
    rw [if_pos hn] at hk
    exact ⟨members, hb, hk, by rw [hk]; decide, by rw [hk]; decide⟩

/-- Witness for C24: the Monas scenario with `json.Marshal` as the serialiser. -/
theorem ProcessLocationForGeofencing_bodies_witness :
    (∀ message, (wireWorld ℝ).Marshal message = jsonMarshal (exampleEncoder ℝ) message) ∧
    ∃ bodies : List String,
      publishedBodies (ProcessLocationForGeofencing (wireWorld ℝ) (monasDetector ℝ)
          (monasReport ℝ) (startSys ℝ)).2.2.trace
        = publishedBodies (startSys ℝ).trace ++ bodies ∧
      ∀ body ∈ bodies, ∃ results,
        (CheckGeofences (wireWorld ℝ) (monasDetector ℝ) (monasReport ℝ) (startSys ℝ)).1
          = .ok results ∧
        ∃ r ∈ results, ∃ members lat lng,
          marshalMembers (exampleEncoder ℝ) (newEventMessage (monasReport ℝ) r)
            = .ok members ∧
          body = renderObject (exampleEncoder ℝ) members ∧
          (exampleEncoder ℝ).number (monasReport ℝ).Latitude = .ok lat ∧
          (exampleEncoder ℝ).number (monasReport ℝ).Longitude = .ok lng ∧
          ("location", renderObject (exampleEncoder ℝ)
            [("latitude", lat), ("longitude", lng)]) ∈ members ∧
          members.map Prod.fst
            = ["vehicle_id", "event", "location", "timestamp"]
              ++ (if r.Geofence.Name = "" then [] else ["geofence_name"])
              ++ (if IsZero r.Distance then [] else ["distance"]) ∧
          ("geofence_name" ∈ members.map Prod.fst ↔ r.Geofence.Name ≠ "") ∧
          ("distance" ∈ members.map Prod.fst ↔ ¬ IsZero r.Distance) :=
  ⟨fun _ => rfl,
    ProcessLocationForGeofencing_bodies (wireWorld ℝ) (exampleEncoder ℝ) (fun _ => rfl)
      (monasDetector ℝ) (monasReport ℝ) (startSys ℝ)⟩

end WireShapeInstances

end Fleet
